import Mathlib

/-!
# WirePlumber: proxy augmentation, startup transition, config policy, virtual audio item

Four models follow, each in its own namespace: `WpProxyModel` for
lib/wp/proxy.c, `WpInitTransitionModel` for the startup transition of
src/main.c, `WpConfigPolicyModel` for
modules/module-config-policy/config-policy.c, and `WpSiAudioVirtualModel`
for the activation callbacks of modules/module-si-audio-virtual.c.  The
definitions of all four come first, the theorems after them.

## WpProxy augmentation protocol (lib/wp/proxy.c)

A shallow embedding of the augment state of `WpProxy` and of the functions
that mutate it: `proxy_event_destroy`, `wp_proxy_constructed`,
`wp_proxy_default_augment`, `wp_proxy_augment`, `wp_proxy_set_feature_ready`,
`wp_proxy_augment_error` and `wp_proxy_bind_global`.

The private structure becomes a record, every C function a pure function on
that record.  Observable effects (task creation and resolution, signal
emission, property notification, the bind request, the virtual call of the
class `augment` routine) are appended to a trace carried by the record.
Feature masks are natural numbers acted on by the bitwise operators; the
code only uses `|`, `&` and `^` on them, so no wrap-around can occur.

Signal emission and property notification are recorded, not dispatched: the
proxy is of the base class and no handler is connected, so no handler calls
back into the proxy.  The precondition checks (`g_return_if_fail`) are
taken as compiled in; `WP_IS_PROXY (self)` always holds here.
-/

namespace WpProxyModel

/-! ## Data model -/

/-- Feature flags (`WpProxyFeatures`): a bitmask. -/
abbrev WpProxyFeatures := Nat

/-- Error domains used with `g_error_new` in the sources. -/
inductive GErrorDomain
  | WP_DOMAIN_LIBRARY
  | WP_DOMAIN_DAEMON
deriving DecidableEq, Repr

/-- Error codes of the library domain, as far as the sources use them. -/
inductive WpLibraryErrorEnum
  | WP_LIBRARY_ERROR_INVARIANT
  | WP_LIBRARY_ERROR_INVALID_ARGUMENT
  | WP_LIBRARY_ERROR_OPERATION_FAILED
deriving DecidableEq, Repr

/-- A `GError`: domain, code and message. -/
structure GError where
  domain : GErrorDomain
  code : WpLibraryErrorEnum
  message : String
deriving DecidableEq, Repr

/-- Observable effects, in program order.  A `GTask` is named by the number
it received when `g_task_new` created it. -/
inductive Event
  | g_task_new (t : Nat)
  | g_task_return_boolean (t : Nat) (v : Bool)
  | g_task_return_error (t : Nat) (e : GError)
  | signal_pw_proxy_created (pw_proxy : Nat)
  | signal_pw_proxy_destroyed
  | notify_features
  | proxy_bind (remote global_id iface_type : Nat)
  | add_listener (pw_proxy : Nat)
  | klass_augment (features : WpProxyFeatures)
deriving DecidableEq, Repr

/-- The fields of `WpProxyPrivate` that the augment protocol reads or writes
(`remote` is the weak reference: `none` once the remote is gone; `pw_proxy`
and `task` are `none` for `NULL`), followed by two bookkeeping fields:
the number the next `g_task_new` hands out, and the trace of effects. -/
structure WpProxy where
  remote : Option Nat
  global_id : Nat
  iface_type : Nat
  pw_proxy : Option Nat
  ft_ready : WpProxyFeatures
  ft_wanted : WpProxyFeatures
  task : Option Nat
  next_task : Nat
  trace : List Event
deriving DecidableEq, Repr

/-- Declarations that proxy.c takes from headers and collaborators outside
the sources at hand: the value of the flag `WP_PROXY_FEATURE_PW_PROXY`
(proxy.h) and the handle that `wp_remote_pipewire_proxy_bind` returns for a
remote, a global id and an interface type (assumed non-NULL, as the code
dereferences it at once). -/
structure Env where
  WP_PROXY_FEATURE_PW_PROXY : WpProxyFeatures
  wp_remote_pipewire_proxy_bind : Nat → Nat → Nat → Nat

/-- The class structure: the `augment` virtual method, `none` for `NULL`. -/
structure WpProxyClass where
  augment : Option (WpProxyFeatures → WpProxy → WpProxy)

/-! ## Operations -/

/-- Append one effect to the trace. -/
def emit (e : Event) (s : WpProxy) : WpProxy :=
  { s with trace := s.trace ++ [e] }

/-- Embedding of `proxy_event_destroy` (proxy.c 130-148). -/
def proxy_event_destroy (s : WpProxy) : WpProxy :=
  let s := { s with pw_proxy := none }
  let s := emit Event.signal_pw_proxy_destroyed s
  match s.task with
  | some t =>
    let s := emit (Event.g_task_return_error t
      ⟨GErrorDomain.WP_DOMAIN_LIBRARY,
       WpLibraryErrorEnum.WP_LIBRARY_ERROR_OPERATION_FAILED,
       "pipewire node proxy destroyed before finishing"⟩) s
    { s with task := none }
  | none => s

/-- Embedding of `wp_proxy_constructed` (proxy.c 162-176). -/
def wp_proxy_constructed (env : Env) (s : WpProxy) : WpProxy :=
  match s.pw_proxy with
  | some p =>
    let s := { s with ft_ready := s.ft_ready ||| env.WP_PROXY_FEATURE_PW_PROXY }
    emit (Event.signal_pw_proxy_created p) s
  | none => s

/-- Embedding of `wp_proxy_set_feature_ready` (proxy.c 454-477). -/
def wp_proxy_set_feature_ready (feature : WpProxyFeatures) (s : WpProxy) : WpProxy :=
  if s.ft_ready &&& feature ≠ 0 then s
  else
    let s := { s with ft_ready := s.ft_ready ||| feature }
    let s := emit Event.notify_features s
    match s.task with
    | some t =>
      if s.ft_ready &&& s.ft_wanted = s.ft_wanted then
        let s := emit (Event.g_task_return_boolean t true) s
        { s with task := none }
      else s
    | none => s

/-- Embedding of `wp_proxy_augment_error` (proxy.c 486-501). -/
def wp_proxy_augment_error (error : GError) (s : WpProxy) : WpProxy :=
  match s.task with
  | some t =>
    let s := emit (Event.g_task_return_error t error) s
    { s with task := none }
  | none => s

/-- Embedding of `wp_proxy_get_global_id` (proxy.c 570-579). -/
def wp_proxy_get_global_id (s : WpProxy) : Nat := s.global_id

/-- Embedding of `wp_proxy_is_global` (proxy.c 564-568). -/
def wp_proxy_is_global (s : WpProxy) : Bool := wp_proxy_get_global_id s != 0

/-- Embedding of `wp_proxy_bind_global` (proxy.c 503-534): the returned
boolean and the state afterwards. -/
def wp_proxy_bind_global (env : Env) (s : WpProxy) : Bool × WpProxy :=
  if !wp_proxy_is_global s then (false, s)
  else if s.pw_proxy.isSome then (false, s)
  else
    match s.remote with
    | none => (false, s)
    | some remote =>
      let p := env.wp_remote_pipewire_proxy_bind remote s.global_id s.iface_type
      let s := emit (Event.proxy_bind remote s.global_id s.iface_type) s
      let s := { s with pw_proxy := some p }
      let s := emit (Event.add_listener p) s
      let s := emit (Event.signal_pw_proxy_created p) s
      let s := wp_proxy_set_feature_ready env.WP_PROXY_FEATURE_PW_PROXY s
      (true, s)

/-- The error the default routine reports when the proxy has no global id
(proxy.c 294-296). -/
def no_global_id_error : GError :=
  ⟨GErrorDomain.WP_DOMAIN_LIBRARY,
   WpLibraryErrorEnum.WP_LIBRARY_ERROR_INVALID_ARGUMENT,
   "No global id specified; cannot bind pw_proxy"⟩

/-- Embedding of `wp_proxy_default_augment` (proxy.c 279-302). -/
def wp_proxy_default_augment (env : Env) (features : WpProxyFeatures) (s : WpProxy) :
    WpProxy :=
  let features :=
    if s.pw_proxy.isNone ∧ features ≠ 0 then features ||| env.WP_PROXY_FEATURE_PW_PROXY
    else features
  if features &&& env.WP_PROXY_FEATURE_PW_PROXY ≠ 0 then
    if !wp_proxy_is_global s then
      wp_proxy_augment_error
        ⟨GErrorDomain.WP_DOMAIN_LIBRARY,
         WpLibraryErrorEnum.WP_LIBRARY_ERROR_INVALID_ARGUMENT,
         "No global id specified; cannot bind pw_proxy"⟩ s
    else (wp_proxy_bind_global env s).2
  else s

/-- The class as `wp_proxy_class_init` sets it up (proxy.c 314). -/
def wp_proxy_class_init (env : Env) : WpProxyClass :=
  ⟨some (wp_proxy_default_augment env)⟩

/-- The mask computed at proxy.c 432: wanted but not ready. -/
def missing_features (ft_ready ft_wanted : WpProxyFeatures) : WpProxyFeatures :=
  (ft_ready ^^^ ft_wanted) &&& ft_wanted

/-- Embedding of `wp_proxy_augment` (proxy.c 413-442).  The cancellable, the
callback and its user data only travel inside the new task, which the trace
names by its number. -/
def wp_proxy_augment (klass : WpProxyClass) (ft_wanted : WpProxyFeatures) (s : WpProxy) :
    WpProxy :=
  match klass.augment with
  | none => s
  | some augment =>
    let t := s.next_task
    let s := emit (Event.g_task_new t) s
    let s := { s with task := some t, next_task := t + 1 }
    let s := { s with ft_wanted := s.ft_wanted ||| ft_wanted }
    let missing := missing_features s.ft_ready s.ft_wanted
    if missing ≠ 0 then
      augment missing (emit (Event.klass_augment missing) s)
    else
      let s := emit (Event.g_task_return_boolean t true) s
      { s with task := none }

/-! ## Protocol runs -/

/-- The operations of the augmentation protocol; `augment` is
`wp_proxy_augment` on a proxy of the base class. -/
inductive Op
  | augment (ft_wanted : WpProxyFeatures)
  | set_feature_ready (feature : WpProxyFeatures)
  | augment_error (error : GError)
  | bind_global
  | default_augment (features : WpProxyFeatures)
  | event_destroy
  | constructed
deriving DecidableEq, Repr

/-- One operation applied to a proxy. -/
def step (env : Env) (op : Op) (s : WpProxy) : WpProxy :=
  match op with
  | Op.augment w => wp_proxy_augment (wp_proxy_class_init env) w s
  | Op.set_feature_ready f => wp_proxy_set_feature_ready f s
  | Op.augment_error e => wp_proxy_augment_error e s
  | Op.bind_global => (wp_proxy_bind_global env s).2
  | Op.default_augment m => wp_proxy_default_augment env m s
  | Op.event_destroy => proxy_event_destroy s
  | Op.constructed => wp_proxy_constructed env s

/-- A sequence of operations, applied left to right. -/
def run (env : Env) (ops : List Op) (s : WpProxy) : WpProxy :=
  ops.foldl (fun acc op => step env op acc) s

/-- Mask `a` is contained in mask `b`. -/
def subset_features (a b : WpProxyFeatures) : Prop := a &&& b = a

instance (a b : WpProxyFeatures) : Decidable (subset_features a b) := by
  unfold subset_features; infer_instance

/-- Tasks created in a trace. -/
def tasks_created (tr : List Event) : List Nat :=
  tr.filterMap fun e => match e with
    | Event.g_task_new t => some t
    | _ => none

/-- Tasks resolved (with a value or an error) in a trace. -/
def tasks_resolved (tr : List Event) : List Nat :=
  tr.filterMap fun e => match e with
    | Event.g_task_return_boolean t _ => some t
    | Event.g_task_return_error t _ => some t
    | _ => none

/-- Tasks created in a trace and never resolved in it. -/
def tasks_unresolved (tr : List Event) : List Nat :=
  (tasks_created tr).filter fun t => decide (t ∉ tasks_resolved tr)

/-- How many times task `t` is resolved with success in a trace. -/
def success_count (t : Nat) (tr : List Event) : Nat :=
  tr.count (Event.g_task_return_boolean t true)

/-- All wanted features are ready: the test of proxy.c 473. -/
def satisfied (s : WpProxy) : Prop := s.ft_ready &&& s.ft_wanted = s.ft_wanted

instance (s : WpProxy) : Decidable (satisfied s) := by
  unfold satisfied; infer_instance

/-- A sequence of `wp_proxy_set_feature_ready` calls, in order. -/
def mark_ready_all (fs : List WpProxyFeatures) (s : WpProxy) : WpProxy :=
  fs.foldl (fun acc f => wp_proxy_set_feature_ready f acc) s

/-- Task `t` was handed out earlier and is not the pending task of `s`. -/
def task_settled (t : Nat) (s : WpProxy) : Prop := s.task ≠ some t ∧ t < s.next_task

/-! ## Concrete proxies -/

/-- An environment with the bound flag at `1 << 0`; the handle of a bind is
numbered after the global id. -/
def env0 : Env := ⟨1, fun _ global_id _ => 100 + global_id⟩

/-- A proxy as `wp_proxy_new_wrap` builds it: handle 7 passed to the
constructor, no global id; `wp_proxy_constructed` has run. -/
def wrapped_proxy : WpProxy :=
  wp_proxy_constructed env0 ⟨some 0, 0, 0, some 7, 0, 0, none, 0, []⟩

/-- A proxy as `wp_proxy_new_global` builds it: global id 5, not bound. -/
def global_proxy : WpProxy :=
  wp_proxy_constructed env0 ⟨some 0, 5, 0, none, 0, 0, none, 0, []⟩

/-- A proxy built with neither a handle nor a global id. -/
def orphan_proxy : WpProxy :=
  wp_proxy_constructed env0 ⟨some 0, 0, 0, none, 0, 0, none, 0, []⟩

/-- A registry proxy whose remote is gone (the weak reference yields NULL). -/
def stale_global_proxy : WpProxy :=
  wp_proxy_constructed env0 ⟨none, 5, 0, none, 0, 0, none, 0, []⟩

end WpProxyModel

namespace WpInitTransitionModel

/-! ## Startup transition (src/main.c)

The transition object becomes a record: the step and the outcome that the
engine keeps, and the fields of `struct _WpInitTransition`.  The step function
and `execute_step` are embedded from main.c; the two engine entry points they
rely on, `wp_transition_advance` and `wp_transition_return_error`, are not in
the sources and are modelled from the specification.  Calls that the engine
and `execute_step` make to one another are bounded by a call depth.
-/

/-- Step values of the startup transition: the two steps every transition
has, the five of main.c 42-48, and any other `guint`. -/
inductive Step
  | WP_TRANSITION_STEP_NONE
  | WP_TRANSITION_STEP_ERROR
  | STEP_LOAD_MODULE
  | STEP_LOAD_CONFIG
  | STEP_CONNECT
  | STEP_ACTIVATE_PLUGINS
  | STEP_ACTIVATE_SCRIPTS
  | other (n : Nat)
deriving DecidableEq, Repr

/-- Exit codes of the daemon (main.c 25-31). -/
inductive WpExitCode
  | WP_CODE_DISCONNECTED
  | WP_CODE_INTERRUPTED
  | WP_CODE_OPERATION_FAILED
  | WP_CODE_INVALID_ARGUMENT
deriving DecidableEq, Repr

/-- Errors a startup transition can end with: one handed over by a
collaborator (component loading, plugin activation), one made by main.c in the
daemon domain, or the engine's own for a step function that yields the error
step. -/
inductive InitError
  | collaborator (what : String)
  | daemon (code : WpExitCode) (message : String)
  | state_machine
deriving DecidableEq, Repr

/-- Effects of the startup transition, in program order. -/
inductive InitEvent
  | load_component (component type : String)
  | connect_signal (signal : String)
  | core_connect
  | install_object_manager
  | object_activate (plugin : String)
  | returned_success
  | returned_error (e : InitError)
deriving DecidableEq, Repr

/-- The transition object: the current step and outcome kept by the engine,
then the fields of `struct _WpInitTransition` (`om` as present or not,
`pending_plugins` a 32-bit unsigned counter) and the trace of effects. -/
structure WpInitTransition where
  step : Step
  completed : Bool
  error : Option InitError
  om : Bool
  pending_plugins : Nat
  trace : List InitEvent
deriving DecidableEq, Repr

/-- What the collaborators answer during startup: whether
`wp_core_load_component` succeeds for a component, whether `wp_core_connect`
succeeds, and the `config_file` option of the command line. -/
structure InitEnv where
  wp_core_load_component : String → Bool
  wp_core_connect : Bool
  config_file : Option String

/-- Decrement of a `guint`, as `--n` computes it: modulo 2^32. -/
def guint_decr (n : Nat) : Nat := (n + 4294967295) % 4294967296

/-- Increment of a `guint`, as `n++` computes it: modulo 2^32. -/
def guint_incr (n : Nat) : Nat := (n + 1) % 4294967296

/-- Append one effect to the trace. -/
def note (e : InitEvent) (s : WpInitTransition) : WpInitTransition :=
  { s with trace := s.trace ++ [e] }

/-- Embedding of `wp_init_transition_get_next_step` (main.c 59-78). -/
def wp_init_transition_get_next_step (self : WpInitTransition) (step : Step) : Step :=
  match step with
  | Step.WP_TRANSITION_STEP_NONE => Step.STEP_LOAD_MODULE
  | Step.STEP_LOAD_MODULE => Step.STEP_LOAD_CONFIG
  | Step.STEP_LOAD_CONFIG => Step.STEP_CONNECT
  | Step.STEP_CONNECT => Step.STEP_ACTIVATE_PLUGINS
  | Step.STEP_ACTIVATE_PLUGINS =>
    if self.pending_plugins = 0 then Step.STEP_ACTIVATE_SCRIPTS
    else Step.STEP_ACTIVATE_PLUGINS
  | Step.STEP_ACTIVATE_SCRIPTS => Step.WP_TRANSITION_STEP_NONE
  | _ => Step.WP_TRANSITION_STEP_ERROR

mutual

/-- Modelled from the spec: `wp_transition_advance` of the transition engine
(lib/wp/transition.c is not among the sources).  It computes the next step
with the class's `get_next_step`; if that is the terminal-success step it
reports overall success, otherwise it invokes `execute_step` for it; a next
step that is the error step ends the transition through `return_error`.  A
transition that has reported its outcome is immutable.  The first argument
bounds the depth of the calls between the engine and `execute_step`. -/
def wp_transition_advance (env : InitEnv) : Nat → WpInitTransition → WpInitTransition
  | 0, s => s
  | fuel + 1, s =>
    if s.completed then s
    else
      match wp_init_transition_get_next_step s s.step with
      | Step.WP_TRANSITION_STEP_ERROR =>
        wp_transition_return_error env fuel InitError.state_machine s
      | Step.WP_TRANSITION_STEP_NONE =>
        let s := { s with step := Step.WP_TRANSITION_STEP_NONE, completed := true }
        note InitEvent.returned_success s
      | next =>
        wp_init_transition_execute_step env fuel { s with step := next } next

/-- Modelled from the spec: `wp_transition_return_error` of the transition
engine.  It moves unconditionally to the terminal-failure step, invokes the
cleanup handling of that step and reports overall failure. -/
def wp_transition_return_error (env : InitEnv) :
    Nat → InitError → WpInitTransition → WpInitTransition
  | 0, _, s => s
  | fuel + 1, e, s =>
    if s.completed then s
    else
      let s := { s with step := Step.WP_TRANSITION_STEP_ERROR }
      let s := wp_init_transition_execute_step env fuel s Step.WP_TRANSITION_STEP_ERROR
      let s := { s with completed := true, error := some e }
      note (InitEvent.returned_error e) s

/-- Embedding of `wp_init_transition_execute_step` (main.c 102-173).  A step
outside the switch trips `g_assert_not_reached`; the model leaves the
transition as it is there. -/
def wp_init_transition_execute_step (env : InitEnv) :
    Nat → WpInitTransition → Step → WpInitTransition
  | 0, s, _ => s
  | fuel + 1, s, step =>
    match step with
    | Step.STEP_LOAD_MODULE =>
      let s := note (InitEvent.load_component "libwireplumber-module-lua-scripting" "module") s
      if !env.wp_core_load_component "libwireplumber-module-lua-scripting" then
        wp_transition_return_error env fuel
          (InitError.collaborator "libwireplumber-module-lua-scripting") s
      else wp_transition_advance env fuel s
    | Step.STEP_LOAD_CONFIG =>
      let f := match env.config_file with
        | some c => c
        | none => "config.lua"
      let s := note (InitEvent.load_component f "config/lua") s
      if !env.wp_core_load_component f then
        wp_transition_return_error env fuel (InitError.collaborator f) s
      else wp_transition_advance env fuel s
    | Step.STEP_CONNECT =>
      let s := note (InitEvent.connect_signal "connected") s
      let s := note InitEvent.core_connect s
      if !env.wp_core_connect then
        wp_transition_return_error env fuel
          (InitError.daemon WpExitCode.WP_CODE_OPERATION_FAILED
            "Failed to connect to PipeWire") s
      else s
    | Step.STEP_ACTIVATE_PLUGINS =>
      let s := { s with om := true }
      let s := note (InitEvent.connect_signal "object-added") s
      let s := note (InitEvent.connect_signal "installed") s
      note InitEvent.install_object_manager s
    | Step.STEP_ACTIVATE_SCRIPTS =>
      let s := { s with om := false }
      note (InitEvent.object_activate "lua-scripting") s
    | Step.WP_TRANSITION_STEP_ERROR => { s with om := false }
    | _ => s

end

/-- Call depth that covers the longest chain of the startup transition:
advance, load module, advance, load config, advance, connect, return error,
cleanup. -/
def INIT_FUEL : Nat := 8

/-- Embedding of `on_plugin_activated` (main.c 80-92); `ok` is the result of
`wp_object_activate_finish`. -/
def on_plugin_activated (env : InitEnv) (fuel : Nat) (ok : Bool) (self : WpInitTransition) :
    WpInitTransition :=
  if !ok then
    wp_transition_return_error env fuel (InitError.collaborator "plugin") self
  else
    let self := { self with pending_plugins := guint_decr self.pending_plugins }
    wp_transition_advance env fuel self

/-- Embedding of `on_plugin_added` (main.c 94-100). -/
def on_plugin_added (p : String) (self : WpInitTransition) : WpInitTransition :=
  let self := { self with pending_plugins := guint_incr self.pending_plugins }
  note (InitEvent.object_activate p) self

/-- What can happen to a startup transition that waits in a step. -/
inductive InitOp
  | advance
  | plugin_added (p : String)
  | plugin_activated (ok : Bool)
deriving DecidableEq, Repr

/-- One such happening. -/
def init_step (env : InitEnv) (fuel : Nat) (op : InitOp) (s : WpInitTransition) :
    WpInitTransition :=
  match op with
  | InitOp.advance => wp_transition_advance env fuel s
  | InitOp.plugin_added p => on_plugin_added p s
  | InitOp.plugin_activated ok => on_plugin_activated env fuel ok s

/-- A sequence of happenings, in order. -/
def init_run (env : InitEnv) (fuel : Nat) (ops : List InitOp) (s : WpInitTransition) :
    WpInitTransition :=
  ops.foldl (fun acc op => init_step env fuel op acc) s

/-- The counter `pending_plugins` is above zero before the sequence, after
each of its happenings, and no plugin activation in it fails. -/
def stays_pending (env : InitEnv) (fuel : Nat) : List InitOp → WpInitTransition → Bool
  | [], s => decide (0 < s.pending_plugins)
  | op :: rest, s =>
    decide (0 < s.pending_plugins) && decide (op ≠ InitOp.plugin_activated false) &&
      stays_pending env fuel rest (init_step env fuel op s)

/-- A startup environment in which everything succeeds. -/
def init_env0 : InitEnv := ⟨fun _ => true, true, none⟩

/-- A transition waiting in the plugin step with two activations pending. -/
def waiting_transition : WpInitTransition :=
  ⟨Step.STEP_ACTIVATE_PLUGINS, false, none, true, 2, []⟩

/-- A transition that has not started: step NONE, nothing pending. -/
def fresh_transition : WpInitTransition :=
  ⟨Step.WP_TRANSITION_STEP_NONE, false, none, false, 0, []⟩

/-- A startup that goes well with one plugin: the transition is started, the
core connects, the object manager reports plugin "p" and is installed, the
plugin is activated, and then the scripting plugin is activated. -/
def successful_startup : List InitOp :=
  [InitOp.advance, InitOp.advance, InitOp.plugin_added "p", InitOp.advance,
   InitOp.plugin_activated true, InitOp.plugin_activated true]

end WpInitTransitionModel

namespace WpConfigPolicyModel

/-! ## Config policy (modules/module-config-policy/config-policy.c)

The policy object becomes a record that also carries its surroundings: the
endpoint collection, the links that exist, the outstanding asynchronous
requests and the trace of effects.  Endpoint and link objects are records
compared by value.  The parsers, the policy manager and the stream lookups of
an endpoint are collaborators outside the sources and enter as the fields of
`PolicyEnv`.  Asynchronous requests (`wp_core_sync`, `wp_endpoint_link_new`)
are recorded when made and complete in a later happening of `policy_step`;
destroying a link takes effect at once.  Log output other than warnings is
left out.
-/

/-- Direction of an endpoint. -/
inductive pw_direction
  | PW_DIRECTION_INPUT
  | PW_DIRECTION_OUTPUT
deriving DecidableEq, Repr

/-- An endpoint object, as far as the policy reads it.  Two endpoint pointers
are equal exactly when the records are; `id` tells apart endpoints whose
attributes coincide. -/
structure WpEndpoint where
  id : Nat
  name : String
  media_class : String
  direction : pw_direction
  role : Option String
deriving DecidableEq, Repr

/-- An endpoint link object: its two ends, their streams, the keep flag. -/
structure WpEndpointLink where
  id : Nat
  source_endpoint : WpEndpoint
  source_stream : Nat
  sink_endpoint : WpEndpoint
  sink_stream : Nat
  kept : Bool
deriving DecidableEq, Repr

/-- The target criteria of a rule (`te.endpoint_data`): the media class, and
the remaining criteria, which only the match predicate of the parser reads. -/
structure WpParserEndpointLinkEndpointData where
  media_class : Option String
  criteria : Nat
deriving DecidableEq, Repr

/-- The `te` part of a rule: target criteria, stream grouping, stream. -/
structure TargetEndpoint where
  endpoint_data : WpParserEndpointLinkEndpointData
  streams : Option String
  stream : Option String
deriving DecidableEq, Repr

/-- The `el` part of a rule. -/
structure EndpointLink where
  keep : Bool
deriving DecidableEq, Repr

/-- The rule data matched for an endpoint, as far as config-policy.c reads
it (parser-endpoint-link.h is outside the sources at hand). -/
structure WpParserEndpointLinkData where
  te : TargetEndpoint
  el : EndpointLink
deriving DecidableEq, Repr

/-- Per-stream rule data: the priority (parser-streams.h). -/
structure WpParserStreamsStreamData where
  priority : Nat
deriving DecidableEq, Repr

/-- The properties handed to `find_endpoint`: the entries "data" and "role"
of the variant dictionary. -/
structure TargetProps where
  data : Option WpParserEndpointLinkData
  role : Option String
deriving DecidableEq, Repr

/-- The arguments of one `wp_endpoint_link_new` call. -/
structure LinkRequest where
  source : WpEndpoint
  source_stream : Nat
  sink : WpEndpoint
  sink_stream : Nat
  keep : Bool
deriving DecidableEq, Repr

/-- What `wp_endpoint_link_new_finish` yields: the link, and the message of the
error when there is one. -/
structure LinkResult where
  link : Option WpEndpointLink
  error : Option String
deriving DecidableEq, Repr

/-- Effects of the policy, in program order. -/
inductive PolicyEvent
  | done (ep : Option WpEndpoint) (link : Option WpEndpointLink)
  | link_new (request : LinkRequest)
  | link_destroy (l : WpEndpointLink)
  | core_sync
  | warning (text : String)
deriving DecidableEq, Repr

/-- The fields of `struct _WpConfigPolicy` (config-policy.c 19-28), then what
surrounds the policy: whether `wp_policy_get_core` yields a core, the
endpoints the policy manager knows, the links that exist (oldest first), the
number of `wp_core_sync` requests not yet completed, the
`wp_endpoint_link_new` requests not yet completed, and the trace. -/
structure WpConfigPolicy where
  pending_rescan : Bool
  pending_endpoint : Option WpEndpoint
  pending_target : Option WpEndpoint
  core : Bool
  endpoints : List WpEndpoint
  links : List WpEndpointLink
  barriers : Nat
  link_requests : List LinkRequest
  trace : List PolicyEvent
deriving DecidableEq, Repr

/-- Constants and collaborators that config-policy.c takes from outside the
sources at hand: the two "none" ids, the matched data of the endpoint-link
parser for an endpoint and of the streams parser for a grouping, the stream
lookup of the streams parser, the match predicate of the endpoint-link
parser, the endpoint listing of the policy manager by media class (`none`
for a NULL array), and the stream lookups of an endpoint:
`wp_endpoint_find_stream` by name, and `wp_endpoint_get_stream` followed by
the lookup of "name" (`none` without such a stream, `some none` for a stream
without a name). -/
structure PolicyEnv where
  WP_STREAM_ID_NONE : Nat
  WP_CONTROL_ID_NONE : Nat
  endpoint_link_matched_data : WpEndpoint → Option WpParserEndpointLinkData
  streams_matched_data : String → Option Nat
  wp_parser_streams_find_stream : Option Nat → Option String → Option WpParserStreamsStreamData
  wp_parser_endpoint_link_matches_endpoint_data :
    WpEndpoint → WpParserEndpointLinkEndpointData → Bool
  wp_policy_manager_list_endpoints : List WpEndpoint → Option String → Option (List WpEndpoint)
  wp_endpoint_find_stream : WpEndpoint → String → Nat
  wp_endpoint_get_stream : WpEndpoint → Nat → Option (Option String)

/-- Append one effect to the trace. -/
def record (e : PolicyEvent) (self : WpConfigPolicy) : WpConfigPolicy :=
  { self with trace := self.trace ++ [e] }

/-- The links an endpoint takes part in, oldest first: `wp_endpoint_get_links`. -/
def wp_endpoint_get_links (self : WpConfigPolicy) (ep : WpEndpoint) : List WpEndpointLink :=
  self.links.filter fun l => decide (l.source_endpoint = ep ∨ l.sink_endpoint = ep)

/-- Whether an endpoint has a link: `wp_endpoint_is_linked`. -/
def wp_endpoint_is_linked (self : WpConfigPolicy) (ep : WpEndpoint) : Bool :=
  !(wp_endpoint_get_links self ep).isEmpty

/-- The call `wp_endpoint_link_destroy (l)`: recorded, and the link is gone
from both of its endpoints. -/
def wp_endpoint_link_destroy (l : WpEndpointLink) (self : WpConfigPolicy) : WpConfigPolicy :=
  let self := record (PolicyEvent.link_destroy l) self
  { self with links := self.links.filter fun k => decide (k ≠ l) }

/-- The call `wp_endpoint_link_new (core, src, src_stream, sink, sink_stream,
keep, on_endpoint_link_created, self)`: recorded, and outstanding until its
callback runs. -/
def wp_endpoint_link_new (src : WpEndpoint) (src_stream : Nat) (sink : WpEndpoint)
    (sink_stream : Nat) (keep : Bool) (self : WpConfigPolicy) : WpConfigPolicy :=
  let self := record (PolicyEvent.link_new ⟨src, src_stream, sink, sink_stream, keep⟩) self
  { self with
    link_requests := self.link_requests ++ [⟨src, src_stream, sink, sink_stream, keep⟩] }

/-- The call `wp_core_sync (core, NULL, wp_config_policy_sync_rescan, self)`:
recorded, and outstanding until its callback runs. -/
def wp_core_sync (self : WpConfigPolicy) : WpConfigPolicy :=
  let self := record PolicyEvent.core_sync self
  { self with barriers := self.barriers + 1 }

/-- Embedding of `on_endpoint_link_created` (config-policy.c 44-80). -/
def on_endpoint_link_created (res : LinkResult) (self : WpConfigPolicy) : WpConfigPolicy :=
  match res.error with
  | some message =>
    record (PolicyEvent.warning ("Could not link endpoints: " ++ message ++ "\n")) self
  | none =>
    match res.link with
    | none => self
    | some link =>
      let src_ep := link.source_endpoint
      let sink_ep := link.sink_endpoint
      let self := { self with pending_target := none }
      match self.pending_endpoint with
      | some pending_endpoint =>
        let is_capture := decide (pending_endpoint.direction = pw_direction.PW_DIRECTION_INPUT)
        if pending_endpoint = (if is_capture then sink_ep else src_ep) then
          let self := record (PolicyEvent.done (some pending_endpoint) (some link)) self
          { self with pending_endpoint := none }
        else self
      | none => self

/-- Embedding of `wp_config_policy_can_link_stream` (config-policy.c 82-142).
The test `if (!data)` at line 122 never fires: `data` was dereferenced
before. -/
def wp_config_policy_can_link_stream (env : PolicyEnv) (self : WpConfigPolicy)
    (ep : WpEndpoint) (data : WpParserEndpointLinkData) : Bool :=
  match data.te.streams with
  | none => true
  | some streams =>
    match wp_endpoint_get_links self ep with
    | [] => true
    | l :: _ =>
      let is_capture := decide (ep.direction = pw_direction.PW_DIRECTION_INPUT)
      let linked_stream := if is_capture then l.sink_stream else l.source_stream
      let same_stream :=
        match data.te.stream with
        | some stream => decide (linked_stream = env.wp_endpoint_find_stream ep stream)
        | none => false
      if same_stream then true
      else
        match env.wp_endpoint_get_stream ep linked_stream with
        | none => true
        | some none => true
        | some (some linked_stream_name) =>
          let streams_data := env.streams_matched_data streams
          let linked_stream_data :=
            env.wp_parser_streams_find_stream streams_data (some linked_stream_name)
          let ep_stream_data :=
            env.wp_parser_streams_find_stream streams_data data.te.stream
          match linked_stream_data, ep_stream_data with
          | some linked, some mine =>
            if linked.priority > mine.priority then false else true
          | some _, none => false
          | none, some _ => true
          | none, none => true

/-- Lines 153-172 of `wp_config_policy_link_endpoint_with_target`: the check
of the first link of the endpoint.  `none` when the function returns FALSE
there (linked to the proper target); otherwise the state to go on with, a link
to another target having been destroyed. -/
def check_existing_link (is_capture : Bool) (ep target : WpEndpoint)
    (self : WpConfigPolicy) : Option WpConfigPolicy :=
  match wp_endpoint_get_links self ep with
  | [] => some self
  | l :: _ =>
    let existing_target := if is_capture then l.source_endpoint else l.sink_endpoint
    if existing_target = target then none
    else some (wp_endpoint_link_destroy l self)

/-- Lines 180-188: the links of the target that are not kept are destroyed
unless the endpoint is a capture one.  The loop visits the links listed when
it starts.  Whether the array that `wp_endpoint_get_links` returns shrinks
while `wp_endpoint_link_destroy` runs is decided in lib/wp/endpoint.c, which is
not among the sources; with such an array the loop would pass over some of
the links when the target has several that are not kept.  The link at index 0
is visited in either reading. -/
def unlink_target_links (is_capture : Bool) (target : WpEndpoint)
    (self : WpConfigPolicy) : WpConfigPolicy :=
  if !is_capture && wp_endpoint_is_linked self target then
    (wp_endpoint_get_links self target).foldl
      (fun acc l => if !l.kept then wp_endpoint_link_destroy l acc else acc) self
  else self

/-- Lines 190-197: the link-create request, oriented by the direction. -/
def link_client_with_target (is_capture : Bool) (ep : WpEndpoint) (ep_stream : Nat)
    (target : WpEndpoint) (target_stream : Nat) (data : WpParserEndpointLinkData)
    (self : WpConfigPolicy) : WpConfigPolicy :=
  if is_capture then
    wp_endpoint_link_new target target_stream ep ep_stream data.el.keep self
  else
    wp_endpoint_link_new ep ep_stream target target_stream data.el.keep self

/-- Embedding of `wp_config_policy_link_endpoint_with_target`
(config-policy.c 144-200): the returned boolean and the state afterwards. -/
def wp_config_policy_link_endpoint_with_target (ep : WpEndpoint) (ep_stream : Nat)
    (target : WpEndpoint) (target_stream : Nat) (data : WpParserEndpointLinkData)
    (self : WpConfigPolicy) : Bool × WpConfigPolicy :=
  let is_capture := decide (ep.direction = pw_direction.PW_DIRECTION_INPUT)
  match check_existing_link is_capture ep target self with
  | none => (false, self)
  | some self =>
    if self.pending_target = some target then (false, self)
    else
      let self := { self with pending_target := some target }
      let self := unlink_target_links is_capture target self
      let self :=
        link_client_with_target is_capture ep ep_stream target target_stream data self
      (true, self)

/-- Embedding of `wp_config_policy_find_endpoint` (config-policy.c 249-298):
the target and the stream id written through `stream_id`. -/
def wp_config_policy_find_endpoint (env : PolicyEnv) (self : WpConfigPolicy)
    (props : TargetProps) : Option (WpEndpoint × Nat) :=
  match props.data with
  | none => none
  | some data =>
    match env.wp_policy_manager_list_endpoints self.endpoints
        data.te.endpoint_data.media_class with
    | none => none
    | some endpoints =>
      match endpoints.find? fun target =>
          env.wp_parser_endpoint_link_matches_endpoint_data target data.te.endpoint_data with
      | none => none
      | some target =>
        let target_role :=
          match props.role with
          | some role => some role
          | none => data.te.stream
        let stream_id :=
          match target_role with
          | some r => env.wp_endpoint_find_stream target r
          | none => env.WP_CONTROL_ID_NONE
        some (target, stream_id)

/-- Modelled from the spec: `wp_policy_find_endpoint` (lib/wp/policy.c is not
among the sources) resolves a target through the `resolve_target` hook of the
policy; the config policy is the policy in place, so the hook is
`wp_config_policy_find_endpoint`. -/
def wp_policy_find_endpoint (env : PolicyEnv) (self : WpConfigPolicy)
    (props : TargetProps) : Option (WpEndpoint × Nat) :=
  wp_config_policy_find_endpoint env self props

/-- Embedding of `wp_config_policy_handle_endpoint` (config-policy.c 202-247). -/
def wp_config_policy_handle_endpoint (env : PolicyEnv) (ep : WpEndpoint)
    (self : WpConfigPolicy) : Bool × WpConfigPolicy :=
  match env.endpoint_link_matched_data ep with
  | none => (false, self)
  | some data =>
    match wp_policy_find_endpoint env self ⟨some data, ep.role⟩ with
    | none => (false, self)
    | some (target, stream_id) =>
      if !wp_config_policy_can_link_stream env self target data then (false, self)
      else
        wp_config_policy_link_endpoint_with_target ep env.WP_STREAM_ID_NONE target
          stream_id data self

/-- The loop of `wp_config_policy_sync_rescan` (config-policy.c 312-316): the
flag `handled` and the state after the endpoints have been handled in
order. -/
def rescan_loop (env : PolicyEnv) (endpoints : List WpEndpoint) (handled : Bool)
    (self : WpConfigPolicy) : Bool × WpConfigPolicy :=
  endpoints.foldl
    (fun acc ep =>
      let r := wp_config_policy_handle_endpoint env ep acc.2
      (if r.1 then decide (some ep = r.2.pending_endpoint) else acc.1, r.2))
    (handled, self)

/-- Embedding of `wp_config_policy_sync_rescan` (config-policy.c 300-327). -/
def wp_config_policy_sync_rescan (env : PolicyEnv) (self : WpConfigPolicy) : WpConfigPolicy :=
  let scanned :=
    match env.wp_policy_manager_list_endpoints self.endpoints none with
    | some endpoints => rescan_loop env endpoints false self
    | none => (false, self)
  let handled := scanned.1
  let self := scanned.2
  let self :=
    if !handled then
      let self := record (PolicyEvent.done self.pending_endpoint none) self
      { self with pending_endpoint := none }
    else self
  { self with pending_rescan := false }

/-- Embedding of `wp_config_policy_rescan` (config-policy.c 329-350). -/
def wp_config_policy_rescan (ep : WpEndpoint) (self : WpConfigPolicy) : WpConfigPolicy :=
  if self.pending_rescan then self
  else
    match self.pending_endpoint with
    | some _ =>
      record (PolicyEvent.warning
        ("Not handling endpoint '" ++ ep.name ++ "' beacause of pending link")) self
    | none =>
      if !self.core then self
      else
        let self := { self with pending_endpoint := some ep }
        let self := wp_core_sync self
        { self with pending_rescan := true }

/-- Embedding of `wp_config_policy_endpoint_added` (config-policy.c 352-357). -/
def wp_config_policy_endpoint_added (ep : WpEndpoint) (self : WpConfigPolicy) :
    WpConfigPolicy :=
  wp_config_policy_rescan ep self

/-- Embedding of `wp_config_policy_endpoint_removed` (config-policy.c 359-364). -/
def wp_config_policy_endpoint_removed (ep : WpEndpoint) (self : WpConfigPolicy) :
    WpConfigPolicy :=
  wp_config_policy_rescan ep self

/-- The policy as `wp_config_policy_init` leaves it (config-policy.c 433-437),
in given surroundings. -/
def wp_config_policy_init (core : Bool) (endpoints : List WpEndpoint)
    (links : List WpEndpointLink) : WpConfigPolicy :=
  ⟨false, none, none, core, endpoints, links, 0, [], []⟩

/-! ### Runs of the policy -/

/-- What can happen to the policy: an endpoint appears in or disappears from
the collection and the policy is told; an outstanding barrier completes; the
outstanding link-create request number `i` completes with a result (a link
that was made exists from then on); links come and go otherwise. -/
inductive PolicyOp
  | endpoint_added (ep : WpEndpoint)
  | endpoint_removed (ep : WpEndpoint)
  | sync_done
  | link_done (i : Nat) (res : LinkResult)
  | links_changed (links : List WpEndpointLink)
deriving DecidableEq, Repr

/-- One such happening.  A completion without an outstanding request does
not occur. -/
def policy_step (env : PolicyEnv) (op : PolicyOp) (self : WpConfigPolicy) : WpConfigPolicy :=
  match op with
  | PolicyOp.endpoint_added ep =>
    wp_config_policy_endpoint_added ep { self with endpoints := self.endpoints ++ [ep] }
  | PolicyOp.endpoint_removed ep =>
    wp_config_policy_endpoint_removed ep
      { self with endpoints := self.endpoints.filter fun e => decide (e ≠ ep) }
  | PolicyOp.sync_done =>
    if self.barriers = 0 then self
    else wp_config_policy_sync_rescan env { self with barriers := self.barriers - 1 }
  | PolicyOp.link_done i res =>
    if i < self.link_requests.length then
      let self := { self with link_requests := self.link_requests.eraseIdx i }
      let self :=
        match res.error, res.link with
        | none, some link => { self with links := self.links ++ [link] }
        | _, _ => self
      on_endpoint_link_created res self
    else self
  | PolicyOp.links_changed links => { self with links := links }

/-- A sequence of happenings, in order. -/
def policy_run (env : PolicyEnv) (ops : List PolicyOp) (self : WpConfigPolicy) :
    WpConfigPolicy :=
  ops.foldl (fun acc op => policy_step env op acc) self

/-- The outstanding link-create requests that name `target` as an end. -/
def requests_naming (target : WpEndpoint) (self : WpConfigPolicy) : List LinkRequest :=
  self.link_requests.filter fun r => decide (r.source = target ∨ r.sink = target)

/-- The link-create requests recorded in a trace. -/
def requests_in (tr : List PolicyEvent) : List LinkRequest :=
  tr.filterMap fun e => match e with
    | PolicyEvent.link_new r => some r
    | _ => none

/-- The links whose destruction is recorded in a trace. -/
def destroyed_in (tr : List PolicyEvent) : List WpEndpointLink :=
  tr.filterMap fun e => match e with
    | PolicyEvent.link_destroy l => some l
    | _ => none

/-- The part of the state that handling an endpoint never writes: the rescan
flag, the trigger, the core, the endpoint collection and the outstanding
barriers. -/
def same_scan_frame (a b : WpConfigPolicy) : Prop :=
  a.pending_rescan = b.pending_rescan ∧ a.pending_endpoint = b.pending_endpoint ∧
  a.core = b.core ∧ a.endpoints = b.endpoints ∧ a.barriers = b.barriers

/-- One barrier is outstanding while a rescan is pending, none otherwise. -/
def barrier_invariant (self : WpConfigPolicy) : Prop :=
  self.barriers = if self.pending_rescan then 1 else 0

/-- The first link of `ep` connects it to `target`: the test of
config-policy.c 154-161. -/
def already_linked_to (self : WpConfigPolicy) (ep target : WpEndpoint) : Prop :=
  match wp_endpoint_get_links self ep with
  | [] => False
  | l :: _ =>
    (if ep.direction = pw_direction.PW_DIRECTION_INPUT then l.source_endpoint
     else l.sink_endpoint) = target

instance (self : WpConfigPolicy) (ep target : WpEndpoint) :
    Decidable (already_linked_to self ep target) := by
  unfold already_linked_to
  cases wp_endpoint_get_links self ep <;> dsimp only <;> infer_instance

/-- An endpoint that a scan has nothing to do for: no rule matches it, or its
rule resolves to no target, or its first link already connects it to the
resolved target. -/
def settled_endpoint (env : PolicyEnv) (self : WpConfigPolicy) (ep : WpEndpoint) : Prop :=
  env.endpoint_link_matched_data ep = none ∨
  (∃ data, env.endpoint_link_matched_data ep = some data ∧
    wp_policy_find_endpoint env self ⟨some data, ep.role⟩ = none) ∨
  (∃ data target stream_id, env.endpoint_link_matched_data ep = some data ∧
    wp_policy_find_endpoint env self ⟨some data, ep.role⟩ = some (target, stream_id) ∧
    already_linked_to self ep target)

/-- The endpoints whose handling started a link attempt in the loop of
`wp_config_policy_sync_rescan`, that is, for which
`wp_config_policy_handle_endpoint` returned TRUE, in the order of the scan,
and the state after the loop. -/
def scan_attempts (env : PolicyEnv) (endpoints : List WpEndpoint) (self : WpConfigPolicy) :
    List WpEndpoint × WpConfigPolicy :=
  endpoints.foldl
    (fun acc ep =>
      let r := wp_config_policy_handle_endpoint env ep acc.2
      (if r.1 then acc.1 ++ [ep] else acc.1, r.2))
    ([], self)

/-! ### Concrete endpoints and rules -/

/-- A playback client of media class "A". -/
def ep_A : WpEndpoint := ⟨1, "A", "A", pw_direction.PW_DIRECTION_OUTPUT, none⟩

/-- A device of media class "B". -/
def ep_B : WpEndpoint := ⟨2, "B", "B", pw_direction.PW_DIRECTION_INPUT, none⟩

/-- A playback client of media class "C". -/
def ep_C : WpEndpoint := ⟨3, "C", "C", pw_direction.PW_DIRECTION_OUTPUT, none⟩

/-- A device of media class "D". -/
def ep_D : WpEndpoint := ⟨4, "D", "D", pw_direction.PW_DIRECTION_INPUT, none⟩

/-- A second playback client, of media class "E". -/
def ep_E : WpEndpoint := ⟨5, "E", "E", pw_direction.PW_DIRECTION_OUTPUT, none⟩

/-- A rule that targets the endpoints of one media class, without streams. -/
def rule_to (media_class : String) : WpParserEndpointLinkData :=
  ⟨⟨⟨some media_class, 0⟩, none, none⟩, ⟨false⟩⟩

/-- Rules: "A" and "E" link to class "B", "C" links to class "D"; endpoints are
listed in the order of the collection, filtered by media class; every endpoint
of the class matches; no stream data. -/
def policy_env0 : PolicyEnv where
  WP_STREAM_ID_NONE := 4294967295
  WP_CONTROL_ID_NONE := 4294967295
  endpoint_link_matched_data := fun ep =>
    if ep.media_class = "A" ∨ ep.media_class = "E" then some (rule_to "B")
    else if ep.media_class = "C" then some (rule_to "D")
    else none
  streams_matched_data := fun _ => none
  wp_parser_streams_find_stream := fun _ _ => none
  wp_parser_endpoint_link_matches_endpoint_data := fun _ _ => true
  wp_policy_manager_list_endpoints := fun endpoints media_class =>
    match media_class with
    | none => some endpoints
    | some c => some (endpoints.filter fun e => decide (e.media_class = c))
  wp_endpoint_find_stream := fun _ _ => 0
  wp_endpoint_get_stream := fun _ _ => none

/-- The link from A to B, as a completed link-create yields it. -/
def link_AB : WpEndpointLink := ⟨10, ep_A, 4294967295, ep_B, 0, false⟩

/-- A sink device with streams "X" (id 1) and "Y" (id 2). -/
def ep_T : WpEndpoint := ⟨6, "T", "Sink", pw_direction.PW_DIRECTION_INPUT, none⟩

/-- A source device with the same streams. -/
def ep_S : WpEndpoint := ⟨7, "S", "Source", pw_direction.PW_DIRECTION_OUTPUT, none⟩

/-- The playback client that holds stream "X" of T. -/
def ep_X : WpEndpoint := ⟨8, "X", "X", pw_direction.PW_DIRECTION_OUTPUT, none⟩

/-- The capture client that holds stream "X" of S. -/
def ep_Xc : WpEndpoint := ⟨9, "Xc", "Xc", pw_direction.PW_DIRECTION_INPUT, none⟩

/-- A playback candidate whose rule asks for stream "Y" of a sink. -/
def ep_Y : WpEndpoint := ⟨10, "Y", "Y", pw_direction.PW_DIRECTION_OUTPUT, none⟩

/-- A capture candidate whose rule asks for stream "Y" of a source. -/
def ep_Yc : WpEndpoint := ⟨11, "Yc", "Yc", pw_direction.PW_DIRECTION_INPUT, none⟩

/-- The link of X to stream "X" of T. -/
def link_XT : WpEndpointLink := ⟨20, ep_X, 4294967295, ep_T, 1, false⟩

/-- The same link, marked as kept. -/
def link_XT_kept : WpEndpointLink := ⟨21, ep_X, 4294967295, ep_T, 1, true⟩

/-- The link of stream "X" of S to the capture client Xc. -/
def link_SXc : WpEndpointLink := ⟨22, ep_S, 1, ep_Xc, 4294967295, false⟩

/-- A rule that asks for stream "Y" on the endpoints of one media class, under
the stream grouping "grouping". -/
def rule_stream_Y (media_class : String) : WpParserEndpointLinkData :=
  ⟨⟨⟨some media_class, 0⟩, some "grouping", some "Y"⟩, ⟨false⟩⟩

/-- Rules with streams: "Y" asks for stream "Y" of a sink, "Yc" for stream "Y"
of a source; in the grouping, stream "X" has priority 3 and stream "Y"
priority 7. -/
def policy_env1 : PolicyEnv :=
  { policy_env0 with
    endpoint_link_matched_data := fun ep =>
      if ep.media_class = "Y" then some (rule_stream_Y "Sink")
      else if ep.media_class = "Yc" then some (rule_stream_Y "Source")
      else none
    streams_matched_data := fun streams => if streams = "grouping" then some 0 else none
    wp_parser_streams_find_stream := fun streams_data name =>
      match streams_data, name with
      | some 0, some n =>
        if n = "X" then some ⟨3⟩ else if n = "Y" then some ⟨7⟩ else none
      | _, _ => none
    wp_endpoint_find_stream := fun _ name =>
      if name = "X" then 1 else if name = "Y" then 2 else 4294967295
    wp_endpoint_get_stream := fun _ id =>
      if id = 1 then some (some "X") else if id = 2 then some (some "Y") else none }

/-! ### Scenario A and stream priorities -/

/-- The link that a link-create request yields when it succeeds. -/
def link_of_request (id : Nat) (r : LinkRequest) : WpEndpointLink :=
  ⟨id, r.source, r.source_stream, r.sink, r.sink_stream, r.keep⟩

/-- One rule: endpoints of media class "A" link to the endpoints of media
class "B"; nothing else matches. -/
def scenario_env : PolicyEnv :=
  { policy_env0 with
    endpoint_link_matched_data := fun ep =>
      if ep.media_class = "A" then some (rule_to "B") else none }

/-- The endpoint of media class "A", in either direction. -/
def scenario_A (d : pw_direction) : WpEndpoint := ⟨1, "A", "A", d, none⟩

/-- The endpoint of media class "B", in either direction. -/
def scenario_B (d : pw_direction) : WpEndpoint := ⟨2, "B", "B", d, none⟩

/-- The link-create request that the policy makes for A with target B. -/
def scenario_request (da db : pw_direction) : LinkRequest :=
  if da = pw_direction.PW_DIRECTION_INPUT then
    ⟨scenario_B db, 4294967295, scenario_A da, 4294967295, false⟩
  else ⟨scenario_A da, 4294967295, scenario_B db, 4294967295, false⟩

/-- A rule that asks for a stream on the endpoints of one media class, under
the stream grouping "grouping". -/
def rule_stream (media_class stream : String) : WpParserEndpointLinkData :=
  ⟨⟨⟨some media_class, 0⟩, some "grouping", some stream⟩, ⟨false⟩⟩

/-- A playback candidate whose rule asks for stream "W" of a sink. -/
def ep_W : WpEndpoint := ⟨12, "W", "W", pw_direction.PW_DIRECTION_OUTPUT, none⟩

/-- The link of Y to stream "Y" of T. -/
def link_YT : WpEndpointLink := ⟨23, ep_Y, 4294967295, ep_T, 2, false⟩

/-- Rules with three streams: the endpoints of class "X", "Y" and "W" ask for
the stream of their name on a sink; in the grouping, "X" and "W" have priority
3 and "Y" has priority 7; the streams have the ids 1, 2 and 3. -/
def policy_env2 : PolicyEnv :=
  { policy_env0 with
    endpoint_link_matched_data := fun ep =>
      if ep.media_class = "X" ∨ ep.media_class = "Y" ∨ ep.media_class = "W" then
        some (rule_stream "Sink" ep.media_class)
      else none
    streams_matched_data := fun streams => if streams = "grouping" then some 0 else none
    wp_parser_streams_find_stream := fun streams_data name =>
      match streams_data, name with
      | some 0, some n =>
        if n = "X" ∨ n = "W" then some ⟨3⟩ else if n = "Y" then some ⟨7⟩ else none
      | _, _ => none
    wp_endpoint_find_stream := fun _ name =>
      if name = "X" then 1 else if name = "Y" then 2 else if name = "W" then 3
      else 4294967295
    wp_endpoint_get_stream := fun _ id =>
      if id = 1 then some (some "X") else if id = 2 then some (some "Y")
      else if id = 3 then some (some "W") else none }

/-- A client of media class "A" that is linked to D while its rule says B. -/
def link_AD : WpEndpointLink := ⟨24, ep_A, 4294967295, ep_D, 0, false⟩

end WpConfigPolicyModel

/-! # The activation of the virtual audio item (modules/module-si-audio-virtual.c)

The callbacks on_node_activate_done and on_adapter_activate_done, as
functions on the item.  The calls made on the transition, on the item and on
the adapter are recorded, in order, in a trace.  The session-item library is
not part of the sources at hand: what it returns is a field of the
environment. -/

namespace WpSiAudioVirtualModel

/-- The calls a callback makes, in order. -/
inductive SiEvent where
  /-- The call wp_transition_return_error (transition, error), by message. -/
  | return_error (message : String)
  /-- The properties node.id and node.name merged into those of the item. -/
  | set_properties (node_id : Nat) (node_name : Option String)
  /-- The call g_signal_connect_object (adapter, signal, ...). -/
  | signal_connect (adapter : Option Nat) (signal : String)
  /-- The call wp_session_item_configure (adapter, props). -/
  | configure (adapter : Option Nat) (props : List (String × String))
  /-- The call wp_object_activate (adapter, features, NULL,
  on_adapter_activate_done, transition). -/
  | activate (adapter : Option Nat) (features : Nat)
  /-- The call wp_object_update_features (self, activated, deactivated). -/
  | update_features (activated deactivated : Nat)
  deriving DecidableEq, Repr

/-- The node whose activation has completed: its bound id, its node.name
property and its address as printed by the format %p. -/
structure WpNode where
  bound_id : Nat
  node_name : Option String
  pointer : String
  deriving DecidableEq, Repr

/-- The fields of struct _WpSiAudioVirtual that the callbacks use, and the
trace.  An adapter is a handle; none is NULL. -/
structure WpSiAudioVirtual where
  name : String
  disable_dsp : Bool
  adapter : Option Nat
  trace : List SiEvent
  deriving DecidableEq, Repr

/-- What the callbacks take from the library. -/
structure SiEnv where
  /-- The feature flag WP_SESSION_ITEM_FEATURE_ACTIVE. -/
  WP_SESSION_ITEM_FEATURE_ACTIVE : Nat
  /-- The result of wp_session_item_make (core, factory): none is NULL. -/
  wp_session_item_make : String → Option Nat
  /-- The result of wp_session_item_configure (item, props). -/
  wp_session_item_configure : Option Nat → List (String × String) → Bool

/-- A call is appended to the trace. -/
def si_record (e : SiEvent) (self : WpSiAudioVirtual) : WpSiAudioVirtual :=
  { self with trace := self.trace ++ [e] }

/-- Embedding of `on_adapter_activate_done` (module-si-audio-virtual.c
154-168).  The argument `error` is what wp_object_activate_finish reports:
none when it returns TRUE. -/
def on_adapter_activate_done (env : SiEnv) (error : Option String)
    (self : WpSiAudioVirtual) : WpSiAudioVirtual :=
  match error with
  | some e => si_record (SiEvent.return_error e) self
  | none => si_record (SiEvent.update_features env.WP_SESSION_ITEM_FEATURE_ACTIVE 0) self

/-- Lines 221-229 of `on_node_activate_done`: the properties the adapter is
configured with. -/
def adapter_props (node : WpNode) (self : WpSiAudioVirtual) : List (String × String) :=
  [("item.node", node.pointer), ("name", self.name), ("media.class", "Audio/Sink"),
   ("item.features.no-format", "true"), ("item.features.monitor", "true")] ++
  (if self.disable_dsp then [("item.features.no-dsp", "true")] else [])

/-- Embedding of `on_node_activate_done` (module-si-audio-virtual.c 179-241).
The argument `error` is what wp_object_activate_finish reports: none when it
returns TRUE.  Only the first error path returns; after the two others the
function goes on. -/
def on_node_activate_done (env : SiEnv) (node : WpNode) (error : Option String)
    (self : WpSiAudioVirtual) : WpSiAudioVirtual :=
  match error with
  | some e => si_record (SiEvent.return_error e) self
  | none =>
    let self := { self with adapter := env.wp_session_item_make "si-audio-adapter" }
    let self :=
      if self.adapter = none then
        si_record (SiEvent.return_error "si-audio-virtual: could not create si-audio-adapter")
          self
      else self
    let self := si_record (SiEvent.set_properties node.bound_id node.node_name) self
    let self :=
      si_record (SiEvent.signal_connect self.adapter "adapter-ports-state-changed") self
    let props := adapter_props node self
    let self := si_record (SiEvent.configure self.adapter props) self
    let self :=
      if !env.wp_session_item_configure self.adapter props then
        si_record
          (SiEvent.return_error "si-audio-virtual: could not configure si-audio-adapter") self
      else self
    si_record (SiEvent.activate self.adapter env.WP_SESSION_ITEM_FEATURE_ACTIVE) self

/-- How many times a trace resolves the transition with an error. -/
def errors_returned (tr : List SiEvent) : Nat :=
  (tr.filter fun e => match e with
    | SiEvent.return_error _ => true
    | _ => false).length

/-- An item named "virtual" before its node is activated. -/
def virtual_item : WpSiAudioVirtual := ⟨"virtual", false, none, []⟩

/-- A node bound with id 42. -/
def null_sink_node : WpNode := ⟨42, some "control.virtual", "0x1"⟩

/-- A library that cannot make the adapter; configuring no adapter fails. -/
def si_env_no_adapter : SiEnv := ⟨1, fun _ => none, fun adapter _ => adapter.isSome⟩

/-- A library that makes the adapter 7 and fails to configure it. -/
def si_env_bad_configure : SiEnv := ⟨1, fun _ => some 7, fun _ _ => false⟩

end WpSiAudioVirtualModel

namespace WpProxyModel

/-! ## Bitmask facts -/

theorem subset_features_refl (a : WpProxyFeatures) : subset_features a a := by
  unfold subset_features; exact Nat.and_self a

theorem subset_features_or_right (a b : WpProxyFeatures) : subset_features a (a ||| b) := by
  unfold subset_features
  apply Nat.eq_of_testBit_eq
  intro i
  simp only [Nat.testBit_and, Nat.testBit_or]
  cases a.testBit i <;> simp

theorem subset_features_trans {a b c : WpProxyFeatures}
    (hab : subset_features a b) (hbc : subset_features b c) : subset_features a c := by
  unfold subset_features at *
  apply Nat.eq_of_testBit_eq
  intro i
  have h1 := congrArg (fun n => n.testBit i) hab
  have h2 := congrArg (fun n => n.testBit i) hbc
  simp only [Nat.testBit_and] at h1 h2 ⊢
  cases ha : a.testBit i <;> cases hb : b.testBit i <;> cases hc : c.testBit i <;>
    simp_all

/-! ## Frame lemmas -/

@[simp] theorem emit_ft_ready (e : Event) (s : WpProxy) : (emit e s).ft_ready = s.ft_ready := rfl
@[simp] theorem emit_ft_wanted (e : Event) (s : WpProxy) : (emit e s).ft_wanted = s.ft_wanted := rfl
@[simp] theorem emit_task (e : Event) (s : WpProxy) : (emit e s).task = s.task := rfl
@[simp] theorem emit_pw_proxy (e : Event) (s : WpProxy) : (emit e s).pw_proxy = s.pw_proxy := rfl
@[simp] theorem emit_next_task (e : Event) (s : WpProxy) : (emit e s).next_task = s.next_task := rfl
@[simp] theorem emit_trace (e : Event) (s : WpProxy) : (emit e s).trace = s.trace ++ [e] := rfl
@[simp] theorem emit_global_id (e : Event) (s : WpProxy) : (emit e s).global_id = s.global_id := rfl
@[simp] theorem emit_remote (e : Event) (s : WpProxy) : (emit e s).remote = s.remote := rfl
@[simp] theorem emit_iface_type (e : Event) (s : WpProxy) : (emit e s).iface_type = s.iface_type := rfl

theorem destroy_ft_ready (s : WpProxy) : (proxy_event_destroy s).ft_ready = s.ft_ready := by
  unfold proxy_event_destroy
  cases h : s.task <;> simp [h]

theorem set_feature_ready_mono (f : WpProxyFeatures) (s : WpProxy) :
    subset_features s.ft_ready (wp_proxy_set_feature_ready f s).ft_ready := by
  unfold wp_proxy_set_feature_ready
  by_cases h : s.ft_ready &&& f ≠ 0
  · rw [if_pos h]; exact subset_features_refl _
  · rw [if_neg h]
    cases ht : s.task with
    | none => simp only [emit_task, ht, emit_ft_ready]; exact subset_features_or_right _ _
    | some t =>
      simp only [emit_task, ht, emit_ft_ready, emit_ft_wanted]
      split <;> exact subset_features_or_right _ _

theorem augment_error_ft_ready (e : GError) (s : WpProxy) :
    (wp_proxy_augment_error e s).ft_ready = s.ft_ready := by
  unfold wp_proxy_augment_error
  cases h : s.task <;> simp

theorem bind_global_mono (env : Env) (s : WpProxy) :
    subset_features s.ft_ready (wp_proxy_bind_global env s).2.ft_ready := by
  unfold wp_proxy_bind_global
  split
  · exact subset_features_refl _
  · split
    · exact subset_features_refl _
    · cases hr : s.remote with
      | none => exact subset_features_refl _
      | some r =>
        refine subset_features_trans ?_ (set_feature_ready_mono _ _)
        exact subset_features_refl _

theorem default_augment_cases (env : Env) (m : WpProxyFeatures) (s : WpProxy) :
    wp_proxy_default_augment env m s = s ∨
    wp_proxy_default_augment env m s = wp_proxy_augment_error no_global_id_error s ∨
    wp_proxy_default_augment env m s = (wp_proxy_bind_global env s).2 := by
  unfold wp_proxy_default_augment no_global_id_error
  dsimp only
  split_ifs <;> simp

theorem default_augment_mono (env : Env) (m : WpProxyFeatures) (s : WpProxy) :
    subset_features s.ft_ready (wp_proxy_default_augment env m s).ft_ready := by
  rcases default_augment_cases env m s with h | h | h <;> rw [h]
  · exact subset_features_refl _
  · rw [augment_error_ft_ready]; exact subset_features_refl _
  · exact bind_global_mono env s

theorem augment_mono (env : Env) (w : WpProxyFeatures) (s : WpProxy) :
    subset_features s.ft_ready
      (wp_proxy_augment (wp_proxy_class_init env) w s).ft_ready := by
  unfold wp_proxy_augment wp_proxy_class_init
  simp only
  split
  · refine subset_features_trans ?_ (default_augment_mono env _ _)
    exact subset_features_refl _
  · exact subset_features_refl _

theorem constructed_mono (env : Env) (s : WpProxy) :
    subset_features s.ft_ready (wp_proxy_constructed env s).ft_ready := by
  unfold wp_proxy_constructed
  cases h : s.pw_proxy with
  | none => exact subset_features_refl _
  | some p => simp only [emit_ft_ready]; exact subset_features_or_right _ _

theorem step_mono (env : Env) (op : Op) (s : WpProxy) :
    subset_features s.ft_ready (step env op s).ft_ready := by
  cases op with
  | augment w => exact augment_mono env w s
  | set_feature_ready f => exact set_feature_ready_mono f s
  | augment_error e =>
    show subset_features s.ft_ready (wp_proxy_augment_error e s).ft_ready
    rw [augment_error_ft_ready]; exact subset_features_refl _
  | bind_global => exact bind_global_mono env s
  | default_augment m => exact default_augment_mono env m s
  | event_destroy =>
    show subset_features s.ft_ready (proxy_event_destroy s).ft_ready
    rw [destroy_ft_ready]; exact subset_features_refl _
  | constructed => exact constructed_mono env s

theorem run_mono (env : Env) (ops : List Op) :
    ∀ s : WpProxy, subset_features s.ft_ready (run env ops s).ft_ready := by
  induction ops with
  | nil => intro s; exact subset_features_refl _
  | cons op rest ih =>
    intro s
    exact subset_features_trans (step_mono env op s) (ih (step env op s))

theorem missing_testBit (r w : WpProxyFeatures) (i : Nat) :
    ((r ^^^ w) &&& w).testBit i = (w.testBit i && !r.testBit i) := by
  simp only [Nat.testBit_and, Nat.testBit_xor]
  cases r.testBit i <;> cases w.testBit i <;> rfl

theorem missing_eq_and_compl {r w : WpProxyFeatures} (n : Nat)
    (hr : r < 2 ^ n) (hw : w < 2 ^ n) :
    (r ^^^ w) &&& w = w &&& (2 ^ n - 1 - r) := by
  apply Nat.eq_of_testBit_eq
  intro i
  have h1 : 2 ^ n - 1 - r = 2 ^ n - (r + 1) := by rw [Nat.sub_sub, Nat.add_comm]
  rw [missing_testBit, Nat.testBit_and, h1, Nat.testBit_two_pow_sub_succ hr]
  by_cases hi : i < n
  · simp [hi]
  · have hwi : w.testBit i = false := by
      apply Nat.testBit_lt_two_pow
      exact lt_of_lt_of_le hw (Nat.pow_le_pow_right (by decide) (not_lt.mp hi))
    simp [hwi]

theorem set_feature_ready_ft_wanted (f : WpProxyFeatures) (s : WpProxy) :
    (wp_proxy_set_feature_ready f s).ft_wanted = s.ft_wanted := by
  unfold wp_proxy_set_feature_ready
  split_ifs
  · rfl
  · cases ht : s.task with
    | none => simp [ht]
    | some t => simp only [emit_task, ht]; split_ifs <;> rfl

theorem augment_error_ft_wanted (e : GError) (s : WpProxy) :
    (wp_proxy_augment_error e s).ft_wanted = s.ft_wanted := by
  unfold wp_proxy_augment_error
  cases h : s.task <;> simp

theorem bind_global_ft_wanted (env : Env) (s : WpProxy) :
    (wp_proxy_bind_global env s).2.ft_wanted = s.ft_wanted := by
  unfold wp_proxy_bind_global
  split_ifs
  · rfl
  · rfl
  · cases hr : s.remote with
    | none => rfl
    | some r => simp only [set_feature_ready_ft_wanted, emit_ft_wanted]

theorem default_augment_ft_wanted (env : Env) (m : WpProxyFeatures) (s : WpProxy) :
    (wp_proxy_default_augment env m s).ft_wanted = s.ft_wanted := by
  rcases default_augment_cases env m s with h | h | h <;> rw [h]
  · exact augment_error_ft_wanted _ _
  · exact bind_global_ft_wanted env s

theorem augment_ft_wanted (env : Env) (w : WpProxyFeatures) (s : WpProxy) :
    (wp_proxy_augment (wp_proxy_class_init env) w s).ft_wanted = s.ft_wanted ||| w := by
  unfold wp_proxy_augment wp_proxy_class_init
  simp only
  split_ifs
  · rw [default_augment_ft_wanted]; rfl
  · rfl

/-! ## Marking features ready -/

theorem satisfied_grow {r r2 w : WpProxyFeatures} (h : r &&& w = w) :
    (r ||| r2) &&& w = w := by
  apply Nat.eq_of_testBit_eq
  intro i
  have h1 := congrArg (fun n => n.testBit i) h
  simp only [Nat.testBit_and, Nat.testBit_or] at h1 ⊢
  cases hr : r.testBit i <;> cases hw : w.testBit i <;> simp_all

theorem tasks_resolved_append (a b : List Event) :
    tasks_resolved (a ++ b) = tasks_resolved a ++ tasks_resolved b := by
  unfold tasks_resolved; exact List.filterMap_append _ _ _

theorem success_count_append (t : Nat) (a b : List Event) :
    success_count t (a ++ b) = success_count t a + success_count t b := by
  unfold success_count; exact List.count_append _ _ _

/-- One call of set_feature_ready, spelled out by cases. -/
theorem set_feature_ready_eq (f : WpProxyFeatures) (s : WpProxy) :
    wp_proxy_set_feature_ready f s =
      if s.ft_ready &&& f ≠ 0 then s
      else match s.task with
        | some t =>
          if (s.ft_ready ||| f) &&& s.ft_wanted = s.ft_wanted then
            { s with
              ft_ready := s.ft_ready ||| f
              task := none
              trace := s.trace ++ [Event.notify_features, Event.g_task_return_boolean t true] }
          else
            { s with ft_ready := s.ft_ready ||| f, trace := s.trace ++ [Event.notify_features] }
        | none =>
          { s with ft_ready := s.ft_ready ||| f, trace := s.trace ++ [Event.notify_features] } := by
  obtain ⟨remote, gid, ity, pw, r, w, task, nt, tr⟩ := s
  unfold wp_proxy_set_feature_ready emit
  cases task <;> dsimp only
  split_ifs <;> first | rfl | simp

theorem set_feature_ready_pending (f : WpProxyFeatures) (s : WpProxy) (t : Nat)
    (ht : s.task = some t) (hns : ¬ satisfied s) :
    (satisfied (wp_proxy_set_feature_ready f s) ∧
      (wp_proxy_set_feature_ready f s).task = none ∧
      (wp_proxy_set_feature_ready f s).trace =
        s.trace ++ [Event.notify_features, Event.g_task_return_boolean t true]) ∨
    (¬ satisfied (wp_proxy_set_feature_ready f s) ∧
      (wp_proxy_set_feature_ready f s).task = some t ∧
      ((wp_proxy_set_feature_ready f s).trace = s.trace ∨
       (wp_proxy_set_feature_ready f s).trace = s.trace ++ [Event.notify_features])) := by
  rw [set_feature_ready_eq]
  unfold satisfied at *
  simp only [ht]
  by_cases h : s.ft_ready &&& f ≠ 0
  · rw [if_pos h]
    exact Or.inr ⟨hns, ht, Or.inl rfl⟩
  · rw [if_neg h]
    by_cases h2 : (s.ft_ready ||| f) &&& s.ft_wanted = s.ft_wanted
    · rw [if_pos h2]
      exact Or.inl ⟨h2, rfl, rfl⟩
    · rw [if_neg h2]
      exact Or.inr ⟨h2, rfl, Or.inr rfl⟩

theorem set_feature_ready_idle (f : WpProxyFeatures) (s : WpProxy)
    (ht : s.task = none) :
    (wp_proxy_set_feature_ready f s).task = none ∧
    ((wp_proxy_set_feature_ready f s).trace = s.trace ∨
     (wp_proxy_set_feature_ready f s).trace = s.trace ++ [Event.notify_features]) := by
  rw [set_feature_ready_eq]
  simp only [ht]
  by_cases h : s.ft_ready &&& f ≠ 0
  · rw [if_pos h]
    exact ⟨ht, Or.inl rfl⟩
  · rw [if_neg h]
    exact ⟨rfl, Or.inr rfl⟩

theorem mark_ready_all_cons (f : WpProxyFeatures) (fs : List WpProxyFeatures) (s : WpProxy) :
    mark_ready_all (f :: fs) s = mark_ready_all fs (wp_proxy_set_feature_ready f s) := rfl

theorem mark_ready_all_append (pre post : List WpProxyFeatures) (s : WpProxy) :
    mark_ready_all (pre ++ post) s = mark_ready_all post (mark_ready_all pre s) := by
  unfold mark_ready_all; exact List.foldl_append _ _ _ _

theorem set_feature_ready_satisfied (f : WpProxyFeatures) (s : WpProxy)
    (h : satisfied s) : satisfied (wp_proxy_set_feature_ready f s) := by
  unfold satisfied at *
  rw [set_feature_ready_ft_wanted]
  have hm := set_feature_ready_mono f s
  unfold subset_features at hm
  apply Nat.eq_of_testBit_eq
  intro i
  have h1 := congrArg (fun n => n.testBit i) h
  have h2 := congrArg (fun n => n.testBit i) hm
  simp only [Nat.testBit_and] at h1 h2 ⊢
  cases hr : s.ft_ready.testBit i <;> cases hw : s.ft_wanted.testBit i <;>
    cases hr2 : (wp_proxy_set_feature_ready f s).ft_ready.testBit i <;> simp_all

theorem mark_ready_all_satisfied (fs : List WpProxyFeatures) :
    ∀ s : WpProxy, satisfied s → satisfied (mark_ready_all fs s) := by
  induction fs with
  | nil => intro s h; exact h
  | cons f rest ih => intro s h; exact ih _ (set_feature_ready_satisfied f s h)

theorem mark_ready_all_idle (fs : List WpProxyFeatures) :
    ∀ s : WpProxy, s.task = none →
      (mark_ready_all fs s).task = none ∧
      tasks_resolved (mark_ready_all fs s).trace = tasks_resolved s.trace ∧
      ∀ t : Nat, success_count t (mark_ready_all fs s).trace = success_count t s.trace := by
  induction fs with
  | nil => intro s ht; exact ⟨ht, rfl, fun _ => rfl⟩
  | cons f rest ih =>
    intro s ht
    rw [mark_ready_all_cons]
    obtain ⟨h1, h2⟩ := set_feature_ready_idle f s ht
    obtain ⟨i1, i2, i3⟩ := ih _ h1
    refine ⟨i1, ?_, ?_⟩
    · rw [i2]
      rcases h2 with h2 | h2 <;> rw [h2]
      rw [tasks_resolved_append]; simp [tasks_resolved]
    · intro t
      rw [i3 t]
      rcases h2 with h2 | h2 <;> rw [h2]
      rw [success_count_append]; simp [success_count]

theorem mark_ready_all_pending (fs : List WpProxyFeatures) :
    ∀ (s : WpProxy) (t : Nat), s.task = some t → ¬ satisfied s →
      (satisfied (mark_ready_all fs s) ∧
        (mark_ready_all fs s).task = none ∧
        tasks_resolved (mark_ready_all fs s).trace = tasks_resolved s.trace ++ [t] ∧
        success_count t (mark_ready_all fs s).trace = success_count t s.trace + 1) ∨
      (¬ satisfied (mark_ready_all fs s) ∧
        (mark_ready_all fs s).task = some t ∧
        tasks_resolved (mark_ready_all fs s).trace = tasks_resolved s.trace ∧
        success_count t (mark_ready_all fs s).trace = success_count t s.trace) := by
  induction fs with
  | nil => intro s t ht hns; exact Or.inr ⟨hns, ht, rfl, rfl⟩
  | cons f rest ih =>
    intro s t ht hns
    rw [mark_ready_all_cons]
    rcases set_feature_ready_pending f s t ht hns with ⟨h1, h2, h3⟩ | ⟨h1, h2, h3⟩
    · left
      obtain ⟨i1, i2, i3⟩ := mark_ready_all_idle rest _ h2
      refine ⟨?_, i1, ?_, ?_⟩
      · exact mark_ready_all_satisfied rest _ h1
      · rw [i2, h3, tasks_resolved_append]; simp [tasks_resolved]
      · rw [i3 t, h3, success_count_append]; simp [success_count]
    · have e1 : tasks_resolved (wp_proxy_set_feature_ready f s).trace = tasks_resolved s.trace := by
        rcases h3 with h3 | h3 <;> rw [h3]
        rw [tasks_resolved_append]; simp [tasks_resolved]
      have e2 : success_count t (wp_proxy_set_feature_ready f s).trace =
          success_count t s.trace := by
        rcases h3 with h3 | h3 <;> rw [h3]
        rw [success_count_append]; simp [success_count]
      rcases ih _ t h2 h1 with ⟨j1, j2, j3, j4⟩ | ⟨j1, j2, j3, j4⟩
      · exact Or.inl ⟨j1, j2, by rw [j3, e1], by rw [j4, e2]⟩
      · exact Or.inr ⟨j1, j2, by rw [j3, e1], by rw [j4, e2]⟩

theorem and_two_pow_ne_zero (r k : Nat) : r &&& 2 ^ k ≠ 0 ↔ r.testBit k = true := by
  constructor
  · intro h
    by_contra hb
    apply h
    apply Nat.eq_of_testBit_eq
    intro i
    simp only [Nat.testBit_and, Nat.testBit_two_pow, Nat.zero_testBit]
    by_cases hik : k = i
    · subst hik; simp [hb]
    · simp [hik]
  · intro h h0
    have := congrArg (fun n => n.testBit k) h0
    simp [Nat.testBit_and, Nat.testBit_two_pow, h] at this

/-! ## The operations, case by case -/

theorem or_or_self (a f : WpProxyFeatures) : (a ||| f) ||| f = a ||| f := by
  rw [Nat.or_assoc, Nat.or_self]

theorem or_and_self (m p : WpProxyFeatures) : (m ||| p) &&& p = p := by
  apply Nat.eq_of_testBit_eq
  intro i
  simp only [Nat.testBit_and, Nat.testBit_or]
  cases m.testBit i <;> cases p.testBit i <;> rfl

theorem missing_eq_zero_iff (r w : WpProxyFeatures) : (r ^^^ w) &&& w = 0 ↔ r &&& w = w := by
  constructor
  · intro h
    apply Nat.eq_of_testBit_eq
    intro i
    have h1 := congrArg (fun n => n.testBit i) h
    simp only [Nat.testBit_and, Nat.testBit_xor, Nat.zero_testBit] at h1 ⊢
    cases hr : r.testBit i <;> cases hw : w.testBit i <;> simp_all
  · intro h
    apply Nat.eq_of_testBit_eq
    intro i
    have h1 := congrArg (fun n => n.testBit i) h
    simp only [Nat.testBit_and, Nat.testBit_xor, Nat.zero_testBit] at h1 ⊢
    cases hr : r.testBit i <;> cases hw : w.testBit i <;> simp_all

theorem augment_eq (a : WpProxyFeatures → WpProxy → WpProxy) (w : WpProxyFeatures)
    (s : WpProxy) :
    wp_proxy_augment ⟨some a⟩ w s =
      (if (s.ft_ready ^^^ (s.ft_wanted ||| w)) &&& (s.ft_wanted ||| w) = 0 then
        { s with
          ft_wanted := s.ft_wanted ||| w
          task := none
          next_task := s.next_task + 1
          trace := s.trace ++ [Event.g_task_new s.next_task,
            Event.g_task_return_boolean s.next_task true] }
      else
        a ((s.ft_ready ^^^ (s.ft_wanted ||| w)) &&& (s.ft_wanted ||| w))
          { s with
            ft_wanted := s.ft_wanted ||| w
            task := some s.next_task
            next_task := s.next_task + 1
            trace := s.trace ++ [Event.g_task_new s.next_task,
              Event.klass_augment
                ((s.ft_ready ^^^ (s.ft_wanted ||| w)) &&& (s.ft_wanted ||| w))] }) := by
  unfold wp_proxy_augment missing_features
  by_cases h : (s.ft_ready ^^^ (s.ft_wanted ||| w)) &&& (s.ft_wanted ||| w) = 0
  · simp [h, emit]
  · simp [h, emit]

theorem bind_global_skip (env : Env) (s : WpProxy)
    (h : s.global_id = 0 ∨ s.pw_proxy ≠ none ∨ s.remote = none) :
    wp_proxy_bind_global env s = (false, s) := by
  obtain ⟨remote, gid, ity, pw, r, w, task, nt, tr⟩ := s
  unfold wp_proxy_bind_global wp_proxy_is_global wp_proxy_get_global_id
  dsimp only at h ⊢
  rcases h with h | h | h
  · subst h; simp
  · cases pw with
    | none => exact absurd rfl h
    | some p => simp
  · subst h
    split_ifs <;> rfl

theorem bind_global_bound (env : Env) (s : WpProxy) (r : Nat)
    (hg : s.global_id ≠ 0) (hp : s.pw_proxy = none) (hr : s.remote = some r) :
    wp_proxy_bind_global env s =
      (true, wp_proxy_set_feature_ready env.WP_PROXY_FEATURE_PW_PROXY
        { s with
          pw_proxy := some (env.wp_remote_pipewire_proxy_bind r s.global_id s.iface_type)
          trace := s.trace ++
            [Event.proxy_bind r s.global_id s.iface_type,
             Event.add_listener (env.wp_remote_pipewire_proxy_bind r s.global_id s.iface_type),
             Event.signal_pw_proxy_created
               (env.wp_remote_pipewire_proxy_bind r s.global_id s.iface_type)] }) := by
  obtain ⟨remote, gid, ity, pw, rd, w, task, nt, tr⟩ := s
  dsimp only at hg hp hr
  subst hp hr
  unfold wp_proxy_bind_global wp_proxy_is_global wp_proxy_get_global_id
  simp [hg, emit]

theorem default_augment_unbound (env : Env) (m : WpProxyFeatures) (s : WpProxy)
    (hp : s.pw_proxy = none) (hm : m ≠ 0) (hPW : env.WP_PROXY_FEATURE_PW_PROXY ≠ 0) :
    wp_proxy_default_augment env m s =
      if s.global_id = 0 then wp_proxy_augment_error no_global_id_error s
      else (wp_proxy_bind_global env s).2 := by
  unfold wp_proxy_default_augment no_global_id_error wp_proxy_is_global wp_proxy_get_global_id
  simp [hp, hm, or_and_self, hPW]

theorem default_augment_bound (env : Env) (m : WpProxyFeatures) (s : WpProxy)
    (hp : s.pw_proxy ≠ none) :
    wp_proxy_default_augment env m s =
      if m &&& env.WP_PROXY_FEATURE_PW_PROXY ≠ 0 ∧ s.global_id = 0 then
        wp_proxy_augment_error no_global_id_error s
      else s := by
  have hb := bind_global_skip env s (Or.inr (Or.inl hp))
  unfold wp_proxy_default_augment no_global_id_error wp_proxy_is_global wp_proxy_get_global_id
  cases hpw : s.pw_proxy with
  | none => exact absurd hpw hp
  | some p =>
    simp only [Option.isNone_some, Bool.false_eq_true, false_and, if_false, hb]
    split_ifs <;> simp_all

theorem set_feature_ready_pw_proxy (f : WpProxyFeatures) (s : WpProxy) :
    (wp_proxy_set_feature_ready f s).pw_proxy = s.pw_proxy := by
  rw [set_feature_ready_eq]
  cases s.task <;> dsimp only <;> split_ifs <;> rfl

theorem set_feature_ready_flag (k : Nat) (s : WpProxy) :
    (wp_proxy_set_feature_ready (2 ^ k) s).ft_ready = s.ft_ready ||| 2 ^ k := by
  rw [set_feature_ready_eq]
  by_cases h : s.ft_ready &&& 2 ^ k ≠ 0
  · rw [if_pos h]
    have hb := (and_two_pow_ne_zero _ k).mp h
    apply Nat.eq_of_testBit_eq
    intro i
    simp only [Nat.testBit_or, Nat.testBit_two_pow]
    by_cases hik : k = i
    · subst hik; simp [hb]
    · simp [hik]
  · rw [if_neg h]
    cases s.task <;> dsimp only
    split_ifs <;> rfl

theorem testBit_or_two_pow (r k : Nat) : (r ||| 2 ^ k).testBit k = true := by
  simp [Nat.testBit_or, Nat.testBit_two_pow]

/-! ## Tasks that are no longer pending stay as they are -/

theorem success_count_snoc_ne (t : Nat) (tr : List Event) (e : Event)
    (h : e ≠ Event.g_task_return_boolean t true) :
    success_count t (tr ++ [e]) = success_count t tr := by
  unfold success_count
  rw [List.count_append, List.count_singleton]
  simp [h]

theorem success_count_snoc2_ne (t : Nat) (tr : List Event) (a b : Event)
    (ha : a ≠ Event.g_task_return_boolean t true)
    (hb : b ≠ Event.g_task_return_boolean t true) :
    success_count t (tr ++ [a, b]) = success_count t tr := by
  have e : tr ++ [a, b] = (tr ++ [a]) ++ [b] := by simp
  rw [e, success_count_snoc_ne t _ _ hb, success_count_snoc_ne t _ _ ha]

theorem set_feature_ready_settled (t : Nat) (f : WpProxyFeatures) (s : WpProxy)
    (h : task_settled t s) :
    task_settled t (wp_proxy_set_feature_ready f s) ∧
    success_count t (wp_proxy_set_feature_ready f s).trace = success_count t s.trace := by
  obtain ⟨h1, h2⟩ := h
  cases ht : s.task with
  | none =>
    obtain ⟨k1, k2⟩ := set_feature_ready_idle f s ht
    refine ⟨⟨by rw [k1]; exact Option.noConfusion, ?_⟩, ?_⟩
    · rw [set_feature_ready_eq]; simp only [ht]; split_ifs <;> exact h2
    · rcases k2 with k2 | k2 <;> rw [k2]
      exact success_count_snoc_ne t _ _ (by simp)
  | some u =>
    have hut : u ≠ t := fun e => h1 (by rw [ht, e])
    rw [set_feature_ready_eq]
    simp only [ht]
    split_ifs
    · exact ⟨⟨by rw [ht]; simpa using hut, h2⟩, rfl⟩
    · refine ⟨⟨by simp, h2⟩, ?_⟩
      exact success_count_snoc2_ne t _ _ _ (by simp) (by simpa using hut)
    · refine ⟨⟨by simpa using hut, h2⟩, ?_⟩
      exact success_count_snoc_ne t _ _ (by simp)

theorem augment_error_settled (t : Nat) (e : GError) (s : WpProxy)
    (h : task_settled t s) :
    task_settled t (wp_proxy_augment_error e s) ∧
    success_count t (wp_proxy_augment_error e s).trace = success_count t s.trace := by
  obtain ⟨h1, h2⟩ := h
  unfold wp_proxy_augment_error
  cases ht : s.task with
  | none => exact ⟨⟨by rw [ht]; exact Option.noConfusion, h2⟩, rfl⟩
  | some u =>
    refine ⟨⟨by simp, h2⟩, ?_⟩
    exact success_count_snoc_ne t _ _ (by simp)

theorem destroy_settled (t : Nat) (s : WpProxy) (h : t < s.next_task) :
    task_settled t (proxy_event_destroy s) ∧
    success_count t (proxy_event_destroy s).trace = success_count t s.trace := by
  unfold proxy_event_destroy
  cases ht : s.task with
  | none =>
    simp only [emit_task, ht]
    exact ⟨⟨Option.noConfusion, h⟩, success_count_snoc_ne t _ _ (by simp)⟩
  | some u =>
    simp only [emit_task, ht]
    refine ⟨⟨by simp, h⟩, ?_⟩
    show success_count t ((s.trace ++ [Event.signal_pw_proxy_destroyed]) ++ [_]) = _
    rw [success_count_snoc_ne t _ _ (by simp), success_count_snoc_ne t _ _ (by simp)]

theorem bind_global_settled (env : Env) (t : Nat) (s : WpProxy) (h : task_settled t s) :
    task_settled t (wp_proxy_bind_global env s).2 ∧
    success_count t (wp_proxy_bind_global env s).2.trace = success_count t s.trace := by
  by_cases hc : s.global_id = 0 ∨ s.pw_proxy ≠ none ∨ s.remote = none
  · rw [bind_global_skip env s hc]; exact ⟨h, rfl⟩
  · simp only [not_or, not_not] at hc
    obtain ⟨hg, hp, hr⟩ := hc
    obtain ⟨r, hr⟩ := Option.ne_none_iff_exists'.mp hr
    rw [bind_global_bound env s r hg hp hr]
    dsimp only
    have k := set_feature_ready_settled t env.WP_PROXY_FEATURE_PW_PROXY
      { s with
        pw_proxy := some (env.wp_remote_pipewire_proxy_bind r s.global_id s.iface_type)
        trace := s.trace ++
          [Event.proxy_bind r s.global_id s.iface_type,
           Event.add_listener (env.wp_remote_pipewire_proxy_bind r s.global_id s.iface_type),
           Event.signal_pw_proxy_created
             (env.wp_remote_pipewire_proxy_bind r s.global_id s.iface_type)] } h
    refine ⟨k.1, ?_⟩
    rw [k.2]
    show success_count t (s.trace ++ _) = _
    rw [success_count_append]
    simp [success_count]

theorem default_augment_settled (env : Env) (t : Nat) (m : WpProxyFeatures) (s : WpProxy)
    (h : task_settled t s) :
    task_settled t (wp_proxy_default_augment env m s) ∧
    success_count t (wp_proxy_default_augment env m s).trace = success_count t s.trace := by
  rcases default_augment_cases env m s with e | e | e <;> rw [e]
  · exact ⟨h, rfl⟩
  · exact augment_error_settled t _ s h
  · exact bind_global_settled env t s h

theorem augment_settled (env : Env) (t : Nat) (w : WpProxyFeatures) (s : WpProxy)
    (h : task_settled t s) :
    task_settled t (wp_proxy_augment (wp_proxy_class_init env) w s) ∧
    success_count t (wp_proxy_augment (wp_proxy_class_init env) w s).trace =
      success_count t s.trace := by
  obtain ⟨h1, h2⟩ := h
  have hne : s.next_task ≠ t := Nat.ne_of_gt h2
  unfold wp_proxy_class_init
  rw [augment_eq]
  split_ifs
  · refine ⟨⟨by simp, Nat.lt_succ_of_lt h2⟩, ?_⟩
    exact success_count_snoc2_ne t _ _ _ (by simp) (by simpa using hne)
  · have k := default_augment_settled env t
      ((s.ft_ready ^^^ (s.ft_wanted ||| w)) &&& (s.ft_wanted ||| w))
      { s with
        ft_wanted := s.ft_wanted ||| w
        task := some s.next_task
        next_task := s.next_task + 1
        trace := s.trace ++ [Event.g_task_new s.next_task,
          Event.klass_augment
            ((s.ft_ready ^^^ (s.ft_wanted ||| w)) &&& (s.ft_wanted ||| w))] }
      ⟨by simpa using hne, Nat.lt_succ_of_lt h2⟩
    refine ⟨k.1, ?_⟩
    rw [k.2]
    show success_count t (s.trace ++ _) = _
    rw [success_count_append]
    simp [success_count]

theorem constructed_settled (env : Env) (t : Nat) (s : WpProxy) (h : task_settled t s) :
    task_settled t (wp_proxy_constructed env s) ∧
    success_count t (wp_proxy_constructed env s).trace = success_count t s.trace := by
  unfold wp_proxy_constructed
  cases hp : s.pw_proxy with
  | none => exact ⟨h, rfl⟩
  | some p => exact ⟨h, success_count_snoc_ne t _ _ (by simp)⟩

theorem step_settled (env : Env) (t : Nat) (op : Op) (s : WpProxy) (h : task_settled t s) :
    task_settled t (step env op s) ∧
    success_count t (step env op s).trace = success_count t s.trace := by
  cases op with
  | augment w => exact augment_settled env t w s h
  | set_feature_ready f => exact set_feature_ready_settled t f s h
  | augment_error e => exact augment_error_settled t e s h
  | bind_global => exact bind_global_settled env t s h
  | default_augment m => exact default_augment_settled env t m s h
  | event_destroy => exact destroy_settled t s h.2
  | constructed => exact constructed_settled env t s h

theorem run_settled (env : Env) (t : Nat) (ops : List Op) :
    ∀ s : WpProxy, task_settled t s →
      success_count t (run env ops s).trace = success_count t s.trace := by
  induction ops with
  | nil => intro s _; rfl
  | cons op rest ih =>
    intro s h
    obtain ⟨k1, k2⟩ := step_settled env t op s h
    show success_count t (run env rest (step env op s)).trace = _
    rw [ih _ k1, k2]

/-! ## A second request right after the first -/

theorem augment_error_frame (e : GError) (s : WpProxy) :
    (wp_proxy_augment_error e s).pw_proxy = s.pw_proxy ∧
    (wp_proxy_augment_error e s).global_id = s.global_id ∧
    (wp_proxy_augment_error e s).remote = s.remote := by
  unfold wp_proxy_augment_error
  cases h : s.task <;> simp

/-- The default routine cannot bind when the proxy has no global id, has a
handle already, or has lost its remote; then it leaves ft_ready alone. -/
theorem default_augment_ready_unbindable (env : Env) (m : WpProxyFeatures) (s : WpProxy)
    (h : s.global_id = 0 ∨ s.pw_proxy ≠ none ∨ s.remote = none) :
    (wp_proxy_default_augment env m s).ft_ready = s.ft_ready := by
  rcases default_augment_cases env m s with e | e | e <;> rw [e]
  · exact augment_error_ft_ready _ _
  · rw [bind_global_skip env s h]

theorem default_augment_ready_no_flag (env : Env) (m : WpProxyFeatures) (s : WpProxy)
    (h : env.WP_PROXY_FEATURE_PW_PROXY = 0) :
    wp_proxy_default_augment env m s = s := by
  unfold wp_proxy_default_augment
  simp [h]

/-- After the default routine has run for a non-zero mask, a further bind is
impossible. -/
theorem default_augment_unbindable (env : Env) (m : WpProxyFeatures) (s : WpProxy)
    (hm : m ≠ 0) (hPW : env.WP_PROXY_FEATURE_PW_PROXY ≠ 0) :
    (wp_proxy_default_augment env m s).global_id = 0 ∨
    (wp_proxy_default_augment env m s).pw_proxy ≠ none ∨
    (wp_proxy_default_augment env m s).remote = none := by
  cases hp : s.pw_proxy with
  | some p =>
    have hne : s.pw_proxy ≠ none := by rw [hp]; exact Option.some_ne_none p
    right; left
    rw [default_augment_bound env m s hne]
    split_ifs
    · rw [(augment_error_frame _ s).1]; exact hne
    · exact hne
  | none =>
    rw [default_augment_unbound env m s hp hm hPW]
    by_cases hg : s.global_id = 0
    · left
      rw [if_pos hg, (augment_error_frame _ s).2.1]; exact hg
    · rw [if_neg hg]
      cases hr : s.remote with
      | none =>
        right; right
        rw [bind_global_skip env s (Or.inr (Or.inr hr))]; exact hr
      | some r =>
        right; left
        rw [bind_global_bound env s r hg hp hr]
        dsimp only
        rw [set_feature_ready_pw_proxy]
        exact Option.some_ne_none _

theorem second_augment_ready (env : Env) (f : WpProxyFeatures) (s : WpProxy) :
    (step env (Op.augment f) (step env (Op.augment f) s)).ft_ready =
      (step env (Op.augment f) s).ft_ready := by
  have hw1 : (step env (Op.augment f) s).ft_wanted = s.ft_wanted ||| f :=
    augment_ft_wanted env f s
  show (wp_proxy_augment (wp_proxy_class_init env) f (step env (Op.augment f) s)).ft_ready = _
  unfold wp_proxy_class_init
  rw [augment_eq]
  split_ifs with h2
  · rfl
  · by_cases hPW : env.WP_PROXY_FEATURE_PW_PROXY = 0
    · rw [default_augment_ready_no_flag env _ _ hPW]
    · rw [default_augment_ready_unbindable]
      show (step env (Op.augment f) s).global_id = 0 ∨
        (step env (Op.augment f) s).pw_proxy ≠ none ∨ (step env (Op.augment f) s).remote = none
      have e1 : step env (Op.augment f) s =
          wp_proxy_augment ⟨some (wp_proxy_default_augment env)⟩ f s := rfl
      rw [e1, augment_eq] at h2 ⊢
      by_cases hm1 : (s.ft_ready ^^^ (s.ft_wanted ||| f)) &&& (s.ft_wanted ||| f) = 0
      · rw [if_pos hm1] at h2
        dsimp only at h2
        rw [or_or_self] at h2
        exact absurd hm1 h2
      · rw [if_neg hm1]
        exact default_augment_unbindable env _ _ hm1 hPW

/-! ## Claims -/

/-- C1: every operation of the augmentation protocol (augment on the base
class, set_feature_ready, augment_error, bind_global, the default augment
routine, the remote destroy event, and construction) leaves a ready set that
contains the ready set before it; bit by bit, no flag of ft_ready that was
set is cleared. -/
theorem C1_ready_never_cleared (env : Env) (op : Op) (s : WpProxy) :
    subset_features s.ft_ready (step env op s).ft_ready ∧
    ∀ i : Nat, s.ft_ready.testBit i = true → (step env op s).ft_ready.testBit i = true := by
  have h := step_mono env op s
  refine ⟨h, ?_⟩
  intro i hi
  have h1 := congrArg (fun n => n.testBit i) h
  simp only [Nat.testBit_and, hi, Bool.true_and] at h1
  exact h1

/-- C2: wp_proxy_augment(w) on a class whose acquisition routine is `a`:
ft_wanted becomes wanted_old | w (which contains wanted_old);
missing = (ft_ready ^ ft_wanted) & ft_wanted has exactly the bits that are
wanted and not ready, and equals ft_wanted & ~ft_ready at every word width
that holds both masks; if missing is 0 the new task is resolved with success
at once, no task stays pending and `a` is not called; otherwise the result is
one call of `a` with argument missing on the state in which the new task is
the pending one.  With the default routine ft_wanted afterwards is
wanted_old | w. -/
theorem C2_augment_contract (env : Env) (a : WpProxyFeatures → WpProxy → WpProxy)
    (w : WpProxyFeatures) (s : WpProxy) :
    subset_features s.ft_wanted (s.ft_wanted ||| w) ∧
    (∀ i : Nat,
      ((s.ft_ready ^^^ (s.ft_wanted ||| w)) &&& (s.ft_wanted ||| w)).testBit i =
        ((s.ft_wanted ||| w).testBit i && !s.ft_ready.testBit i)) ∧
    (∀ n : Nat, s.ft_ready < 2 ^ n → s.ft_wanted ||| w < 2 ^ n →
      (s.ft_ready ^^^ (s.ft_wanted ||| w)) &&& (s.ft_wanted ||| w) =
        (s.ft_wanted ||| w) &&& (2 ^ n - 1 - s.ft_ready)) ∧
    wp_proxy_augment ⟨some a⟩ w s =
      (if (s.ft_ready ^^^ (s.ft_wanted ||| w)) &&& (s.ft_wanted ||| w) = 0 then
        { s with
          ft_wanted := s.ft_wanted ||| w
          task := none
          next_task := s.next_task + 1
          trace := s.trace ++ [Event.g_task_new s.next_task,
            Event.g_task_return_boolean s.next_task true] }
      else
        a ((s.ft_ready ^^^ (s.ft_wanted ||| w)) &&& (s.ft_wanted ||| w))
          { s with
            ft_wanted := s.ft_wanted ||| w
            task := some s.next_task
            next_task := s.next_task + 1
            trace := s.trace ++ [Event.g_task_new s.next_task,
              Event.klass_augment
                ((s.ft_ready ^^^ (s.ft_wanted ||| w)) &&& (s.ft_wanted ||| w))] }) ∧
    (wp_proxy_augment (wp_proxy_class_init env) w s).ft_wanted = s.ft_wanted ||| w := by
  refine ⟨subset_features_or_right _ _, ?_, ?_, ?_, ?_⟩
  · intro i
    exact missing_testBit _ _ i
  · intro n hr hw
    exact missing_eq_and_compl n hr hw
  · exact augment_eq a w s
  · exact augment_ft_wanted env w s

/-- C3 (amended): with the default routine, a second wp_proxy_augment(f) right
after the first leaves ft_ready and ft_wanted as the first call left them.  If
the first call left every wanted feature ready, the second creates its task,
resolves it with success at once and does not call the acquisition routine;
if some wanted feature is still missing, the second call invokes the routine
again for the missing features, with its own task installed as the pending
one. -/
theorem C3_second_augment (env : Env) (f : WpProxyFeatures) (s : WpProxy) :
    (step env (Op.augment f) (step env (Op.augment f) s)).ft_ready =
      (step env (Op.augment f) s).ft_ready ∧
    (step env (Op.augment f) (step env (Op.augment f) s)).ft_wanted =
      (step env (Op.augment f) s).ft_wanted ∧
    (if satisfied (step env (Op.augment f) s) then
      step env (Op.augment f) (step env (Op.augment f) s) =
        { step env (Op.augment f) s with
          task := none
          next_task := (step env (Op.augment f) s).next_task + 1
          trace := (step env (Op.augment f) s).trace ++
            [Event.g_task_new (step env (Op.augment f) s).next_task,
             Event.g_task_return_boolean (step env (Op.augment f) s).next_task true] }
    else
      step env (Op.augment f) (step env (Op.augment f) s) =
        wp_proxy_default_augment env
          (((step env (Op.augment f) s).ft_ready ^^^ (step env (Op.augment f) s).ft_wanted) &&&
            (step env (Op.augment f) s).ft_wanted)
          { step env (Op.augment f) s with
            task := some (step env (Op.augment f) s).next_task
            next_task := (step env (Op.augment f) s).next_task + 1
            trace := (step env (Op.augment f) s).trace ++
              [Event.g_task_new (step env (Op.augment f) s).next_task,
               Event.klass_augment
                 (((step env (Op.augment f) s).ft_ready ^^^
                    (step env (Op.augment f) s).ft_wanted) &&&
                  (step env (Op.augment f) s).ft_wanted)] }) := by
  have hw1 : (step env (Op.augment f) s).ft_wanted ||| f =
      (step env (Op.augment f) s).ft_wanted := by
    have e : (step env (Op.augment f) s).ft_wanted = s.ft_wanted ||| f :=
      augment_ft_wanted env f s
    rw [e, or_or_self]
  refine ⟨second_augment_ready env f s, ?_, ?_⟩
  · have e2 := augment_ft_wanted env f (step env (Op.augment f) s)
    rw [hw1] at e2
    exact e2
  · generalize step env (Op.augment f) s = s1 at hw1 ⊢
    have e : step env (Op.augment f) s1 =
        wp_proxy_augment ⟨some (wp_proxy_default_augment env)⟩ f s1 := rfl
    rw [e, augment_eq]
    simp only [hw1]
    by_cases hs : satisfied s1
    · rw [if_pos hs, if_pos ((missing_eq_zero_iff _ _).mpr hs)]
    · rw [if_neg hs, if_neg (fun h0 => hs ((missing_eq_zero_iff _ _).mp h0))]

/-- C3 as stated fails on a wrapped proxy asked twice for feature 2: the second
call invokes the acquisition routine again and its task stays pending,
nothing being resolved. -/
theorem C3_counterexample :
    (run env0 [Op.augment 2, Op.augment 2] wrapped_proxy).trace =
      (run env0 [Op.augment 2] wrapped_proxy).trace ++
        [Event.g_task_new 1, Event.klass_augment 2] ∧
    (run env0 [Op.augment 2, Op.augment 2] wrapped_proxy).task = some 1 ∧
    tasks_resolved (run env0 [Op.augment 2, Op.augment 2] wrapped_proxy).trace = [] := by
  decide

/-- C4: the remote destroy event clears the remote handle and leaves no
pending task; a task that was pending is resolved with the operation-failed
error (that one event follows the destroyed signal, so it is not resolved
with success), and with no pending task the event resolves nothing. -/
theorem C4_destroy_fails_pending (s : WpProxy) :
    (proxy_event_destroy s).pw_proxy = none ∧
    (proxy_event_destroy s).task = none ∧
    (proxy_event_destroy s).trace =
      s.trace ++ Event.signal_pw_proxy_destroyed ::
        (match s.task with
         | some t => [Event.g_task_return_error t
             ⟨GErrorDomain.WP_DOMAIN_LIBRARY,
              WpLibraryErrorEnum.WP_LIBRARY_ERROR_OPERATION_FAILED,
              "pipewire node proxy destroyed before finishing"⟩]
         | none => []) ∧
    (∀ t : Nat, success_count t (proxy_event_destroy s).trace = success_count t s.trace) := by
  unfold proxy_event_destroy
  cases h : s.task <;> simp [emit, h, success_count, List.count_append, List.count_cons]

/-- C5 (the code departs from the claim): on a wrapped proxy whose bound flag
is ready, two successive wp_proxy_augment calls for feature 2 leave both
tasks, 0 and 1, unresolved, only task 1 being held by the proxy; marking
feature 2 ready then resolves task 1 alone and task 0 stays unresolved with
no reference left to it. -/
theorem C5_second_augment_drops_first :
    tasks_unresolved (run env0 [Op.augment 2, Op.augment 2] wrapped_proxy).trace = [0, 1] ∧
    (run env0 [Op.augment 2, Op.augment 2] wrapped_proxy).task = some 1 ∧
    (run env0 [Op.augment 2, Op.augment 2, Op.set_feature_ready 2] wrapped_proxy).trace =
      [Event.signal_pw_proxy_created 7,
       Event.g_task_new 0, Event.klass_augment 2,
       Event.g_task_new 1, Event.klass_augment 2,
       Event.notify_features, Event.g_task_return_boolean 1 true] ∧
    tasks_unresolved
      (run env0 [Op.augment 2, Op.augment 2, Op.set_feature_ready 2] wrapped_proxy).trace = [0] ∧
    (run env0 [Op.augment 2, Op.augment 2, Op.set_feature_ready 2] wrapped_proxy).task = none := by
  decide

/-- C6: wp_proxy_set_feature_ready(f).  The code takes f as already ready
when ft_ready & f is non-zero, which for a single flag f = 2^k says that bit k
of ft_ready is set; then the call changes nothing and resolves nothing.
Otherwise ft_ready becomes ft_ready | f, the change is notified, and a pending
task is resolved with success and cleared exactly when afterwards
(ft_ready & ft_wanted) == ft_wanted.  Hence, starting with task t pending and
the wanted set not yet satisfied, any sequence of such calls resolves t with
success once if the wanted set ends up satisfied and never otherwise, resolves
nothing else, and does so in the first call after which the wanted set is
satisfied. -/
theorem C6_set_feature_ready (f : WpProxyFeatures) (s : WpProxy) :
    (∀ k : Nat, s.ft_ready &&& 2 ^ k ≠ 0 ↔ s.ft_ready.testBit k = true) ∧
    wp_proxy_set_feature_ready f s =
      (if s.ft_ready &&& f ≠ 0 then s
       else match s.task with
        | some t =>
          if (s.ft_ready ||| f) &&& s.ft_wanted = s.ft_wanted then
            { s with
              ft_ready := s.ft_ready ||| f
              task := none
              trace := s.trace ++ [Event.notify_features, Event.g_task_return_boolean t true] }
          else
            { s with ft_ready := s.ft_ready ||| f, trace := s.trace ++ [Event.notify_features] }
        | none =>
          { s with ft_ready := s.ft_ready ||| f, trace := s.trace ++ [Event.notify_features] }) ∧
    (∀ (t : Nat) (fs : List WpProxyFeatures), s.task = some t → ¬ satisfied s →
      (if satisfied (mark_ready_all fs s) then
        (mark_ready_all fs s).task = none ∧
        tasks_resolved (mark_ready_all fs s).trace = tasks_resolved s.trace ++ [t] ∧
        success_count t (mark_ready_all fs s).trace = success_count t s.trace + 1
       else
        (mark_ready_all fs s).task = some t ∧
        tasks_resolved (mark_ready_all fs s).trace = tasks_resolved s.trace ∧
        success_count t (mark_ready_all fs s).trace = success_count t s.trace) ∧
      (∀ (pre : List WpProxyFeatures) (g : WpProxyFeatures) (post : List WpProxyFeatures),
        fs = pre ++ g :: post →
        ¬ satisfied (mark_ready_all pre s) → satisfied (mark_ready_all (pre ++ [g]) s) →
        (mark_ready_all (pre ++ [g]) s).trace =
          (mark_ready_all pre s).trace ++
            [Event.notify_features, Event.g_task_return_boolean t true])) := by
  refine ⟨fun k => and_two_pow_ne_zero _ k, set_feature_ready_eq f s, ?_⟩
  intro t fs ht hns
  constructor
  · rcases mark_ready_all_pending fs s t ht hns with ⟨h1, h2, h3, h4⟩ | ⟨h1, h2, h3, h4⟩
    · rw [if_pos h1]; exact ⟨h2, h3, h4⟩
    · rw [if_neg h1]; exact ⟨h2, h3, h4⟩
  · intro pre g post _ hpre hg
    have hstep : mark_ready_all (pre ++ [g]) s =
        wp_proxy_set_feature_ready g (mark_ready_all pre s) := by
      rw [mark_ready_all_append]; rfl
    rw [hstep] at hg ⊢
    rcases mark_ready_all_pending pre s t ht hns with ⟨h1, _, _, _⟩ | ⟨h1, h2, _, _⟩
    · exact absurd h1 hpre
    · rcases set_feature_ready_pending g _ t h2 h1 with ⟨_, _, k3⟩ | ⟨k1, _, _⟩
      · exact k3
      · exact absurd hg k1

/-- C6, at a concrete run: on a wrapped proxy with feature mask 6 requested and
pending, marking 2, then 2 again, then 4 ready resolves the task once, in the
third call. -/
theorem C6_set_feature_ready_witness :
    (mark_ready_all [2, 2] (step env0 (Op.augment 6) wrapped_proxy)).task = some 0 ∧
    success_count 0 (mark_ready_all [2, 2, 4, 8]
      (step env0 (Op.augment 6) wrapped_proxy)).trace = 1 ∧
    (mark_ready_all ([2, 2] ++ [4]) (step env0 (Op.augment 6) wrapped_proxy)).trace =
      (mark_ready_all [2, 2] (step env0 (Op.augment 6) wrapped_proxy)).trace ++
        [Event.notify_features, Event.g_task_return_boolean 0 true] :=
  ⟨by decide, by decide,
   (C6_set_feature_ready 0 (step env0 (Op.augment 6) wrapped_proxy)).2.2 0 [2, 2, 4, 8]
     (by decide) (by decide) |>.2 [2, 2] 4 [8] (by decide) (by decide) (by decide)⟩

/-- C7: wp_proxy_augment_error(e) never changes ft_ready or ft_wanted and
leaves no pending task; a pending task is resolved with failure carrying
exactly e (the only effect), and with no pending task the proxy is left
exactly as it was, nothing being resolved. -/
theorem C7_augment_error (e : GError) (s : WpProxy) :
    (wp_proxy_augment_error e s).ft_ready = s.ft_ready ∧
    (wp_proxy_augment_error e s).ft_wanted = s.ft_wanted ∧
    (wp_proxy_augment_error e s).task = none ∧
    (match s.task with
     | some t =>
       wp_proxy_augment_error e s =
         { s with task := none, trace := s.trace ++ [Event.g_task_return_error t e] }
     | none => wp_proxy_augment_error e s = s) := by
  unfold wp_proxy_augment_error
  cases h : s.task <;> simp [emit, h]

/-- C8 (amended): on a proxy with no remote handle and no global id,
wp_proxy_augment(w) with the default routine fails synchronously whenever some
wanted feature is not ready yet: the new task is resolved with the library
error WP_LIBRARY_ERROR_INVALID_ARGUMENT, nothing is bound, ft_ready is
unchanged and no task is left pending. -/
theorem C8_orphan_augment_fails (env : Env) (w : WpProxyFeatures) (s : WpProxy)
    (hPW : env.WP_PROXY_FEATURE_PW_PROXY ≠ 0)
    (hp : s.pw_proxy = none) (hg : s.global_id = 0)
    (hm : (s.ft_ready ^^^ (s.ft_wanted ||| w)) &&& (s.ft_wanted ||| w) ≠ 0) :
    wp_proxy_augment (wp_proxy_class_init env) w s =
      { s with
        ft_wanted := s.ft_wanted ||| w
        task := none
        next_task := s.next_task + 1
        trace := s.trace ++
          [Event.g_task_new s.next_task,
           Event.klass_augment ((s.ft_ready ^^^ (s.ft_wanted ||| w)) &&& (s.ft_wanted ||| w)),
           Event.g_task_return_error s.next_task
             ⟨GErrorDomain.WP_DOMAIN_LIBRARY,
              WpLibraryErrorEnum.WP_LIBRARY_ERROR_INVALID_ARGUMENT,
              "No global id specified; cannot bind pw_proxy"⟩] } := by
  unfold wp_proxy_class_init
  rw [augment_eq, if_neg hm, default_augment_unbound env _ _ ?_ hm hPW]
  · simp [hg, wp_proxy_augment_error, emit, no_global_id_error]
  · exact hp

/-- C8, at a concrete input: the proxy built without handle or global id,
asked for feature 2. -/
theorem C8_orphan_augment_fails_witness :
    wp_proxy_augment (wp_proxy_class_init env0) 2 orphan_proxy =
      { orphan_proxy with
        ft_wanted := 2
        task := none
        next_task := 1
        trace :=
          [Event.g_task_new 0, Event.klass_augment 2,
           Event.g_task_return_error 0
             ⟨GErrorDomain.WP_DOMAIN_LIBRARY,
              WpLibraryErrorEnum.WP_LIBRARY_ERROR_INVALID_ARGUMENT,
              "No global id specified; cannot bind pw_proxy"⟩] } :=
  C8_orphan_augment_fails env0 2 orphan_proxy (by decide) (by decide) (by decide) (by decide)

/-- C8 as stated fails twice over.  On the proxy without handle or global id the
error reported for feature 2 has code WP_LIBRARY_ERROR_INVALID_ARGUMENT, which
is not WP_LIBRARY_ERROR_INVARIANT; and once feature 2 has been marked ready on
that proxy, wp_proxy_augment(2) is resolved with success, not with an error. -/
theorem C8_counterexample :
    orphan_proxy.pw_proxy = none ∧ orphan_proxy.global_id = 0 ∧
    (step env0 (Op.augment 2) orphan_proxy).trace =
      [Event.g_task_new 0, Event.klass_augment 2,
       Event.g_task_return_error 0
         ⟨GErrorDomain.WP_DOMAIN_LIBRARY,
          WpLibraryErrorEnum.WP_LIBRARY_ERROR_INVALID_ARGUMENT,
          "No global id specified; cannot bind pw_proxy"⟩] ∧
    WpLibraryErrorEnum.WP_LIBRARY_ERROR_INVALID_ARGUMENT ≠
      WpLibraryErrorEnum.WP_LIBRARY_ERROR_INVARIANT ∧
    (step env0 (Op.set_feature_ready 2) orphan_proxy).pw_proxy = none ∧
    (step env0 (Op.set_feature_ready 2) orphan_proxy).global_id = 0 ∧
    (run env0 [Op.set_feature_ready 2, Op.augment 2] orphan_proxy).trace =
      [Event.notify_features, Event.g_task_new 0, Event.g_task_return_boolean 0 true] := by
  decide

/-- C9 (amended): the bound flag being one bit 2^k.  On a registry proxy
(global id != 0) without handle whose remote is still alive, the default
routine called with any non-zero mask m, with or without the bound bit, binds:
the handle returned by the remote is stored, the listener added, the created
signal emitted and the bound flag marked ready, so that afterwards the handle
is present and ft_ready is ft_ready | bound, no other flag being added.  On a
proxy that already has a handle, a mask without the bound bit does nothing. -/
theorem C9_default_augment_binds (env : Env) (m : WpProxyFeatures) (s : WpProxy) (k : Nat)
    (hk : env.WP_PROXY_FEATURE_PW_PROXY = 2 ^ k) :
    (∀ r : Nat, s.global_id ≠ 0 → s.pw_proxy = none → s.remote = some r → m ≠ 0 →
      wp_proxy_default_augment env m s =
        wp_proxy_set_feature_ready env.WP_PROXY_FEATURE_PW_PROXY
          { s with
            pw_proxy := some (env.wp_remote_pipewire_proxy_bind r s.global_id s.iface_type)
            trace := s.trace ++
              [Event.proxy_bind r s.global_id s.iface_type,
               Event.add_listener
                 (env.wp_remote_pipewire_proxy_bind r s.global_id s.iface_type),
               Event.signal_pw_proxy_created
                 (env.wp_remote_pipewire_proxy_bind r s.global_id s.iface_type)] } ∧
      (wp_proxy_default_augment env m s).pw_proxy =
        some (env.wp_remote_pipewire_proxy_bind r s.global_id s.iface_type) ∧
      (wp_proxy_default_augment env m s).ft_ready =
        s.ft_ready ||| env.WP_PROXY_FEATURE_PW_PROXY ∧
      (wp_proxy_default_augment env m s).ft_ready.testBit k = true) ∧
    (∀ p : Nat, s.pw_proxy = some p → m &&& env.WP_PROXY_FEATURE_PW_PROXY = 0 →
      wp_proxy_default_augment env m s = s) := by
  constructor
  · intro r hg hp hr hm
    have hPW : env.WP_PROXY_FEATURE_PW_PROXY ≠ 0 := by
      rw [hk]; exact Nat.pos_iff_ne_zero.mp (Nat.two_pow_pos k)
    have e : wp_proxy_default_augment env m s =
        wp_proxy_set_feature_ready env.WP_PROXY_FEATURE_PW_PROXY
          { s with
            pw_proxy := some (env.wp_remote_pipewire_proxy_bind r s.global_id s.iface_type)
            trace := s.trace ++
              [Event.proxy_bind r s.global_id s.iface_type,
               Event.add_listener
                 (env.wp_remote_pipewire_proxy_bind r s.global_id s.iface_type),
               Event.signal_pw_proxy_created
                 (env.wp_remote_pipewire_proxy_bind r s.global_id s.iface_type)] } := by
      rw [default_augment_unbound env m s hp hm hPW, if_neg hg,
        bind_global_bound env s r hg hp hr]
    refine ⟨e, ?_, ?_, ?_⟩
    · rw [e, set_feature_ready_pw_proxy]
    · rw [e, hk, set_feature_ready_flag]
    · rw [e, hk, set_feature_ready_flag]; exact testBit_or_two_pow _ k
  · intro p hp hm
    have hne : s.pw_proxy ≠ none := by rw [hp]; exact Option.some_ne_none p
    rw [default_augment_bound env m s hne]
    simp [hm]

/-- C9, at concrete inputs: the registry proxy with global id 5 asked for
feature 2 is bound to handle 105 with ft_ready = 1; the wrapped proxy asked
for feature 2 is left alone. -/
theorem C9_default_augment_binds_witness :
    ((wp_proxy_default_augment env0 2 global_proxy).pw_proxy = some 105 ∧
     (wp_proxy_default_augment env0 2 global_proxy).ft_ready = 1) ∧
    wp_proxy_default_augment env0 2 wrapped_proxy = wrapped_proxy :=
  ⟨⟨((C9_default_augment_binds env0 2 global_proxy 0 rfl).1 0
        (by decide) (by decide) (by decide) (by decide)).2.1,
    ((C9_default_augment_binds env0 2 global_proxy 0 rfl).1 0
        (by decide) (by decide) (by decide) (by decide)).2.2.1⟩,
   (C9_default_augment_binds env0 2 wrapped_proxy 0 rfl).2 7 (by decide) (by decide)⟩

/-- C9 as stated fails on a registry proxy whose remote is gone: with global id
5, no handle and mask 2 the default routine binds nothing and marks nothing
ready. -/
theorem C9_counterexample :
    stale_global_proxy.global_id = 5 ∧ stale_global_proxy.pw_proxy = none ∧
    (wp_proxy_default_augment env0 2 stale_global_proxy).pw_proxy = none ∧
    (wp_proxy_default_augment env0 2 stale_global_proxy).ft_ready = 0 ∧
    (wp_proxy_default_augment env0 2 stale_global_proxy).trace = [] := by
  decide

/-- C10 (amended): the destroy event leaves ft_ready as it is, and whatever
protocol operations follow, ft_ready still contains every flag it had at the
destroy event (later calls may add flags).  The task that was pending at the
destroy event is resolved by it, with the error, and no later operation
resolves that task with success. -/
theorem C10_after_destroy (env : Env) (s : WpProxy) (ops : List Op) :
    (proxy_event_destroy s).ft_ready = s.ft_ready ∧
    subset_features s.ft_ready (run env ops (proxy_event_destroy s)).ft_ready ∧
    (∀ t : Nat, s.task = some t → t < s.next_task →
      tasks_resolved (proxy_event_destroy s).trace = tasks_resolved s.trace ++ [t] ∧
      success_count t (run env ops (proxy_event_destroy s)).trace =
        success_count t s.trace) := by
  refine ⟨destroy_ft_ready s, ?_, ?_⟩
  · have h := run_mono env ops (proxy_event_destroy s)
    rw [destroy_ft_ready] at h
    exact h
  · intro t ht hlt
    obtain ⟨k1, k2⟩ := destroy_settled t s hlt
    constructor
    · unfold proxy_event_destroy
      simp [ht, emit, tasks_resolved_append, tasks_resolved]
    · rw [run_settled env t ops _ k1, k2]

/-- C10, at a concrete run: a wrapped proxy with feature 2 requested (task 0
pending) is destroyed; marking 2 ready and requesting 2 again afterwards never
resolves task 0 with success. -/
theorem C10_after_destroy_witness :
    (step env0 (Op.augment 2) wrapped_proxy).task = some 0 ∧
    success_count 0
      (run env0 [Op.set_feature_ready 2, Op.augment 2]
        (proxy_event_destroy (step env0 (Op.augment 2) wrapped_proxy))).trace = 0 :=
  ⟨by decide,
   ((C10_after_destroy env0 (step env0 (Op.augment 2) wrapped_proxy)
      [Op.set_feature_ready 2, Op.augment 2]).2.2 0 (by decide) (by decide)).2⟩

/-- C10 as stated fails on a registry proxy that was bound and then destroyed:
ft_ready is 1 at the destroy event and 3 after feature 2 is marked ready, and a
later wp_proxy_augment(1) is resolved with success. -/
theorem C10_counterexample :
    (run env0 [Op.augment 1, Op.event_destroy] global_proxy).ft_ready = 1 ∧
    (run env0 [Op.augment 1, Op.event_destroy, Op.set_feature_ready 2] global_proxy).ft_ready
      = 3 ∧
    (run env0 [Op.augment 1, Op.event_destroy, Op.augment 1] global_proxy).trace =
      (run env0 [Op.augment 1, Op.event_destroy] global_proxy).trace ++
        [Event.g_task_new 1, Event.g_task_return_boolean 1 true] := by
  decide

end WpProxyModel

namespace WpInitTransitionModel

/-! ## The plugin step waits -/

theorem advance_waiting (env : InitEnv) (fuel : Nat) (s : WpInitTransition)
    (hs : s.step = Step.STEP_ACTIVATE_PLUGINS) (hc : s.completed = false)
    (hp : 0 < s.pending_plugins) :
    wp_transition_advance env (fuel + 2) s =
      { s with
        om := true
        trace := s.trace ++ [InitEvent.connect_signal "object-added",
          InitEvent.connect_signal "installed", InitEvent.install_object_manager] } := by
  obtain ⟨step, completed, error, om, pending, trace⟩ := s
  dsimp only at hs hc hp
  subst hs hc
  have hp0 : pending ≠ 0 := Nat.pos_iff_ne_zero.mp hp
  simp [wp_transition_advance, wp_init_transition_get_next_step, hp0,
    wp_init_transition_execute_step, note]

theorem advance_ready (env : InitEnv) (fuel : Nat) (s : WpInitTransition)
    (hs : s.step = Step.STEP_ACTIVATE_PLUGINS) (hc : s.completed = false)
    (hp : s.pending_plugins = 0) :
    wp_transition_advance env (fuel + 2) s =
      { s with
        step := Step.STEP_ACTIVATE_SCRIPTS
        om := false
        trace := s.trace ++ [InitEvent.object_activate "lua-scripting"] } := by
  obtain ⟨step, completed, error, om, pending, trace⟩ := s
  dsimp only at hs hc hp
  subst hs hc hp
  simp [wp_transition_advance, wp_init_transition_get_next_step,
    wp_init_transition_execute_step, note]

theorem init_step_waiting (env : InitEnv) (fuel : Nat) (op : InitOp) (s : WpInitTransition)
    (hs : s.step = Step.STEP_ACTIVATE_PLUGINS) (hc : s.completed = false)
    (hop : op ≠ InitOp.plugin_activated false)
    (hp : 0 < (init_step env (fuel + 2) op s).pending_plugins) :
    (init_step env (fuel + 2) op s).step = Step.STEP_ACTIVATE_PLUGINS ∧
    (init_step env (fuel + 2) op s).completed = false := by
  cases op with
  | advance =>
    by_cases h0 : s.pending_plugins = 0
    · have e : init_step env (fuel + 2) InitOp.advance s =
          wp_transition_advance env (fuel + 2) s := rfl
      rw [e, advance_ready env fuel s hs hc h0] at hp
      exact absurd h0 (Nat.pos_iff_ne_zero.mp hp)
    · have e : init_step env (fuel + 2) InitOp.advance s =
          wp_transition_advance env (fuel + 2) s := rfl
      rw [e, advance_waiting env fuel s hs hc (Nat.pos_iff_ne_zero.mpr h0)]
      exact ⟨hs, hc⟩
  | plugin_added p => exact ⟨hs, hc⟩
  | plugin_activated ok =>
    cases ok with
    | false => exact absurd rfl hop
    | true =>
      have e : init_step env (fuel + 2) (InitOp.plugin_activated true) s =
          wp_transition_advance env (fuel + 2)
            { s with pending_plugins := guint_decr s.pending_plugins } := by
        simp [init_step, on_plugin_activated]
      rw [e] at hp ⊢
      by_cases h0 : guint_decr s.pending_plugins = 0
      · rw [advance_ready env fuel
          { s with pending_plugins := guint_decr s.pending_plugins } hs hc h0] at hp
        exact absurd h0 (Nat.pos_iff_ne_zero.mp hp)
      · rw [advance_waiting env fuel
          { s with pending_plugins := guint_decr s.pending_plugins } hs hc
          (Nat.pos_iff_ne_zero.mpr h0)]
        exact ⟨hs, hc⟩

theorem init_run_waiting (env : InitEnv) (fuel : Nat) (ops : List InitOp) :
    ∀ s : WpInitTransition, s.step = Step.STEP_ACTIVATE_PLUGINS → s.completed = false →
      stays_pending env (fuel + 2) ops s = true →
      (init_run env (fuel + 2) ops s).step = Step.STEP_ACTIVATE_PLUGINS ∧
      (init_run env (fuel + 2) ops s).completed = false := by
  induction ops with
  | nil => intro s hs hc _; exact ⟨hs, hc⟩
  | cons op rest ih =>
    intro s hs hc hst
    simp only [stays_pending, Bool.and_eq_true, decide_eq_true_eq] at hst
    obtain ⟨⟨_, hop⟩, hrest⟩ := hst
    have hp : 0 < (init_step env (fuel + 2) op s).pending_plugins := by
      cases rest with
      | nil => simpa [stays_pending] using hrest
      | cons op2 rest2 =>
        simp only [stays_pending, Bool.and_eq_true, decide_eq_true_eq] at hrest
        exact hrest.1.1
    obtain ⟨k1, k2⟩ := init_step_waiting env fuel op s hs hc hop hp
    exact ih _ k1 k2 hrest

/-- C11: in the startup transition, with pending_plugins above zero the step
function maps STEP_ACTIVATE_PLUGINS to itself.  Hence a transition waiting in
that step stays in it, unfinished, through any sequence of advance calls,
plugin additions and successful plugin activations (each of which advances)
during which pending_plugins stays above zero: it reaches neither
STEP_ACTIVATE_SCRIPTS nor the terminal-success step nor the error step.  An
advance that leaves the step is one made with pending_plugins at 0, and that
advance moves to STEP_ACTIVATE_SCRIPTS. -/
theorem C11_plugin_step_waits (env : InitEnv) (fuel : Nat) (s : WpInitTransition) :
    (0 < s.pending_plugins →
      wp_init_transition_get_next_step s Step.STEP_ACTIVATE_PLUGINS =
        Step.STEP_ACTIVATE_PLUGINS) ∧
    (∀ ops : List InitOp, s.step = Step.STEP_ACTIVATE_PLUGINS → s.completed = false →
      stays_pending env (fuel + 2) ops s = true →
      (init_run env (fuel + 2) ops s).step = Step.STEP_ACTIVATE_PLUGINS ∧
      (init_run env (fuel + 2) ops s).completed = false) ∧
    (s.step = Step.STEP_ACTIVATE_PLUGINS → s.completed = false →
      (wp_transition_advance env (fuel + 2) s).step ≠ Step.STEP_ACTIVATE_PLUGINS →
      s.pending_plugins = 0) ∧
    (s.step = Step.STEP_ACTIVATE_PLUGINS → s.completed = false → s.pending_plugins = 0 →
      (wp_transition_advance env (fuel + 2) s).step = Step.STEP_ACTIVATE_SCRIPTS) := by
  refine ⟨?_, ?_, ?_, ?_⟩
  · intro hp
    have hp0 : s.pending_plugins ≠ 0 := Nat.pos_iff_ne_zero.mp hp
    simp [wp_init_transition_get_next_step, hp0]
  · intro ops hs hc hst
    exact init_run_waiting env fuel ops s hs hc hst
  · intro hs hc hne
    by_contra h0
    apply hne
    rw [advance_waiting env fuel s hs hc (Nat.pos_iff_ne_zero.mpr h0)]
    exact hs
  · intro hs hc h0
    rw [advance_ready env fuel s hs hc h0]

/-- C11, at a concrete run: with two activations pending, an advance, a plugin
addition, a successful activation and two more advances leave the transition
in STEP_ACTIVATE_PLUGINS, unfinished. -/
theorem C11_plugin_step_waits_witness :
    (init_run init_env0 INIT_FUEL
      [InitOp.advance, InitOp.plugin_added "p", InitOp.plugin_activated true,
       InitOp.advance, InitOp.advance] waiting_transition).step =
        Step.STEP_ACTIVATE_PLUGINS ∧
    (init_run init_env0 INIT_FUEL
      [InitOp.advance, InitOp.plugin_added "p", InitOp.plugin_activated true,
       InitOp.advance, InitOp.advance] waiting_transition).completed = false :=
  (C11_plugin_step_waits init_env0 6 waiting_transition).2.1
    [InitOp.advance, InitOp.plugin_added "p", InitOp.plugin_activated true,
     InitOp.advance, InitOp.advance] rfl rfl (by decide)

/-- C22: wp_init_transition_get_next_step depends on the transition only
through pending_plugins; it maps NONE to LOAD_MODULE, LOAD_MODULE to
LOAD_CONFIG, LOAD_CONFIG to CONNECT, CONNECT to ACTIVATE_PLUGINS,
ACTIVATE_PLUGINS to ACTIVATE_SCRIPTS exactly when pending_plugins is 0 and to
itself otherwise, ACTIVATE_SCRIPTS to NONE, and the error step and every other
value to WP_TRANSITION_STEP_ERROR.  With pending_plugins at 0, iterating it
from NONE gives load-module, load-config, connect, activate-plugins,
activate-scripts and, at the sixth application and not before, NONE. -/
theorem C22_next_step_table (s t : WpInitTransition) (step : Step) (n : Nat) :
    (s.pending_plugins = t.pending_plugins →
      wp_init_transition_get_next_step s step = wp_init_transition_get_next_step t step) ∧
    wp_init_transition_get_next_step s Step.WP_TRANSITION_STEP_NONE = Step.STEP_LOAD_MODULE ∧
    wp_init_transition_get_next_step s Step.STEP_LOAD_MODULE = Step.STEP_LOAD_CONFIG ∧
    wp_init_transition_get_next_step s Step.STEP_LOAD_CONFIG = Step.STEP_CONNECT ∧
    wp_init_transition_get_next_step s Step.STEP_CONNECT = Step.STEP_ACTIVATE_PLUGINS ∧
    (wp_init_transition_get_next_step s Step.STEP_ACTIVATE_PLUGINS =
      Step.STEP_ACTIVATE_SCRIPTS ↔ s.pending_plugins = 0) ∧
    (s.pending_plugins ≠ 0 →
      wp_init_transition_get_next_step s Step.STEP_ACTIVATE_PLUGINS =
        Step.STEP_ACTIVATE_PLUGINS) ∧
    wp_init_transition_get_next_step s Step.STEP_ACTIVATE_SCRIPTS =
      Step.WP_TRANSITION_STEP_NONE ∧
    wp_init_transition_get_next_step s Step.WP_TRANSITION_STEP_ERROR =
      Step.WP_TRANSITION_STEP_ERROR ∧
    wp_init_transition_get_next_step s (Step.other n) = Step.WP_TRANSITION_STEP_ERROR ∧
    (s.pending_plugins = 0 →
      (List.range 7).map
          (fun k => (wp_init_transition_get_next_step s)^[k] Step.WP_TRANSITION_STEP_NONE) =
        [Step.WP_TRANSITION_STEP_NONE, Step.STEP_LOAD_MODULE, Step.STEP_LOAD_CONFIG,
         Step.STEP_CONNECT, Step.STEP_ACTIVATE_PLUGINS, Step.STEP_ACTIVATE_SCRIPTS,
         Step.WP_TRANSITION_STEP_NONE]) := by
  refine ⟨?_, rfl, rfl, rfl, rfl, ?_, ?_, rfl, rfl, rfl, ?_⟩
  · intro h
    cases step <;> simp [wp_init_transition_get_next_step, h]
  · by_cases h : s.pending_plugins = 0 <;> simp [wp_init_transition_get_next_step, h]
  · intro h
    simp [wp_init_transition_get_next_step, h]
  · intro h
    simp [List.range, List.range.loop, Function.iterate_succ, wp_init_transition_get_next_step, h]

/-- C28 (the code departs from the claim): STEP_ACTIVATE_SCRIPTS activates the
scripting plugin with on_plugin_activated as callback and without counting
it, so that callback decrements pending_plugins at 0: the counter wraps to
4294967295.  A startup that goes well ends in success with pending_plugins at
4294967295, not 0. -/
theorem C28_scripts_callback_wraps_counter :
    (init_run init_env0 INIT_FUEL
      [InitOp.advance, InitOp.advance, InitOp.plugin_added "p", InitOp.advance,
       InitOp.plugin_activated true] fresh_transition).step = Step.STEP_ACTIVATE_SCRIPTS ∧
    (init_run init_env0 INIT_FUEL
      [InitOp.advance, InitOp.advance, InitOp.plugin_added "p", InitOp.advance,
       InitOp.plugin_activated true] fresh_transition).pending_plugins = 0 ∧
    (on_plugin_activated init_env0 INIT_FUEL true
      (init_run init_env0 INIT_FUEL
        [InitOp.advance, InitOp.advance, InitOp.plugin_added "p", InitOp.advance,
         InitOp.plugin_activated true] fresh_transition)).pending_plugins = 4294967295 ∧
    (init_run init_env0 INIT_FUEL successful_startup fresh_transition).completed = true ∧
    (init_run init_env0 INIT_FUEL successful_startup fresh_transition).error = none ∧
    (init_run init_env0 INIT_FUEL successful_startup fresh_transition).step =
      Step.WP_TRANSITION_STEP_NONE ∧
    (init_run init_env0 INIT_FUEL successful_startup fresh_transition).pending_plugins =
      4294967295 := by
  decide

end WpInitTransitionModel

namespace WpConfigPolicyModel

/-! ## What handling an endpoint leaves alone -/

theorem same_scan_frame_refl (a : WpConfigPolicy) : same_scan_frame a a :=
  ⟨rfl, rfl, rfl, rfl, rfl⟩

theorem same_scan_frame_trans {a b c : WpConfigPolicy}
    (h1 : same_scan_frame a b) (h2 : same_scan_frame b c) : same_scan_frame a c :=
  ⟨h1.1.trans h2.1, h1.2.1.trans h2.2.1, h1.2.2.1.trans h2.2.2.1,
   h1.2.2.2.1.trans h2.2.2.2.1, h1.2.2.2.2.trans h2.2.2.2.2⟩

theorem link_destroy_frame (l : WpEndpointLink) (s : WpConfigPolicy) :
    same_scan_frame s (wp_endpoint_link_destroy l s) :=
  ⟨rfl, rfl, rfl, rfl, rfl⟩

theorem link_new_frame (src : WpEndpoint) (ss : Nat) (sink : WpEndpoint) (ks : Nat)
    (keep : Bool) (s : WpConfigPolicy) :
    same_scan_frame s (wp_endpoint_link_new src ss sink ks keep s) :=
  ⟨rfl, rfl, rfl, rfl, rfl⟩

theorem destroy_unkept_frame (ls : List WpEndpointLink) :
    ∀ s : WpConfigPolicy, same_scan_frame s
      (ls.foldl (fun acc l => if !l.kept then wp_endpoint_link_destroy l acc else acc) s) := by
  induction ls with
  | nil => intro s; exact same_scan_frame_refl s
  | cons l rest ih =>
    intro s
    rw [List.foldl_cons]
    cases hk : l.kept
    · exact same_scan_frame_trans (link_destroy_frame l s) (by simpa using ih _)
    · simpa using ih s

theorem check_existing_link_frame (c : Bool) (ep target : WpEndpoint) (s s1 : WpConfigPolicy)
    (h : check_existing_link c ep target s = some s1) : same_scan_frame s s1 := by
  unfold check_existing_link at h
  cases hl : wp_endpoint_get_links s ep with
  | nil =>
    rw [hl] at h
    cases h
    exact same_scan_frame_refl s
  | cons l rest =>
    rw [hl] at h
    dsimp only at h
    split_ifs at h <;> (cases h; exact link_destroy_frame l s)

theorem unlink_target_links_frame (c : Bool) (target : WpEndpoint) (s : WpConfigPolicy) :
    same_scan_frame s (unlink_target_links c target s) := by
  unfold unlink_target_links
  split_ifs
  · exact destroy_unkept_frame _ _
  · exact same_scan_frame_refl s

theorem link_client_with_target_frame (c : Bool) (ep : WpEndpoint) (es : Nat)
    (target : WpEndpoint) (ts : Nat) (data : WpParserEndpointLinkData) (s : WpConfigPolicy) :
    same_scan_frame s (link_client_with_target c ep es target ts data s) := by
  unfold link_client_with_target
  split_ifs <;> exact link_new_frame _ _ _ _ _ _

theorem link_endpoint_with_target_frame (ep : WpEndpoint) (es : Nat) (target : WpEndpoint)
    (ts : Nat) (data : WpParserEndpointLinkData) (s : WpConfigPolicy) :
    same_scan_frame s
      (wp_config_policy_link_endpoint_with_target ep es target ts data s).2 := by
  unfold wp_config_policy_link_endpoint_with_target
  dsimp only
  cases hc : check_existing_link (decide (ep.direction = pw_direction.PW_DIRECTION_INPUT))
      ep target s with
  | none => exact same_scan_frame_refl s
  | some s1 =>
    have h1 := check_existing_link_frame _ ep target s s1 hc
    dsimp only
    split_ifs
    · exact h1
    · have h2 : same_scan_frame s { s1 with pending_target := some target } := h1
      exact same_scan_frame_trans h2
        (same_scan_frame_trans (unlink_target_links_frame _ _ _)
          (link_client_with_target_frame _ _ _ _ _ _ _))

theorem handle_endpoint_frame (env : PolicyEnv) (ep : WpEndpoint) (s : WpConfigPolicy) :
    same_scan_frame s (wp_config_policy_handle_endpoint env ep s).2 := by
  unfold wp_config_policy_handle_endpoint
  cases env.endpoint_link_matched_data ep with
  | none => exact same_scan_frame_refl s
  | some data =>
    dsimp only
    cases wp_policy_find_endpoint env s ⟨some data, ep.role⟩ with
    | none => exact same_scan_frame_refl s
    | some found =>
      obtain ⟨target, stream_id⟩ := found
      dsimp only
      split_ifs
      · exact same_scan_frame_refl s
      · exact link_endpoint_with_target_frame _ _ _ _ _ _

theorem rescan_loop_frame (env : PolicyEnv) (endpoints : List WpEndpoint) :
    ∀ (handled : Bool) (s : WpConfigPolicy),
      same_scan_frame s (rescan_loop env endpoints handled s).2 := by
  induction endpoints with
  | nil => intro handled s; exact same_scan_frame_refl s
  | cons ep rest ih =>
    intro handled s
    unfold rescan_loop
    rw [List.foldl_cons]
    exact same_scan_frame_trans (handle_endpoint_frame env ep s) (ih _ _)

theorem sync_rescan_barriers (env : PolicyEnv) (s : WpConfigPolicy) :
    (wp_config_policy_sync_rescan env s).barriers = s.barriers ∧
    (wp_config_policy_sync_rescan env s).pending_rescan = false := by
  unfold wp_config_policy_sync_rescan
  dsimp only
  constructor
  · cases env.wp_policy_manager_list_endpoints s.endpoints none with
    | none => simp [record]
    | some endpoints =>
      have h := (rescan_loop_frame env endpoints false s).2.2.2.2
      dsimp only
      split_ifs <;> simp [record, h]
  · rfl

/-! ## One barrier at a time -/

theorem rescan_invariant (ep : WpEndpoint) (s : WpConfigPolicy) (h : barrier_invariant s) :
    barrier_invariant (wp_config_policy_rescan ep s) := by
  unfold barrier_invariant at *
  unfold wp_config_policy_rescan
  cases hr : s.pending_rescan with
  | true => simpa [hr] using h
  | false =>
    rw [hr] at h
    simp only [Bool.false_eq_true, if_false] at h ⊢
    cases hp : s.pending_endpoint with
    | some p => simpa [record, hr] using h
    | none =>
      dsimp only
      cases hc : s.core with
      | false => simpa [hr] using h
      | true => simp [wp_core_sync, record, h]

theorem link_created_invariant (res : LinkResult) (s : WpConfigPolicy) :
    (on_endpoint_link_created res s).barriers = s.barriers ∧
    (on_endpoint_link_created res s).pending_rescan = s.pending_rescan := by
  unfold on_endpoint_link_created
  cases res.error with
  | some m => exact ⟨rfl, rfl⟩
  | none =>
    dsimp only
    cases res.link with
    | none => exact ⟨rfl, rfl⟩
    | some link =>
      dsimp only
      cases s.pending_endpoint with
      | none => exact ⟨rfl, rfl⟩
      | some pe =>
        dsimp only
        split_ifs <;> exact ⟨rfl, rfl⟩

theorem policy_step_invariant (env : PolicyEnv) (op : PolicyOp) (s : WpConfigPolicy)
    (h : barrier_invariant s) : barrier_invariant (policy_step env op s) := by
  cases op with
  | endpoint_added ep => exact rescan_invariant ep _ h
  | endpoint_removed ep => exact rescan_invariant ep _ h
  | sync_done =>
    unfold policy_step
    dsimp only
    split_ifs with h0
    · exact h
    · unfold barrier_invariant at *
      obtain ⟨k1, k2⟩ := sync_rescan_barriers env { s with barriers := s.barriers - 1 }
      rw [k1, k2]
      cases hr : s.pending_rescan with
      | true => rw [hr] at h; simp at h; simp [h]
      | false => rw [hr] at h; simp at h; exact absurd h h0
  | link_done i res =>
    unfold policy_step
    dsimp only
    split_ifs with hi
    · unfold barrier_invariant at *
      obtain ⟨k1, k2⟩ := link_created_invariant res
        (match res.error, res.link with
          | none, some link =>
            { ({ s with link_requests := s.link_requests.eraseIdx i } : WpConfigPolicy) with
              links := s.links ++ [link] }
          | _, _ => { s with link_requests := s.link_requests.eraseIdx i })
      rw [k1, k2]
      cases res.error <;> cases res.link <;> exact h
    · exact h
  | links_changed links => exact h

theorem policy_run_invariant (env : PolicyEnv) (ops : List PolicyOp) :
    ∀ s : WpConfigPolicy, barrier_invariant s → barrier_invariant (policy_run env ops s) := by
  induction ops with
  | nil => intro s h; exact h
  | cons op rest ih =>
    intro s h
    exact ih _ (policy_step_invariant env op s h)

/-- C12: starting from the policy as `wp_config_policy_init` leaves it, in any
surroundings, after any sequence of endpoint additions and removals, barrier
completions, link-create completions and changes of the links, the number of
barriers requested by wp_config_policy_rescan and not yet completed is at
most 1, and it is 1 exactly when pending_rescan is set.  An endpoint_added or
endpoint_removed call made while pending_rescan is set returns the policy as
it was: pending_rescan, pending_endpoint and pending_target are unchanged and
no barrier is requested. -/
theorem C12_one_rescan_outstanding (env : PolicyEnv) (core : Bool)
    (endpoints : List WpEndpoint) (links : List WpEndpointLink) (ops : List PolicyOp)
    (ep : WpEndpoint) (s : WpConfigPolicy) :
    (policy_run env ops (wp_config_policy_init core endpoints links)).barriers ≤ 1 ∧
    ((policy_run env ops (wp_config_policy_init core endpoints links)).barriers = 1 ↔
      (policy_run env ops (wp_config_policy_init core endpoints links)).pending_rescan = true) ∧
    (s.pending_rescan = true →
      wp_config_policy_endpoint_added ep s = s ∧
      wp_config_policy_endpoint_removed ep s = s) := by
  have h := policy_run_invariant env ops (wp_config_policy_init core endpoints links) rfl
  unfold barrier_invariant at h
  refine ⟨?_, ?_, ?_⟩
  · rw [h]; split_ifs <;> decide
  · rw [h]
    cases (policy_run env ops (wp_config_policy_init core endpoints links)).pending_rescan <;>
      simp
  · intro hr
    unfold wp_config_policy_endpoint_added wp_config_policy_endpoint_removed
      wp_config_policy_rescan
    simp [hr]

/-- C12, at a concrete run: an endpoint is added, a second one is added while
the rescan is pending (and is ignored), and one barrier is outstanding. -/
theorem C12_one_rescan_outstanding_witness :
    (policy_run policy_env0 [PolicyOp.endpoint_added ep_A, PolicyOp.endpoint_added ep_C]
      (wp_config_policy_init true [ep_B] [])).barriers = 1 ∧
    wp_config_policy_endpoint_added ep_C
      (policy_run policy_env0 [PolicyOp.endpoint_added ep_A]
        (wp_config_policy_init true [ep_B] [])) =
      policy_run policy_env0 [PolicyOp.endpoint_added ep_A]
        (wp_config_policy_init true [ep_B] []) :=
  ⟨by decide,
   ((C12_one_rescan_outstanding policy_env0 true [] [] [] ep_C
      (policy_run policy_env0 [PolicyOp.endpoint_added ep_A]
        (wp_config_policy_init true [ep_B] []))).2.2 (by decide)).1⟩

/-! ## The blocks of wp_config_policy_link_endpoint_with_target -/

theorem requests_in_append (a b : List PolicyEvent) :
    requests_in (a ++ b) = requests_in a ++ requests_in b := by
  unfold requests_in; exact List.filterMap_append _ _ _

theorem destroyed_in_append (a b : List PolicyEvent) :
    destroyed_in (a ++ b) = destroyed_in a ++ destroyed_in b := by
  unfold destroyed_in; exact List.filterMap_append _ _ _

theorem link_destroy_effect (l : WpEndpointLink) (s : WpConfigPolicy) :
    (wp_endpoint_link_destroy l s).pending_target = s.pending_target ∧
    (wp_endpoint_link_destroy l s).link_requests = s.link_requests ∧
    requests_in (wp_endpoint_link_destroy l s).trace = requests_in s.trace ∧
    destroyed_in (wp_endpoint_link_destroy l s).trace = destroyed_in s.trace ++ [l] := by
  refine ⟨rfl, rfl, ?_, ?_⟩
  · show requests_in (s.trace ++ [PolicyEvent.link_destroy l]) = _
    rw [requests_in_append]; simp [requests_in]
  · show destroyed_in (s.trace ++ [PolicyEvent.link_destroy l]) = _
    rw [destroyed_in_append]; simp [destroyed_in]

theorem destroy_unkept_effect (ls : List WpEndpointLink) :
    ∀ s : WpConfigPolicy,
      (ls.foldl (fun acc l => if !l.kept then wp_endpoint_link_destroy l acc else acc)
        s).pending_target = s.pending_target ∧
      (ls.foldl (fun acc l => if !l.kept then wp_endpoint_link_destroy l acc else acc)
        s).link_requests = s.link_requests ∧
      requests_in (ls.foldl (fun acc l => if !l.kept then wp_endpoint_link_destroy l acc
        else acc) s).trace = requests_in s.trace ∧
      destroyed_in (ls.foldl (fun acc l => if !l.kept then wp_endpoint_link_destroy l acc
        else acc) s).trace = destroyed_in s.trace ++ ls.filter (fun l => !l.kept) := by
  induction ls with
  | nil => intro s; simp
  | cons l rest ih =>
    intro s
    rw [List.foldl_cons]
    cases hk : l.kept
    · obtain ⟨e1, e2, e3, e4⟩ := link_destroy_effect l s
      obtain ⟨i1, i2, i3, i4⟩ := ih (wp_endpoint_link_destroy l s)
      simp only [Bool.not_false, if_true]
      refine ⟨i1.trans e1, i2.trans e2, i3.trans e3, ?_⟩
      rw [i4, e4]
      simp [List.filter_cons, hk]
    · obtain ⟨i1, i2, i3, i4⟩ := ih s
      simp only [Bool.not_true, Bool.false_eq_true, if_false]
      refine ⟨i1, i2, i3, ?_⟩
      rw [i4]
      simp [List.filter_cons, hk]

theorem unlink_target_links_effect (c : Bool) (target : WpEndpoint) (s : WpConfigPolicy) :
    (unlink_target_links c target s).pending_target = s.pending_target ∧
    (unlink_target_links c target s).link_requests = s.link_requests ∧
    requests_in (unlink_target_links c target s).trace = requests_in s.trace ∧
    destroyed_in (unlink_target_links c target s).trace =
      destroyed_in s.trace ++
        (if c then [] else (wp_endpoint_get_links s target).filter (fun l => !l.kept)) := by
  unfold unlink_target_links
  cases c with
  | true => simp
  | false =>
    simp only [Bool.not_false, Bool.true_and, Bool.false_eq_true, if_false]
    split_ifs with h
    · exact destroy_unkept_effect _ s
    · have e : wp_endpoint_get_links s target = [] := by
        unfold wp_endpoint_is_linked at h
        simpa using h
      simp [e]

theorem link_client_with_target_effect (c : Bool) (ep : WpEndpoint) (es : Nat)
    (target : WpEndpoint) (ts : Nat) (data : WpParserEndpointLinkData) (s : WpConfigPolicy) :
    (link_client_with_target c ep es target ts data s).pending_target = s.pending_target ∧
    (link_client_with_target c ep es target ts data s).link_requests =
      s.link_requests ++
        [if c then ⟨target, ts, ep, es, data.el.keep⟩ else ⟨ep, es, target, ts, data.el.keep⟩] ∧
    requests_in (link_client_with_target c ep es target ts data s).trace =
      requests_in s.trace ++
        [if c then ⟨target, ts, ep, es, data.el.keep⟩ else ⟨ep, es, target, ts, data.el.keep⟩] ∧
    destroyed_in (link_client_with_target c ep es target ts data s).trace =
      destroyed_in s.trace := by
  unfold link_client_with_target
  cases c <;>
    simp [wp_endpoint_link_new, record, requests_in_append, destroyed_in_append, requests_in,
      destroyed_in]

/-- The first link already leads to the target: nothing happens. -/
theorem link_endpoint_already_linked (ep : WpEndpoint) (es : Nat) (target : WpEndpoint)
    (ts : Nat) (data : WpParserEndpointLinkData) (s : WpConfigPolicy)
    (h : already_linked_to s ep target) :
    wp_config_policy_link_endpoint_with_target ep es target ts data s = (false, s) := by
  unfold already_linked_to at h
  unfold wp_config_policy_link_endpoint_with_target check_existing_link
  cases hl : wp_endpoint_get_links s ep with
  | nil => rw [hl] at h; exact absurd h id
  | cons l rest =>
  rw [hl] at h
  have ht : (if ep.direction = pw_direction.PW_DIRECTION_INPUT then l.source_endpoint
      else l.sink_endpoint) = target := h
  by_cases hd : ep.direction = pw_direction.PW_DIRECTION_INPUT
  · simp only [hd, if_true] at ht
    simp [hd, ht]
  · simp only [hd, if_false] at ht
    simp [hd, ht]

/-- The state after the check of the first link, when that link does not lead
to the target: the state itself, or the state with that link destroyed. -/
theorem check_existing_link_other (ep target : WpEndpoint) (s : WpConfigPolicy)
    (h : ¬ already_linked_to s ep target) :
    ∃ s1, check_existing_link (decide (ep.direction = pw_direction.PW_DIRECTION_INPUT))
        ep target s = some s1 ∧
      s1.pending_target = s.pending_target ∧ s1.link_requests = s.link_requests ∧
      requests_in s1.trace = requests_in s.trace ∧
      (s1 = s ∨ ∃ l rest, wp_endpoint_get_links s ep = l :: rest ∧
        s1 = wp_endpoint_link_destroy l s) := by
  unfold check_existing_link
  cases hl : wp_endpoint_get_links s ep with
  | nil => exact ⟨s, rfl, rfl, rfl, rfl, Or.inl rfl⟩
  | cons l rest =>
    have hne : (if ep.direction = pw_direction.PW_DIRECTION_INPUT then l.source_endpoint
        else l.sink_endpoint) ≠ target := by
      intro e
      apply h
      unfold already_linked_to
      rw [hl]
      exact e
    obtain ⟨e1, e2, e3, _⟩ := link_destroy_effect l s
    refine ⟨wp_endpoint_link_destroy l s, ?_, e1, e2, e3, Or.inr ⟨l, rest, rfl, rfl⟩⟩
    by_cases hd : ep.direction = pw_direction.PW_DIRECTION_INPUT
    · simp only [hd, if_true] at hne
      simp [hd, hne]
    · simp only [hd, if_false] at hne
      simp [hd, hne]

/-- The function, once the check of the first link has let it through. -/
theorem link_endpoint_after_check (ep : WpEndpoint) (es : Nat) (target : WpEndpoint)
    (ts : Nat) (data : WpParserEndpointLinkData) (s s1 : WpConfigPolicy)
    (h : check_existing_link (decide (ep.direction = pw_direction.PW_DIRECTION_INPUT))
      ep target s = some s1) :
    wp_config_policy_link_endpoint_with_target ep es target ts data s =
      if s1.pending_target = some target then (false, s1)
      else
        (true,
          link_client_with_target (decide (ep.direction = pw_direction.PW_DIRECTION_INPUT))
            ep es target ts data
            (unlink_target_links (decide (ep.direction = pw_direction.PW_DIRECTION_INPUT))
              target { s1 with pending_target := some target })) := by
  unfold wp_config_policy_link_endpoint_with_target
  simp only [h]

/-! ## Claims on the config policy -/

/-- C13 (the code departs from the claim): devices B and D are known, client A
is added and, before its barrier completes, client C.  In the scan A, the
trigger, starts a link attempt, and so does C after it; the flag `handled` is
overwritten by C, so the scan emits done(A, no link) and clears the trigger
although the link attempt of A is in flight. -/
theorem C13_later_endpoint_resets_handled :
    (wp_config_policy_handle_endpoint policy_env0 ep_A
      (policy_run policy_env0 [PolicyOp.endpoint_added ep_A, PolicyOp.endpoint_added ep_C]
        (wp_config_policy_init true [ep_B, ep_D] []))).1 = true ∧
    (policy_run policy_env0
      [PolicyOp.endpoint_added ep_A, PolicyOp.endpoint_added ep_C, PolicyOp.sync_done]
      (wp_config_policy_init true [ep_B, ep_D] [])).trace =
      [PolicyEvent.core_sync,
       PolicyEvent.link_new ⟨ep_A, 4294967295, ep_B, 4294967295, false⟩,
       PolicyEvent.link_new ⟨ep_C, 4294967295, ep_D, 4294967295, false⟩,
       PolicyEvent.done (some ep_A) none] ∧
    (policy_run policy_env0
      [PolicyOp.endpoint_added ep_A, PolicyOp.endpoint_added ep_C, PolicyOp.sync_done]
      (wp_config_policy_init true [ep_B, ep_D] [])).pending_endpoint = none := by
  decide

/-- C14 (the code departs from the claim): with B claimed as pending target by
the link attempt of A, a link-create completion that carries an error leaves
pending_target set to B. -/
theorem C14_failed_link_keeps_pending_target :
    (policy_run policy_env0 [PolicyOp.endpoint_added ep_A, PolicyOp.sync_done]
      (wp_config_policy_init true [ep_B] [])).pending_target = some ep_B ∧
    (on_endpoint_link_created ⟨none, some "refused"⟩
      (policy_run policy_env0 [PolicyOp.endpoint_added ep_A, PolicyOp.sync_done]
        (wp_config_policy_init true [ep_B] []))).pending_target = some ep_B := by
  decide

/-- C15 (the code departs from the claim): the link-create request issued for
the trigger A fails; the callback logs a warning, emits no done notification
and leaves A as the trigger. -/
theorem C15_failed_link_emits_no_done :
    (policy_run policy_env0
      [PolicyOp.endpoint_added ep_A, PolicyOp.sync_done,
       PolicyOp.link_done 0 ⟨none, some "refused"⟩]
      (wp_config_policy_init true [ep_B] [])).trace =
      [PolicyEvent.core_sync,
       PolicyEvent.link_new ⟨ep_A, 4294967295, ep_B, 4294967295, false⟩,
       PolicyEvent.warning "Could not link endpoints: refused\n"] ∧
    (policy_run policy_env0
      [PolicyOp.endpoint_added ep_A, PolicyOp.sync_done,
       PolicyOp.link_done 0 ⟨none, some "refused"⟩]
      (wp_config_policy_init true [ep_B] [])).pending_endpoint = some ep_A := by
  decide

/-- The scan of the run in which A and then C are added before the barrier
completes: A and C start a link attempt, in this order, so the last attempt
is not the one of the trigger A. -/
theorem scan_attempts_two_clients :
    (scan_attempts policy_env0 [ep_B, ep_D, ep_A, ep_C]
      (policy_run policy_env0 [PolicyOp.endpoint_added ep_A, PolicyOp.endpoint_added ep_C]
        (wp_config_policy_init true [ep_B, ep_D] []))).1 = [ep_A, ep_C] := by
  decide

/-- C17 (amended): a call of wp_config_policy_link_endpoint_with_target(ep,
target) made while pending_target already is target, ep not being linked to
target already, returns FALSE, requests no link-create and leaves
pending_target as it is.  Hence, when an attempt for a target that is not yet
pending goes through and the next attempt is for the same target, the first
requests one link-create, oriented by the direction of its endpoint, and the
second is abandoned: of the two, exactly one link-create is requested. -/
theorem C17_claimed_target_abandons (ep : WpEndpoint) (es : Nat) (target : WpEndpoint)
    (ts : Nat) (data : WpParserEndpointLinkData) (s : WpConfigPolicy) :
    (s.pending_target = some target → ¬ already_linked_to s ep target →
      (wp_config_policy_link_endpoint_with_target ep es target ts data s).1 = false ∧
      (wp_config_policy_link_endpoint_with_target ep es target ts data s).2.pending_target =
        some target ∧
      (wp_config_policy_link_endpoint_with_target ep es target ts data s).2.link_requests =
        s.link_requests ∧
      requests_in (wp_config_policy_link_endpoint_with_target ep es target ts data s).2.trace =
        requests_in s.trace) ∧
    (∀ (ep2 : WpEndpoint) (es2 ts2 : Nat) (data2 : WpParserEndpointLinkData),
      s.pending_target ≠ some target → ¬ already_linked_to s ep target →
      ¬ already_linked_to
        (wp_config_policy_link_endpoint_with_target ep es target ts data s).2 ep2 target →
      (wp_config_policy_link_endpoint_with_target ep es target ts data s).1 = true ∧
      (wp_config_policy_link_endpoint_with_target ep2 es2 target ts2 data2
        (wp_config_policy_link_endpoint_with_target ep es target ts data s).2).1 = false ∧
      requests_in (wp_config_policy_link_endpoint_with_target ep2 es2 target ts2 data2
        (wp_config_policy_link_endpoint_with_target ep es target ts data s).2).2.trace =
        requests_in s.trace ++
          [if ep.direction = pw_direction.PW_DIRECTION_INPUT then
            ⟨target, ts, ep, es, data.el.keep⟩
           else ⟨ep, es, target, ts, data.el.keep⟩]) := by
  have part1 : ∀ (e : WpEndpoint) (a b : Nat) (d : WpParserEndpointLinkData)
      (t : WpConfigPolicy), t.pending_target = some target → ¬ already_linked_to t e target →
      (wp_config_policy_link_endpoint_with_target e a target b d t).1 = false ∧
      (wp_config_policy_link_endpoint_with_target e a target b d t).2.pending_target =
        some target ∧
      (wp_config_policy_link_endpoint_with_target e a target b d t).2.link_requests =
        t.link_requests ∧
      requests_in (wp_config_policy_link_endpoint_with_target e a target b d t).2.trace =
        requests_in t.trace := by
    intro e a b d t hp hn
    obtain ⟨t1, hc, k1, k2, k3, _⟩ := check_existing_link_other e target t hn
    rw [link_endpoint_after_check e a target b d t t1 hc, if_pos (k1.trans hp)]
    exact ⟨rfl, k1.trans hp, k2, k3⟩
  refine ⟨part1 ep es ts data s, ?_⟩
  intro ep2 es2 ts2 data2 hp hn hn2
  obtain ⟨s1, hc, k1, k2, k3, _⟩ := check_existing_link_other ep target s hn
  have hp1 : ¬ s1.pending_target = some target := by rw [k1]; exact hp
  have e := link_endpoint_after_check ep es target ts data s s1 hc
  rw [if_neg hp1] at e
  obtain ⟨u1, u2, u3, _⟩ := unlink_target_links_effect
    (decide (ep.direction = pw_direction.PW_DIRECTION_INPUT)) target
    { s1 with pending_target := some target }
  obtain ⟨c1, c2, c3, _⟩ := link_client_with_target_effect
    (decide (ep.direction = pw_direction.PW_DIRECTION_INPUT)) ep es target ts data
    (unlink_target_links (decide (ep.direction = pw_direction.PW_DIRECTION_INPUT)) target
      { s1 with pending_target := some target })
  rw [e] at hn2 ⊢
  have hpt : (link_client_with_target (decide (ep.direction = pw_direction.PW_DIRECTION_INPUT))
      ep es target ts data
      (unlink_target_links (decide (ep.direction = pw_direction.PW_DIRECTION_INPUT)) target
        { s1 with pending_target := some target })).pending_target = some target := by
    rw [c1, u1]
  obtain ⟨q1, _, _, q4⟩ := part1 ep2 es2 ts2 data2 _ hpt hn2
  refine ⟨rfl, q1, ?_⟩
  rw [q4, c3, u3]
  show requests_in s1.trace ++ _ = _
  rw [k3]
  by_cases hd : ep.direction = pw_direction.PW_DIRECTION_INPUT <;> simp [hd]

/-- C17, at a concrete run: A and E both resolve to B; the attempt of A
requests the link-create and the attempt of E, next, is abandoned. -/
theorem C17_claimed_target_abandons_witness :
    (wp_config_policy_link_endpoint_with_target ep_E 4294967295 ep_B 4294967295 (rule_to "B")
      (wp_config_policy_link_endpoint_with_target ep_A 4294967295 ep_B 4294967295
        (rule_to "B") (wp_config_policy_init true [ep_B, ep_A, ep_E] [])).2).1 = false ∧
    requests_in
      (wp_config_policy_link_endpoint_with_target ep_E 4294967295 ep_B 4294967295
        (rule_to "B")
        (wp_config_policy_link_endpoint_with_target ep_A 4294967295 ep_B 4294967295
          (rule_to "B") (wp_config_policy_init true [ep_B, ep_A, ep_E] [])).2).2.trace =
      [⟨ep_A, 4294967295, ep_B, 4294967295, false⟩] :=
  ⟨((C17_claimed_target_abandons ep_A 4294967295 ep_B 4294967295 (rule_to "B")
      (wp_config_policy_init true [ep_B, ep_A, ep_E] [])).2 ep_E 4294967295 4294967295
      (rule_to "B") (by decide) (by decide) (by decide)).2.1,
   by decide⟩

/-- C17 as stated fails in two ways.  In a scan that handles A (target B), C
(target D) and E (target B) in this order, two link-creates naming B are
requested; and in a scan made while B is still the pending target of an
earlier attempt, A and E both resolve to B and none is requested. -/
theorem C17_counterexample :
    requests_in (policy_run policy_env0
      [PolicyOp.endpoint_added ep_B, PolicyOp.endpoint_added ep_D,
       PolicyOp.endpoint_added ep_A, PolicyOp.endpoint_added ep_C,
       PolicyOp.endpoint_added ep_E, PolicyOp.sync_done]
      (wp_config_policy_init true [] [])).trace =
      [⟨ep_A, 4294967295, ep_B, 4294967295, false⟩,
       ⟨ep_C, 4294967295, ep_D, 4294967295, false⟩,
       ⟨ep_E, 4294967295, ep_B, 4294967295, false⟩] ∧
    requests_in
      (wp_config_policy_sync_rescan policy_env0
        { wp_config_policy_init true [ep_B, ep_A, ep_E] [] with
          pending_target := some ep_B }).trace = [] := by
  decide

/-- C18 (the code departs from the claim): the devices B and D are added, then
the clients A, C and E while the rescan of B is pending; the scan handles A
(target B), C (target D) and E (target B) in this order.  The attempt of C
replaces B by D as pending target, so the attempt of E is not abandoned, and
two link-create requests naming B are outstanding. -/
theorem C18_two_requests_for_one_target :
    requests_naming ep_B (policy_run policy_env0
      [PolicyOp.endpoint_added ep_B, PolicyOp.endpoint_added ep_D,
       PolicyOp.endpoint_added ep_A, PolicyOp.endpoint_added ep_C,
       PolicyOp.endpoint_added ep_E, PolicyOp.sync_done]
      (wp_config_policy_init true [] [])) =
      [⟨ep_A, 4294967295, ep_B, 4294967295, false⟩,
       ⟨ep_E, 4294967295, ep_B, 4294967295, false⟩] := by
  decide

/-! ## Scans in which nothing is to be done -/

theorem handle_endpoint_settled (env : PolicyEnv) (s : WpConfigPolicy) (ep : WpEndpoint)
    (h : settled_endpoint env s ep) :
    wp_config_policy_handle_endpoint env ep s = (false, s) := by
  unfold wp_config_policy_handle_endpoint
  rcases h with h | ⟨data, h1, h2⟩ | ⟨data, target, stream_id, h1, h2, h3⟩
  · simp only [h]
  · simp only [h1, h2]
  · simp only [h1, h2]
    split_ifs
    · rfl
    · exact link_endpoint_already_linked ep _ target _ data s h3

theorem rescan_loop_settled (env : PolicyEnv) (s : WpConfigPolicy)
    (endpoints : List WpEndpoint) :
    ∀ handled : Bool, (∀ e ∈ endpoints, settled_endpoint env s e) →
      rescan_loop env endpoints handled s = (handled, s) := by
  induction endpoints with
  | nil => intro handled _; rfl
  | cons e rest ih =>
    intro handled h
    have he := handle_endpoint_settled env s e (h e (List.mem_cons_self e rest))
    have hrest := ih handled (fun x hx => h x (List.mem_cons_of_mem e hx))
    unfold rescan_loop at hrest ⊢
    rw [List.foldl_cons]
    simp only [he]
    exact hrest

/-- C19: when the first link of the endpoint already connects it to the
resolved target (that link's source endpoint for an input-direction endpoint,
its sink endpoint otherwise), wp_config_policy_link_endpoint_with_target
returns FALSE and leaves the whole state as it was: no link is destroyed, no
link-create is requested, pending_target and pending_endpoint are unchanged.
Consequently a scan in which every listed endpoint matches no rule, resolves to
no target or is already linked to its resolved target changes no link,
requests nothing, and ends with done(trigger, no link), the trigger and the
rescan flag being cleared. -/
theorem C19_already_linked_is_noop (env : PolicyEnv) (ep : WpEndpoint) (es : Nat)
    (target : WpEndpoint) (ts : Nat) (data : WpParserEndpointLinkData) (s : WpConfigPolicy) :
    (already_linked_to s ep target →
      wp_config_policy_link_endpoint_with_target ep es target ts data s = (false, s)) ∧
    (∀ endpoints : List WpEndpoint,
      env.wp_policy_manager_list_endpoints s.endpoints none = some endpoints →
      (∀ e ∈ endpoints, settled_endpoint env s e) →
      wp_config_policy_sync_rescan env s =
        { s with
          pending_rescan := false
          pending_endpoint := none
          trace := s.trace ++ [PolicyEvent.done s.pending_endpoint none] }) := by
  refine ⟨link_endpoint_already_linked ep es target ts data s, ?_⟩
  intro endpoints hl hs
  unfold wp_config_policy_sync_rescan
  simp only [hl, rescan_loop_settled env s endpoints false hs]
  simp [record]

/-- C19, scenario B: A is linked to B; the unrelated endpoint D, which matches
no rule, is added.  Its rescan leaves the link of A to B in place and ends
with done(D, no link). -/
theorem C19_already_linked_is_noop_witness :
    wp_config_policy_sync_rescan policy_env0
      (policy_run policy_env0 [PolicyOp.endpoint_added ep_D]
        (wp_config_policy_init true [ep_A, ep_B] [link_AB])) =
      { policy_run policy_env0 [PolicyOp.endpoint_added ep_D]
          (wp_config_policy_init true [ep_A, ep_B] [link_AB]) with
        pending_rescan := false
        pending_endpoint := none
        trace := [PolicyEvent.core_sync, PolicyEvent.done (some ep_D) none] } :=
  (C19_already_linked_is_noop policy_env0 ep_A 0 ep_B 0 (rule_to "B")
    (policy_run policy_env0 [PolicyOp.endpoint_added ep_D]
      (wp_config_policy_init true [ep_A, ep_B] [link_AB]))).2 [ep_A, ep_B, ep_D] rfl
    (by
      intro e he
      simp only [List.mem_cons, List.mem_singleton, List.not_mem_nil, or_false] at he
      rcases he with rfl | rfl | rfl
      · exact Or.inr (Or.inr ⟨rule_to "B", ep_B, 4294967295, by decide, by decide, by decide⟩)
      · exact Or.inl (by decide)
      · exact Or.inl (by decide))

/-! ## A higher-priority stream takes the target -/

theorem get_links_after_destroy (l : WpEndpointLink) (s : WpConfigPolicy) (t : WpEndpoint) :
    wp_endpoint_get_links (wp_endpoint_link_destroy l s) t =
      (wp_endpoint_get_links s t).filter (fun k => decide (k ≠ l)) := by
  unfold wp_endpoint_get_links wp_endpoint_link_destroy record
  simp only [List.filter_filter]
  congr 1
  funext k
  exact Bool.and_comm _ _

theorem can_link_stream_not_higher (env : PolicyEnv) (s : WpConfigPolicy) (t : WpEndpoint)
    (data : WpParserEndpointLinkData) (grouping mine linked_name : String)
    (lx : WpEndpointLink) (rest : List WpEndpointLink) (px py : Nat)
    (hstreams : data.te.streams = some grouping) (hstream : data.te.stream = some mine)
    (hlinked : wp_endpoint_get_links s t = lx :: rest)
    (hname : env.wp_endpoint_get_stream t
      (if t.direction = pw_direction.PW_DIRECTION_INPUT then lx.sink_stream
       else lx.source_stream) = some (some linked_name))
    (hX : env.wp_parser_streams_find_stream (env.streams_matched_data grouping)
      (some linked_name) = some ⟨px⟩)
    (hY : env.wp_parser_streams_find_stream (env.streams_matched_data grouping)
      (some mine) = some ⟨py⟩)
    (hle : px ≤ py) :
    wp_config_policy_can_link_stream env s t data = true := by
  unfold wp_config_policy_can_link_stream
  simp only [hstreams, hlinked, hstream]
  have hnot : ¬ py < px := Nat.not_lt.mpr hle
  by_cases hd : t.direction = pw_direction.PW_DIRECTION_INPUT
  · simp only [hd, if_true] at hname
    simp [hd, hname, hX, hY, hnot]
  · simp only [hd, if_false] at hname
    simp [hd, hname, hX, hY, hnot]

/-- C20 (amended): target T is linked, its first link being on a stream named
X, and the rule of the candidate names a stream grouping in which X has a
priority not above that of the requested stream Y (3 and 7 in scenario C).
If T is not already the pending target and the candidate is not already linked
to T, wp_config_policy_handle_endpoint returns TRUE, records T as
pending_target and requests exactly one link-create, between the candidate and
T and oriented by the direction of the candidate.  When the candidate is not
an input-direction endpoint and the link of T to X is not kept, that link is
destroyed. -/
theorem C20_higher_priority_stream_wins (env : PolicyEnv) (s : WpConfigPolicy)
    (ep T : WpEndpoint) (data : WpParserEndpointLinkData) (stream_id : Nat)
    (grouping X Y : String) (lx : WpEndpointLink) (rest : List WpEndpointLink) (px py : Nat)
    (hrule : env.endpoint_link_matched_data ep = some data)
    (hstreams : data.te.streams = some grouping) (hstream : data.te.stream = some Y)
    (htarget : wp_policy_find_endpoint env s ⟨some data, ep.role⟩ = some (T, stream_id))
    (hlinked : wp_endpoint_get_links s T = lx :: rest)
    (hname : env.wp_endpoint_get_stream T
      (if T.direction = pw_direction.PW_DIRECTION_INPUT then lx.sink_stream
       else lx.source_stream) = some (some X))
    (hX : env.wp_parser_streams_find_stream (env.streams_matched_data grouping) (some X) =
      some ⟨px⟩)
    (hY : env.wp_parser_streams_find_stream (env.streams_matched_data grouping) (some Y) =
      some ⟨py⟩)
    (hle : px ≤ py)
    (hpending : s.pending_target ≠ some T)
    (hnew : ¬ already_linked_to s ep T) :
    (wp_config_policy_handle_endpoint env ep s).1 = true ∧
    (wp_config_policy_handle_endpoint env ep s).2.pending_target = some T ∧
    requests_in (wp_config_policy_handle_endpoint env ep s).2.trace =
      requests_in s.trace ++
        [if ep.direction = pw_direction.PW_DIRECTION_INPUT then
          ⟨T, stream_id, ep, env.WP_STREAM_ID_NONE, data.el.keep⟩
         else ⟨ep, env.WP_STREAM_ID_NONE, T, stream_id, data.el.keep⟩] ∧
    (ep.direction ≠ pw_direction.PW_DIRECTION_INPUT → lx.kept = false →
      lx ∈ destroyed_in (wp_config_policy_handle_endpoint env ep s).2.trace) := by
  have hcan := can_link_stream_not_higher env s T data grouping Y X lx rest px py
    hstreams hstream hlinked hname hX hY hle
  have e0 : wp_config_policy_handle_endpoint env ep s =
      wp_config_policy_link_endpoint_with_target ep env.WP_STREAM_ID_NONE T stream_id data s := by
    unfold wp_config_policy_handle_endpoint
    simp only [hrule, htarget, hcan]
    rfl
  obtain ⟨s1, hc, k1, k2, k3, k4⟩ := check_existing_link_other ep T s hnew
  have hp1 : ¬ s1.pending_target = some T := by rw [k1]; exact hpending
  have e := link_endpoint_after_check ep env.WP_STREAM_ID_NONE T stream_id data s s1 hc
  rw [if_neg hp1] at e
  obtain ⟨u1, _, u3, u4⟩ := unlink_target_links_effect
    (decide (ep.direction = pw_direction.PW_DIRECTION_INPUT)) T
    { s1 with pending_target := some T }
  obtain ⟨c1, _, c3, c4⟩ := link_client_with_target_effect
    (decide (ep.direction = pw_direction.PW_DIRECTION_INPUT)) ep env.WP_STREAM_ID_NONE T
    stream_id data
    (unlink_target_links (decide (ep.direction = pw_direction.PW_DIRECTION_INPUT)) T
      { s1 with pending_target := some T })
  rw [e0, e]
  refine ⟨rfl, ?_, ?_, ?_⟩
  · show (link_client_with_target _ _ _ _ _ _ _).pending_target = _
    rw [c1, u1]
  · show requests_in (link_client_with_target _ _ _ _ _ _ _).trace = _
    rw [c3, u3]
    show requests_in s1.trace ++ _ = _
    rw [k3]
    by_cases hd : ep.direction = pw_direction.PW_DIRECTION_INPUT <;> simp [hd]
  · intro hd hk
    show lx ∈ destroyed_in (link_client_with_target _ _ _ _ _ _ _).trace
    rw [c4, u4]
    have hdec : decide (ep.direction = pw_direction.PW_DIRECTION_INPUT) = false := by
      simp [hd]
    rw [hdec]
    simp only [Bool.false_eq_true, if_false, List.mem_append]
    have hgl : wp_endpoint_get_links { s1 with pending_target := some T } T =
        wp_endpoint_get_links s1 T := rfl
    have htr : ({ s1 with pending_target := some T } : WpConfigPolicy).trace = s1.trace := rfl
    rw [hgl, htr]
    rcases k4 with rfl | ⟨l, r, _, rfl⟩
    · right
      rw [hlinked]
      simp [hk]
    · by_cases hl : lx = l
      · left
        rw [(link_destroy_effect l s).2.2.2]
        simp [hl]
      · right
        rw [get_links_after_destroy, hlinked]
        simp [hk, hl]

/-- C20, scenario C with a playback candidate: T is linked to X on stream "X"
(priority 3), the candidate Y asks for stream "Y" (priority 7); the link of X
is destroyed and one link-create from Y to stream 2 of T is requested, T being
the pending target. -/
theorem C20_higher_priority_stream_wins_witness :
    (wp_config_policy_handle_endpoint policy_env1 ep_Y
      (wp_config_policy_init true [ep_T, ep_X, ep_Y] [link_XT])).1 = true ∧
    (wp_config_policy_handle_endpoint policy_env1 ep_Y
      (wp_config_policy_init true [ep_T, ep_X, ep_Y] [link_XT])).2.pending_target =
        some ep_T ∧
    requests_in (wp_config_policy_handle_endpoint policy_env1 ep_Y
      (wp_config_policy_init true [ep_T, ep_X, ep_Y] [link_XT])).2.trace =
      requests_in (wp_config_policy_init true [ep_T, ep_X, ep_Y] [link_XT]).trace ++
        [if ep_Y.direction = pw_direction.PW_DIRECTION_INPUT then
          ⟨ep_T, 2, ep_Y, policy_env1.WP_STREAM_ID_NONE, (rule_stream_Y "Sink").el.keep⟩
         else ⟨ep_Y, policy_env1.WP_STREAM_ID_NONE, ep_T, 2, (rule_stream_Y "Sink").el.keep⟩] ∧
    (ep_Y.direction ≠ pw_direction.PW_DIRECTION_INPUT → link_XT.kept = false →
      link_XT ∈ destroyed_in (wp_config_policy_handle_endpoint policy_env1 ep_Y
        (wp_config_policy_init true [ep_T, ep_X, ep_Y] [link_XT])).2.trace) :=
  C20_higher_priority_stream_wins policy_env1
    (wp_config_policy_init true [ep_T, ep_X, ep_Y] [link_XT]) ep_Y ep_T
    (rule_stream_Y "Sink") 2 "grouping" "X" "Y" link_XT [] 3 7
    (by decide) (by decide) (by decide) (by decide) (by decide) (by decide) (by decide)
    (by decide) (by decide) (by decide) (by decide)

/-- C20 as stated fails for a capture candidate and for a kept link, each
time with priorities 3 and 7.  The capture candidate Yc takes stream "Y" of
the source S, and the link of S to Xc on stream "X" is not destroyed; the
playback candidate Y takes stream "Y" of T, and the kept link of X to T is not
destroyed. -/
theorem C20_counterexample :
    (wp_config_policy_handle_endpoint policy_env1 ep_Yc
      (wp_config_policy_init true [ep_S, ep_Xc, ep_Yc] [link_SXc])).1 = true ∧
    (wp_config_policy_handle_endpoint policy_env1 ep_Yc
      (wp_config_policy_init true [ep_S, ep_Xc, ep_Yc] [link_SXc])).2.trace =
      [PolicyEvent.link_new ⟨ep_S, 2, ep_Yc, 4294967295, false⟩] ∧
    (wp_config_policy_handle_endpoint policy_env1 ep_Yc
      (wp_config_policy_init true [ep_S, ep_Xc, ep_Yc] [link_SXc])).2.links = [link_SXc] ∧
    (wp_config_policy_handle_endpoint policy_env1 ep_Y
      (wp_config_policy_init true [ep_T, ep_X, ep_Y] [link_XT_kept])).1 = true ∧
    (wp_config_policy_handle_endpoint policy_env1 ep_Y
      (wp_config_policy_init true [ep_T, ep_X, ep_Y] [link_XT_kept])).2.trace =
      [PolicyEvent.link_new ⟨ep_Y, 4294967295, ep_T, 2, false⟩] ∧
    (wp_config_policy_handle_endpoint policy_env1 ep_Y
      (wp_config_policy_init true [ep_T, ep_X, ep_Y] [link_XT_kept])).2.links =
      [link_XT_kept] := by
  decide

/-! ## Scenario A -/

/-- C21 (amended): scenario A, for endpoints A and B of either direction and
the one rule linking A to B.  When B is added first and A last, each addition
followed by its barrier completion, the scan for A requests the link-create
and, once it has succeeded, the done notification for the trigger A carries
the link between A and B.  When A is added first and B last, the scan for B
requests the link-create for A and emits done(B, no link) at once, and the
completion of the link-create emits no further done. -/
theorem C21_scenario_A (da db : pw_direction) :
    (policy_run scenario_env
      [PolicyOp.endpoint_added (scenario_B db), PolicyOp.sync_done,
       PolicyOp.endpoint_added (scenario_A da), PolicyOp.sync_done,
       PolicyOp.link_done 0 ⟨some (link_of_request 10 (scenario_request da db)), none⟩]
      (wp_config_policy_init true [] [])).trace =
      [PolicyEvent.core_sync, PolicyEvent.done (some (scenario_B db)) none,
       PolicyEvent.core_sync, PolicyEvent.link_new (scenario_request da db),
       PolicyEvent.done (some (scenario_A da))
         (some (link_of_request 10 (scenario_request da db)))] ∧
    (policy_run scenario_env
      [PolicyOp.endpoint_added (scenario_A da), PolicyOp.sync_done,
       PolicyOp.endpoint_added (scenario_B db), PolicyOp.sync_done]
      (wp_config_policy_init true [] [])).trace =
      [PolicyEvent.core_sync, PolicyEvent.done (some (scenario_A da)) none,
       PolicyEvent.core_sync, PolicyEvent.link_new (scenario_request da db),
       PolicyEvent.done (some (scenario_B db)) none] ∧
    (policy_run scenario_env
      [PolicyOp.endpoint_added (scenario_A da), PolicyOp.sync_done,
       PolicyOp.endpoint_added (scenario_B db), PolicyOp.sync_done,
       PolicyOp.link_done 0 ⟨some (link_of_request 10 (scenario_request da db)), none⟩]
      (wp_config_policy_init true [] [])).trace =
      [PolicyEvent.core_sync, PolicyEvent.done (some (scenario_A da)) none,
       PolicyEvent.core_sync, PolicyEvent.link_new (scenario_request da db),
       PolicyEvent.done (some (scenario_B db)) none] := by
  cases da <;> cases db <;> decide

/-- C21 as stated fails when A is added first and B last (A a playback
client, B a sink): the done notification for the last-added endpoint B carries
no link, and after the link-create has succeeded no done notification
carries the link. -/
theorem C21_counterexample :
    (policy_run scenario_env
      [PolicyOp.endpoint_added (scenario_A pw_direction.PW_DIRECTION_OUTPUT),
       PolicyOp.sync_done,
       PolicyOp.endpoint_added (scenario_B pw_direction.PW_DIRECTION_INPUT),
       PolicyOp.sync_done,
       PolicyOp.link_done 0
         ⟨some (link_of_request 10
           ⟨scenario_A pw_direction.PW_DIRECTION_OUTPUT, 4294967295,
            scenario_B pw_direction.PW_DIRECTION_INPUT, 4294967295, false⟩), none⟩]
      (wp_config_policy_init true [] [])).trace =
      [PolicyEvent.core_sync,
       PolicyEvent.done (some (scenario_A pw_direction.PW_DIRECTION_OUTPUT)) none,
       PolicyEvent.core_sync,
       PolicyEvent.link_new
         ⟨scenario_A pw_direction.PW_DIRECTION_OUTPUT, 4294967295,
          scenario_B pw_direction.PW_DIRECTION_INPUT, 4294967295, false⟩,
       PolicyEvent.done (some (scenario_B pw_direction.PW_DIRECTION_INPUT)) none] := by
  decide

/-! ## Stream priorities -/

theorem can_link_stream_higher (env : PolicyEnv) (s : WpConfigPolicy) (t : WpEndpoint)
    (data : WpParserEndpointLinkData) (grouping mine linked_name : String)
    (lx : WpEndpointLink) (rest : List WpEndpointLink) (px py : Nat)
    (hstreams : data.te.streams = some grouping) (hstream : data.te.stream = some mine)
    (hlinked : wp_endpoint_get_links s t = lx :: rest)
    (hdiff : (if t.direction = pw_direction.PW_DIRECTION_INPUT then lx.sink_stream
       else lx.source_stream) ≠ env.wp_endpoint_find_stream t mine)
    (hname : env.wp_endpoint_get_stream t
      (if t.direction = pw_direction.PW_DIRECTION_INPUT then lx.sink_stream
       else lx.source_stream) = some (some linked_name))
    (hX : env.wp_parser_streams_find_stream (env.streams_matched_data grouping)
      (some linked_name) = some ⟨px⟩)
    (hY : env.wp_parser_streams_find_stream (env.streams_matched_data grouping)
      (some mine) = some ⟨py⟩)
    (hgt : py < px) :
    wp_config_policy_can_link_stream env s t data = false := by
  unfold wp_config_policy_can_link_stream
  simp only [hstreams, hlinked, hstream]
  by_cases hd : t.direction = pw_direction.PW_DIRECTION_INPUT
  · simp only [hd, if_true] at hname hdiff
    simp [hd, hname, hX, hY, hgt, hdiff]
  · simp only [hd, if_false] at hname hdiff
    simp [hd, hname, hX, hY, hgt, hdiff]

theorem handle_endpoint_refused (env : PolicyEnv) (s : WpConfigPolicy) (ep target : WpEndpoint)
    (data : WpParserEndpointLinkData) (stream_id : Nat)
    (hrule : env.endpoint_link_matched_data ep = some data)
    (htarget : wp_policy_find_endpoint env s ⟨some data, ep.role⟩ = some (target, stream_id))
    (hcan : wp_config_policy_can_link_stream env s target data = false) :
    wp_config_policy_handle_endpoint env ep s = (false, s) := by
  unfold wp_config_policy_handle_endpoint
  simp only [hrule, htarget, hcan]
  rfl

/-- C23: the rule names a stream grouping, the target is linked, its first
link being on a stream other than the requested one, and both the linked
stream (by its name) and the requested stream have priority data in the
grouping.  If the priority of the linked stream is strictly greater,
wp_config_policy_can_link_stream returns FALSE, and
wp_config_policy_handle_endpoint for an endpoint with this rule and target
returns FALSE and leaves the state as it was (no link made or destroyed,
pending_target unchanged).  If the priority of the requested stream is
strictly greater, wp_config_policy_can_link_stream returns TRUE. -/
theorem C23_strict_priority (env : PolicyEnv) (s : WpConfigPolicy) (ep T : WpEndpoint)
    (data : WpParserEndpointLinkData) (stream_id : Nat) (grouping X Y : String)
    (lx : WpEndpointLink) (rest : List WpEndpointLink) (px py : Nat)
    (hstreams : data.te.streams = some grouping) (hstream : data.te.stream = some Y)
    (hlinked : wp_endpoint_get_links s T = lx :: rest)
    (hdiff : (if T.direction = pw_direction.PW_DIRECTION_INPUT then lx.sink_stream
       else lx.source_stream) ≠ env.wp_endpoint_find_stream T Y)
    (hname : env.wp_endpoint_get_stream T
      (if T.direction = pw_direction.PW_DIRECTION_INPUT then lx.sink_stream
       else lx.source_stream) = some (some X))
    (hX : env.wp_parser_streams_find_stream (env.streams_matched_data grouping) (some X) =
      some ⟨px⟩)
    (hY : env.wp_parser_streams_find_stream (env.streams_matched_data grouping) (some Y) =
      some ⟨py⟩) :
    (py < px →
      wp_config_policy_can_link_stream env s T data = false ∧
      (env.endpoint_link_matched_data ep = some data →
        wp_policy_find_endpoint env s ⟨some data, ep.role⟩ = some (T, stream_id) →
        wp_config_policy_handle_endpoint env ep s = (false, s))) ∧
    (px < py → wp_config_policy_can_link_stream env s T data = true) := by
  constructor
  · intro hgt
    have hcan := can_link_stream_higher env s T data grouping Y X lx rest px py
      hstreams hstream hlinked hdiff hname hX hY hgt
    exact ⟨hcan, fun hrule htarget =>
      handle_endpoint_refused env s ep T data stream_id hrule htarget hcan⟩
  · intro hlt
    exact can_link_stream_not_higher env s T data grouping Y X lx rest px py
      hstreams hstream hlinked hname hX hY (Nat.le_of_lt hlt)

/-- C23, at concrete inputs: T is linked on stream "Y" (priority 7) and X asks
for stream "X" (priority 3): refused, nothing changes.  T is linked on stream
"X" and Y asks for stream "Y": allowed. -/
theorem C23_strict_priority_witness :
    (wp_config_policy_can_link_stream policy_env2
        (wp_config_policy_init true [ep_T, ep_X, ep_Y] [link_YT]) ep_T
        (rule_stream "Sink" "X") = false ∧
      wp_config_policy_handle_endpoint policy_env2 ep_X
        (wp_config_policy_init true [ep_T, ep_X, ep_Y] [link_YT]) =
        (false, wp_config_policy_init true [ep_T, ep_X, ep_Y] [link_YT])) ∧
    wp_config_policy_can_link_stream policy_env2
      (wp_config_policy_init true [ep_T, ep_X, ep_Y] [link_XT]) ep_T
      (rule_stream "Sink" "Y") = true :=
  ⟨⟨((C23_strict_priority policy_env2
        (wp_config_policy_init true [ep_T, ep_X, ep_Y] [link_YT]) ep_X ep_T
        (rule_stream "Sink" "X") 1 "grouping" "Y" "X" link_YT [] 7 3
        (by decide) (by decide) (by decide) (by decide) (by decide) (by decide)
        (by decide)).1 (by decide)).1,
     ((C23_strict_priority policy_env2
        (wp_config_policy_init true [ep_T, ep_X, ep_Y] [link_YT]) ep_X ep_T
        (rule_stream "Sink" "X") 1 "grouping" "Y" "X" link_YT [] 7 3
        (by decide) (by decide) (by decide) (by decide) (by decide) (by decide)
        (by decide)).1 (by decide)).2 (by decide) (by decide)⟩,
   (C23_strict_priority policy_env2
      (wp_config_policy_init true [ep_T, ep_X, ep_Y] [link_XT]) ep_Y ep_T
      (rule_stream "Sink" "Y") 2 "grouping" "X" "Y" link_XT [] 3 7
      (by decide) (by decide) (by decide) (by decide) (by decide) (by decide)
      (by decide)).2 (by decide)⟩

/-- C24 (amended): the target is linked on stream X and the candidate requests
another stream Y of the same grouping, both with priority data.  If the
priority of Y is strictly lower than that of X, the candidate is abandoned:
wp_config_policy_can_link_stream returns FALSE and
wp_config_policy_handle_endpoint returns FALSE with the state, hence the
existing link, left as it was.  If the priorities are equal,
wp_config_policy_can_link_stream returns TRUE. -/
theorem C24_lower_priority_abandoned (env : PolicyEnv) (s : WpConfigPolicy)
    (ep T : WpEndpoint) (data : WpParserEndpointLinkData) (stream_id : Nat)
    (grouping X Y : String) (lx : WpEndpointLink) (rest : List WpEndpointLink) (px py : Nat)
    (hstreams : data.te.streams = some grouping) (hstream : data.te.stream = some Y)
    (hlinked : wp_endpoint_get_links s T = lx :: rest)
    (hdiff : (if T.direction = pw_direction.PW_DIRECTION_INPUT then lx.sink_stream
       else lx.source_stream) ≠ env.wp_endpoint_find_stream T Y)
    (hname : env.wp_endpoint_get_stream T
      (if T.direction = pw_direction.PW_DIRECTION_INPUT then lx.sink_stream
       else lx.source_stream) = some (some X))
    (hX : env.wp_parser_streams_find_stream (env.streams_matched_data grouping) (some X) =
      some ⟨px⟩)
    (hY : env.wp_parser_streams_find_stream (env.streams_matched_data grouping) (some Y) =
      some ⟨py⟩)
    (hrule : env.endpoint_link_matched_data ep = some data)
    (htarget : wp_policy_find_endpoint env s ⟨some data, ep.role⟩ = some (T, stream_id)) :
    (py < px →
      wp_config_policy_can_link_stream env s T data = false ∧
      wp_config_policy_handle_endpoint env ep s = (false, s)) ∧
    (py = px → wp_config_policy_can_link_stream env s T data = true) := by
  constructor
  · intro hgt
    have hcan := can_link_stream_higher env s T data grouping Y X lx rest px py
      hstreams hstream hlinked hdiff hname hX hY hgt
    exact ⟨hcan, handle_endpoint_refused env s ep T data stream_id hrule htarget hcan⟩
  · intro heq
    exact can_link_stream_not_higher env s T data grouping Y X lx rest px py
      hstreams hstream hlinked hname hX hY (Nat.le_of_eq heq.symm)

/-- C24, at concrete inputs: T is linked on stream "Y" (priority 7) and X asks
for stream "X" (priority 3); the candidate is abandoned and the link of Y
stays. -/
theorem C24_lower_priority_abandoned_witness :
    wp_config_policy_handle_endpoint policy_env2 ep_X
      (wp_config_policy_init true [ep_T, ep_X, ep_Y] [link_YT]) =
      (false, wp_config_policy_init true [ep_T, ep_X, ep_Y] [link_YT]) :=
  ((C24_lower_priority_abandoned policy_env2
      (wp_config_policy_init true [ep_T, ep_X, ep_Y] [link_YT]) ep_X ep_T
      (rule_stream "Sink" "X") 1 "grouping" "Y" "X" link_YT [] 7 3
      (by decide) (by decide) (by decide) (by decide) (by decide) (by decide)
      (by decide) (by decide) (by decide)).1 (by decide)).2

/-- C24 as stated fails for equal priorities: T is linked on stream "X"
(priority 3) and W asks for stream "W" (priority 3, another name and id);
wp_config_policy_can_link_stream returns TRUE, and handling W destroys the
link of X and requests the link of W to T. -/
theorem C24_counterexample :
    wp_config_policy_can_link_stream policy_env2
      (wp_config_policy_init true [ep_T, ep_X, ep_W] [link_XT]) ep_T
      (rule_stream "Sink" "W") = true ∧
    (wp_config_policy_handle_endpoint policy_env2 ep_W
      (wp_config_policy_init true [ep_T, ep_X, ep_W] [link_XT])).1 = true ∧
    (wp_config_policy_handle_endpoint policy_env2 ep_W
      (wp_config_policy_init true [ep_T, ep_X, ep_W] [link_XT])).2.trace =
      [PolicyEvent.link_destroy link_XT,
       PolicyEvent.link_new ⟨ep_W, 4294967295, ep_T, 3, false⟩] := by
  decide

/-! ## Target lookup and link requests -/

/-- C25: wp_config_policy_find_endpoint returns the first endpoint, in the
order of the list of the endpoints of the rule's media class, that satisfies
the match predicate of the rule: when no endpoint before the target satisfies
it and the target does, the target is returned; whatever is returned is in
the list and satisfies the predicate; and no endpoint is returned if and only
if the rule data is absent, the list is absent, or no listed endpoint
satisfies the predicate (in particular when the list is empty). -/
theorem C25_find_endpoint_first_match (env : PolicyEnv) (s : WpConfigPolicy)
    (props : TargetProps) :
    (∀ data pre target post, props.data = some data →
      env.wp_policy_manager_list_endpoints s.endpoints data.te.endpoint_data.media_class =
        some (pre ++ target :: post) →
      (∀ e ∈ pre, env.wp_parser_endpoint_link_matches_endpoint_data e
        data.te.endpoint_data = false) →
      env.wp_parser_endpoint_link_matches_endpoint_data target data.te.endpoint_data = true →
      ∃ stream_id, wp_config_policy_find_endpoint env s props = some (target, stream_id)) ∧
    (∀ target stream_id, wp_config_policy_find_endpoint env s props = some (target, stream_id) →
      ∃ data pre post, props.data = some data ∧
        env.wp_policy_manager_list_endpoints s.endpoints data.te.endpoint_data.media_class =
          some (pre ++ target :: post) ∧
        (∀ e ∈ pre, env.wp_parser_endpoint_link_matches_endpoint_data e
          data.te.endpoint_data = false) ∧
        env.wp_parser_endpoint_link_matches_endpoint_data target data.te.endpoint_data = true) ∧
    (wp_config_policy_find_endpoint env s props = none ↔
      props.data = none ∨
      ∃ data, props.data = some data ∧
        (env.wp_policy_manager_list_endpoints s.endpoints
            data.te.endpoint_data.media_class = none ∨
          ∃ endpoints,
            env.wp_policy_manager_list_endpoints s.endpoints
              data.te.endpoint_data.media_class = some endpoints ∧
            ∀ e ∈ endpoints, env.wp_parser_endpoint_link_matches_endpoint_data e
              data.te.endpoint_data = false)) := by
  refine ⟨?_, ?_, ?_⟩
  · intro data pre target post hdata hlist hpre htarget
    have hfind : (pre ++ target :: post).find? (fun t =>
        env.wp_parser_endpoint_link_matches_endpoint_data t data.te.endpoint_data) =
        some target := by
      rw [List.find?_append, List.find?_eq_none.mpr (fun e he => by simp [hpre e he])]
      simp [List.find?_cons, htarget]
    unfold wp_config_policy_find_endpoint
    simp only [hdata, hlist, hfind]
    exact ⟨_, rfl⟩
  · intro target stream_id h
    unfold wp_config_policy_find_endpoint at h
    cases hdata : props.data with
    | none => simp [hdata] at h
    | some data =>
      cases hlist : env.wp_policy_manager_list_endpoints s.endpoints
          data.te.endpoint_data.media_class with
      | none => simp [hdata, hlist] at h
      | some endpoints =>
        cases hfind : endpoints.find? (fun t =>
            env.wp_parser_endpoint_link_matches_endpoint_data t data.te.endpoint_data) with
        | none => simp [hdata, hlist, hfind] at h
        | some found =>
          simp only [hdata, hlist, hfind, Option.some.injEq, Prod.mk.injEq] at h
          obtain ⟨hfound, _⟩ := h
          subst hfound
          obtain ⟨hp, pre, post, hsplit, hbefore⟩ := List.find?_eq_some.mp hfind
          refine ⟨data, pre, post, rfl, ?_, ?_, ?_⟩
          · rw [hlist, hsplit]
          · intro e he
            simpa using hbefore e he
          · simpa using hp
  · unfold wp_config_policy_find_endpoint
    cases hdata : props.data with
    | none => simp
    | some data =>
      cases hlist : env.wp_policy_manager_list_endpoints s.endpoints
          data.te.endpoint_data.media_class with
      | none => simp [hlist]
      | some endpoints =>
        cases hfind : endpoints.find? (fun t =>
            env.wp_parser_endpoint_link_matches_endpoint_data t data.te.endpoint_data) with
        | none =>
          simp only [hlist, hfind, true_iff]
          refine Or.inr ⟨data, rfl, Or.inr ⟨endpoints, hlist, ?_⟩⟩
          intro e he
          simpa using List.find?_eq_none.mp hfind e he
        | some found =>
          simp only [hlist, hfind, false_iff, reduceCtorEq]
          rintro (h | ⟨d, hd, h | ⟨es, hes, hall⟩⟩)
          · exact absurd h (by simp)
          · cases hd
            rw [hlist] at h
            exact absurd h (by simp)
          · cases hd
            rw [hlist] at hes
            cases hes
            have hmem := List.mem_of_find?_eq_some hfind
            have hp := List.find?_some hfind
            rw [hall found hmem] at hp
            exact absurd hp (by simp)

/-- C26: wp_config_policy_link_endpoint_with_target issues a link-create
request exactly when it returns TRUE, and then it issues exactly one: the
requests recorded are those before followed by one request, with source =
target, source stream = target_stream, sink = ep, sink stream = ep_stream if
the direction of ep is input, and source = ep, source stream = ep_stream,
sink = target, sink stream = target_stream otherwise, the keep flag being the
one of the rule; the request is outstanding and pending_target is the target
afterwards. -/
theorem C26_request_oriented (ep : WpEndpoint) (ep_stream : Nat) (target : WpEndpoint)
    (target_stream : Nat) (data : WpParserEndpointLinkData) (s : WpConfigPolicy) :
    ((wp_config_policy_link_endpoint_with_target ep ep_stream target target_stream data s).1
        = true ↔
      requests_in (wp_config_policy_link_endpoint_with_target ep ep_stream target
        target_stream data s).2.trace ≠ requests_in s.trace) ∧
    ((wp_config_policy_link_endpoint_with_target ep ep_stream target target_stream data s).1
        = true →
      requests_in (wp_config_policy_link_endpoint_with_target ep ep_stream target
          target_stream data s).2.trace =
        requests_in s.trace ++
          [if ep.direction = pw_direction.PW_DIRECTION_INPUT then
             ⟨target, target_stream, ep, ep_stream, data.el.keep⟩
           else ⟨ep, ep_stream, target, target_stream, data.el.keep⟩] ∧
      (wp_config_policy_link_endpoint_with_target ep ep_stream target target_stream
          data s).2.link_requests =
        s.link_requests ++
          [if ep.direction = pw_direction.PW_DIRECTION_INPUT then
             ⟨target, target_stream, ep, ep_stream, data.el.keep⟩
           else ⟨ep, ep_stream, target, target_stream, data.el.keep⟩] ∧
      (wp_config_policy_link_endpoint_with_target ep ep_stream target target_stream
          data s).2.pending_target = some target) := by
  by_cases hal : already_linked_to s ep target
  · rw [link_endpoint_already_linked ep ep_stream target target_stream data s hal]
    simp
  · obtain ⟨s1, hcheck, hpt, hlr, hreq, _⟩ := check_existing_link_other ep target s hal
    rw [link_endpoint_after_check ep ep_stream target target_stream data s s1 hcheck]
    by_cases hp : s1.pending_target = some target
    · rw [if_pos hp]
      simp [hreq]
    · rw [if_neg hp]
      obtain ⟨c1, c2, c3, _⟩ := link_client_with_target_effect
        (decide (ep.direction = pw_direction.PW_DIRECTION_INPUT)) ep ep_stream target
        target_stream data
        (unlink_target_links (decide (ep.direction = pw_direction.PW_DIRECTION_INPUT))
          target { s1 with pending_target := some target })
      obtain ⟨u1, u2, u3, _⟩ := unlink_target_links_effect
        (decide (ep.direction = pw_direction.PW_DIRECTION_INPUT)) target
        { s1 with pending_target := some target }
      have e3 := u3.trans hreq
      have e2 := u2.trans hlr
      have horient : (if decide (ep.direction = pw_direction.PW_DIRECTION_INPUT) = true then
            (⟨target, target_stream, ep, ep_stream, data.el.keep⟩ : LinkRequest)
          else ⟨ep, ep_stream, target, target_stream, data.el.keep⟩) =
          (if ep.direction = pw_direction.PW_DIRECTION_INPUT then
            ⟨target, target_stream, ep, ep_stream, data.el.keep⟩
          else ⟨ep, ep_stream, target, target_stream, data.el.keep⟩) := by
        by_cases hd : ep.direction = pw_direction.PW_DIRECTION_INPUT <;> simp [hd]
      rw [e3, horient] at c3
      rw [e2, horient] at c2
      rw [u1] at c1
      refine ⟨⟨fun _ => ?_, fun _ => rfl⟩, fun _ => ⟨c3, c2, c1⟩⟩
      show requests_in _ ≠ _
      rw [c3]
      intro e
      have := congrArg List.length e
      simp at this

/-- C29 (amended): when wp_config_policy_link_endpoint_with_target returns
FALSE it has left pending_target unchanged and issued no link-create request.
If the endpoint has no link, or its first link leads to the target, the state
is left as it was: nothing is destroyed.  If the first link of the endpoint
leads to a different target, the attempt was abandoned because the target is
the claimed-pending target, and exactly that first link has been
destroyed. -/
theorem C29_false_return_frame (ep : WpEndpoint) (ep_stream : Nat) (target : WpEndpoint)
    (target_stream : Nat) (data : WpParserEndpointLinkData) (s : WpConfigPolicy)
    (hfalse : (wp_config_policy_link_endpoint_with_target ep ep_stream target target_stream
      data s).1 = false) :
    ((wp_config_policy_link_endpoint_with_target ep ep_stream target target_stream
        data s).2.pending_target = s.pending_target ∧
      (wp_config_policy_link_endpoint_with_target ep ep_stream target target_stream
        data s).2.link_requests = s.link_requests ∧
      requests_in (wp_config_policy_link_endpoint_with_target ep ep_stream target
        target_stream data s).2.trace = requests_in s.trace) ∧
    (wp_endpoint_get_links s ep = [] →
      (wp_config_policy_link_endpoint_with_target ep ep_stream target target_stream
        data s).2 = s) ∧
    (already_linked_to s ep target →
      (wp_config_policy_link_endpoint_with_target ep ep_stream target target_stream
        data s).2 = s) ∧
    (∀ l rest, wp_endpoint_get_links s ep = l :: rest → ¬ already_linked_to s ep target →
      s.pending_target = some target ∧
      (wp_config_policy_link_endpoint_with_target ep ep_stream target target_stream
        data s).2 = wp_endpoint_link_destroy l s ∧
      destroyed_in (wp_config_policy_link_endpoint_with_target ep ep_stream target
        target_stream data s).2.trace = destroyed_in s.trace ++ [l]) := by
  by_cases hal : already_linked_to s ep target
  · rw [link_endpoint_already_linked ep ep_stream target target_stream data s hal]
    refine ⟨⟨rfl, rfl, rfl⟩, fun _ => rfl, fun _ => rfl, fun l rest _ hn => absurd hal hn⟩
  · obtain ⟨s1, hcheck, hpt, hlr, hreq, hcases⟩ := check_existing_link_other ep target s hal
    rw [link_endpoint_after_check ep ep_stream target target_stream data s s1 hcheck] at hfalse ⊢
    by_cases hp : s1.pending_target = some target
    · rw [if_pos hp]
      refine ⟨⟨hpt, hlr, hreq⟩, ?_, fun h => absurd h hal, ?_⟩
      · intro hnil
        rcases hcases with e | ⟨l, rest, hl, _⟩
        · exact e
        · rw [hnil] at hl
          cases hl
      · intro l rest hl _
        rcases hcases with e | ⟨l2, rest2, hl2, e⟩
        · exfalso
          have hc : check_existing_link
              (decide (ep.direction = pw_direction.PW_DIRECTION_INPUT)) ep target s =
              some (wp_endpoint_link_destroy l s) := by
            unfold check_existing_link
            have hne : (if ep.direction = pw_direction.PW_DIRECTION_INPUT then
                l.source_endpoint else l.sink_endpoint) ≠ target := by
              intro e2
              apply hal
              unfold already_linked_to
              rw [hl]
              exact e2
            rw [hl]
            by_cases hd : ep.direction = pw_direction.PW_DIRECTION_INPUT
            · simp only [hd, if_true] at hne
              simp [hd, hne]
            · simp only [hd, if_false] at hne
              simp [hd, hne]
          rw [hcheck, e] at hc
          have htr := congrArg WpConfigPolicy.trace (Option.some.inj hc)
          have hlen := congrArg List.length htr
          simp [wp_endpoint_link_destroy, record] at hlen
        · rw [hl] at hl2
          cases hl2
          refine ⟨hpt ▸ hp, e, ?_⟩
          rw [e]
          exact (link_destroy_effect l s).2.2.2
    · rw [if_neg hp] at hfalse
      exact absurd hfalse (by simp)

/-- C29, at a concrete input: A, linked to B already, is handled with target
B: FALSE, and the state is left as it was. -/
theorem C29_false_return_frame_witness :
    (wp_config_policy_link_endpoint_with_target ep_A 4294967295 ep_B 4294967295
      (rule_to "B") (wp_config_policy_init true [ep_A, ep_B] [link_AB])).2 =
      wp_config_policy_init true [ep_A, ep_B] [link_AB] :=
  (C29_false_return_frame ep_A 4294967295 ep_B 4294967295 (rule_to "B")
    (wp_config_policy_init true [ep_A, ep_B] [link_AB]) (by decide)).2.2.1 (by decide)

/-- C29 as stated fails: A is linked to D and the target B of its rule is the
claimed-pending target.  The attempt to link A with B returns FALSE, issues
no request and leaves pending_target as it was, but the link of A to D has
been destroyed. -/
theorem C29_counterexample :
    (wp_config_policy_link_endpoint_with_target ep_A 4294967295 ep_B 4294967295 (rule_to "B")
      { wp_config_policy_init true [ep_A, ep_B, ep_D] [link_AD] with
        pending_target := some ep_B }).1 = false ∧
    (wp_config_policy_link_endpoint_with_target ep_A 4294967295 ep_B 4294967295 (rule_to "B")
      { wp_config_policy_init true [ep_A, ep_B, ep_D] [link_AD] with
        pending_target := some ep_B }).2.trace = [PolicyEvent.link_destroy link_AD] ∧
    (wp_config_policy_link_endpoint_with_target ep_A 4294967295 ep_B 4294967295 (rule_to "B")
      { wp_config_policy_init true [ep_A, ep_B, ep_D] [link_AD] with
        pending_target := some ep_B }).2.links = [] ∧
    (wp_config_policy_link_endpoint_with_target ep_A 4294967295 ep_B 4294967295 (rule_to "B")
      { wp_config_policy_init true [ep_A, ep_B, ep_D] [link_AD] with
        pending_target := some ep_B }).2.pending_target = some ep_B := by
  decide

end WpConfigPolicyModel

namespace WpSiAudioVirtualModel

/-- C27 (the code departs from the claim): of the three error paths of
on_node_activate_done only the first stops.  After a failed node activation
the error is reported and nothing else is done.  After a failed adapter
creation the error is reported and the function goes on: it sets the
properties, connects the signal, configures the missing adapter, reports a
second error if that fails, and activates the missing adapter.  After a
failed adapter configuration the error is reported and the adapter is
activated all the same; when that activation fails, on_adapter_activate_done
reports an error on the transition a second time. -/
theorem C27_error_paths_continue (env : SiEnv) (node : WpNode) (self : WpSiAudioVirtual)
    (e : String) (a : Nat) :
    (on_node_activate_done env node (some e) self).trace =
      self.trace ++ [SiEvent.return_error e] ∧
    (on_node_activate_done { env with wp_session_item_make := fun _ => none } node none
        self).trace =
      self.trace ++
        [SiEvent.return_error "si-audio-virtual: could not create si-audio-adapter",
         SiEvent.set_properties node.bound_id node.node_name,
         SiEvent.signal_connect none "adapter-ports-state-changed",
         SiEvent.configure none (adapter_props node self)] ++
        (if env.wp_session_item_configure none (adapter_props node self) then []
         else [SiEvent.return_error
           "si-audio-virtual: could not configure si-audio-adapter"]) ++
        [SiEvent.activate none env.WP_SESSION_ITEM_FEATURE_ACTIVE] ∧
    (on_node_activate_done
        { env with
          wp_session_item_make := fun _ => some a
          wp_session_item_configure := fun _ _ => false } node none self).trace =
      self.trace ++
        [SiEvent.set_properties node.bound_id node.node_name,
         SiEvent.signal_connect (some a) "adapter-ports-state-changed",
         SiEvent.configure (some a) (adapter_props node self),
         SiEvent.return_error "si-audio-virtual: could not configure si-audio-adapter",
         SiEvent.activate (some a) env.WP_SESSION_ITEM_FEATURE_ACTIVE] ∧
    errors_returned
      (on_node_activate_done si_env_no_adapter null_sink_node none virtual_item).trace = 2 ∧
    errors_returned
      (on_adapter_activate_done si_env_bad_configure (some "activation failed")
        (on_node_activate_done si_env_bad_configure null_sink_node none
          virtual_item)).trace = 2 := by
  refine ⟨rfl, ?_, ?_, by decide, by decide⟩
  · cases h : env.wp_session_item_configure none (adapter_props node self) <;>
      simp [adapter_props] at h <;>
      simp [on_node_activate_done, si_record, adapter_props, h]
  · simp [on_node_activate_done, si_record, adapter_props]

end WpSiAudioVirtualModel
